import Mathlib

/-!
Store-and-forward flash buffer of the Kargo sensor node.

A shallow embedding of `modules/kargo_drivers/utils/flash_buffer/kargo_flash_buffer.c`
and of `apps/kargopod_app/src/mqtt_manager.c`: initialisation, publish, the event
handler and the loop of the MQTT thread; together with the ring buffer and the BLE write
handler of the sample `samples/kargo_iot_sensor/src/main.c`, the conversions of the SHT4x
driver `sht4x.c`, and the BLE write handler of `apps/kargopod_app/src/ble_diag.c`.

* The file-scope statics of each C file become the fields of a state record and every C
  function becomes a pure function from the old state to the new state and the return code.
* `uint16_t` variables are natural numbers; every increment is reduced modulo `65536`.
* The Zephyr NVS file system is a map from ids to byte strings.  What the flash layer does
  to one call (perform it, or fail it with a negative errno) is an explicit argument.
* `CONFIG_KARGO_FLASH_BUFFER_SIZE` is a build-time constant that is not part of the sources;
  it is the argument `cap` of every function that uses it.
-/

namespace Kargo

/-! ## Machine integers, bytes, errno -/

/-- One byte of memory or of flash. -/
abbrev Byte := Fin 256

/-- A byte string: the content of one NVS entry, or the object representation of a C object. -/
abbrev Blob := List Byte

/-- Little-endian object representation of an unsigned value on `k` bytes. -/
def le_bytes : Nat → Nat → Blob
  | 0, _ => []
  | k + 1, n => ⟨n % 256, Nat.mod_lt n (by decide)⟩ :: le_bytes k (n / 256)

/-- Value of a little-endian byte string. -/
def le_value : Blob → Nat
  | [] => 0
  | b :: bs => b.val + 256 * le_value bs

/-- The element of `Fin m` that a value wraps to. -/
def fin_wrap (m : Nat) (h : 0 < m) (x : Nat) : Fin m := ⟨x % m, Nat.mod_lt x h⟩

/-- Errno values of Zephyr's `errno.h`. -/
def ENOENT : Int := 2

/-- Errno: no such device. -/
def ENODEV : Int := 19

/-- Errno: invalid argument. -/
def EINVAL : Int := 22

/-- Errno: no data available. -/
def ENODATA : Int := 61

/-- Errno: try again. -/
def EAGAIN : Int := 11

/-- Errno: operation not supported. -/
def ENOTSUP : Int := 134

/-! ## The NVS key/value store (external collaborator) -/

/-- What the flash layer does to one NVS call: `none` lets the call go through, `some e`
makes it fail with the negative errno `-(e+1)`. -/
abbrev Fault := Option Nat

/-- The return code of a failed call. -/
def Fault.rc (e : Nat) : Int := Int.negSucc e

/-- The NVS file system: the newest entry stored under each id, if any. -/
structure nvs_fs where
  entry : Nat → Option Blob

/-- The store after a successful write of `data` under `id`. -/
def nvs_fs.put (fs : nvs_fs) (id : Nat) (data : Blob) : nvs_fs :=
  { entry := fun k => if k = id then some data else fs.entry k }

/-- Effect of `memcpy(dst, src, src.length)` on the object representation `dst`. -/
def mem_write (dst src : Blob) : Blob := src ++ dst.drop src.length

/-- NVS `nvs_write(fs, id, data, len)` with `len` the length of `data`.  Returns the number of
bytes written (`0` when the same data is already stored), or a negative errno, in which case
the entry is untouched (single-key atomicity). -/
def nvs_write (f : Fault) (fs : nvs_fs) (id : Nat) (data : Blob) : nvs_fs × Int :=
  match f with
  | some e => (fs, Fault.rc e)
  | none =>
    if fs.entry id = some data then (fs.put id data, 0)
    else (fs.put id data, (data.length : Int))

/-- NVS `nvs_read(fs, id, dst, len)`: copies at most `len` bytes of the entry into the
destination object `dst` and returns the stored length; `-ENOENT` when there is no entry.
The first component is the destination object after the call. -/
def nvs_read (f : Fault) (fs : nvs_fs) (id : Nat) (dst : Blob) (len : Nat) : Blob × Int :=
  match f with
  | some e => (dst, Fault.rc e)
  | none =>
    match fs.entry id with
    | none => (dst, -ENOENT)
    | some b => (mem_write dst (b.take len), (b.length : Int))

/-! ## `struct kargo_sensor_reading` -/

/-- The reading record of `kargo_flash_buffer.h`.  Each scalar is kept as the unsigned value
of its object representation (the `int64_t` in two's complement, each `float` as its 32-bit
pattern); `reserved` are the three trailing bytes. -/
structure kargo_sensor_reading where
  timestamp : Fin 18446744073709551616
  temperature : Fin 4294967296
  humidity : Fin 4294967296
  accel_x : Fin 4294967296
  accel_y : Fin 4294967296
  accel_z : Fin 4294967296
  latitude : Fin 4294967296
  longitude : Fin 4294967296
  gnss_valid : Fin 256
  reserved : Fin 16777216
  deriving DecidableEq

/-- Size of the packed struct: `sizeof(struct kargo_sensor_reading)`. -/
def READING_SIZE : Nat := 40

/-- Object representation of a reading (packed, little-endian). -/
def kargo_sensor_reading.to_bytes (r : kargo_sensor_reading) : Blob :=
  le_bytes 8 r.timestamp.val ++ (le_bytes 4 r.temperature.val ++ (le_bytes 4 r.humidity.val ++
  (le_bytes 4 r.accel_x.val ++ (le_bytes 4 r.accel_y.val ++ (le_bytes 4 r.accel_z.val ++
  (le_bytes 4 r.latitude.val ++ (le_bytes 4 r.longitude.val ++ (le_bytes 1 r.gnss_valid.val ++
  le_bytes 3 r.reserved.val))))))))

/-- The reading whose object representation starts with the given bytes. -/
def kargo_sensor_reading.of_bytes (b0 : Blob) : kargo_sensor_reading :=
  let b1 := b0.drop 8
  let b2 := b1.drop 4
  let b3 := b2.drop 4
  let b4 := b3.drop 4
  let b5 := b4.drop 4
  let b6 := b5.drop 4
  let b7 := b6.drop 4
  let b8 := b7.drop 4
  let b9 := b8.drop 1
  { timestamp := fin_wrap _ (by decide) (le_value (b0.take 8))
    temperature := fin_wrap _ (by decide) (le_value (b1.take 4))
    humidity := fin_wrap _ (by decide) (le_value (b2.take 4))
    accel_x := fin_wrap _ (by decide) (le_value (b3.take 4))
    accel_y := fin_wrap _ (by decide) (le_value (b4.take 4))
    accel_z := fin_wrap _ (by decide) (le_value (b5.take 4))
    latitude := fin_wrap _ (by decide) (le_value (b6.take 4))
    longitude := fin_wrap _ (by decide) (le_value (b7.take 4))
    gnss_valid := fin_wrap _ (by decide) (le_value (b8.take 1))
    reserved := fin_wrap _ (by decide) (le_value (b9.take 3)) }

/-! ## `kargo_flash_buffer.c` -/

/-- NVS id of the persisted count. -/
def NVS_COUNT_ID : Nat := 0

/-- First slot id of the read cursor. -/
def NVS_READ_ID_BASE : Nat := 1

/-- First slot id of the write cursor. -/
def NVS_WRITE_ID_BASE : Nat := 1

/-- The file-scope statics of `kargo_flash_buffer.c`. -/
structure flash_buffer where
  nvs : nvs_fs
  buffered_count : Nat
  read_id : Nat
  write_id : Nat
  initialized : Bool

/-- The statics as the C initialisers leave them at boot, over the given flash content. -/
def flash_buffer.boot (fs : nvs_fs) : flash_buffer :=
  { nvs := fs, buffered_count := 0, read_id := 1, write_id := 1, initialized := false }

/-- What the platform answers during `kargo_flash_buffer_init`. -/
structure init_env where
  device_ready : Bool
  page_info_rc : Int
  mount_rc : Int
  read_fault : Fault

/-- C `kargo_flash_buffer_init`. -/
def kargo_flash_buffer_init (cap : Nat) (env : init_env) (s : flash_buffer) :
    flash_buffer × Int :=
  if s.initialized then (s, 0)
  else if !env.device_ready then (s, -ENODEV)
  else if env.page_info_rc ≠ 0 then (s, env.page_info_rc)
  else if env.mount_rc ≠ 0 then (s, env.mount_rc)
  else
    let rd := nvs_read env.read_fault s.nvs NVS_COUNT_ID (le_bytes 2 s.buffered_count) 2
    let count := le_value rd.1
    if rd.2 < 0 then
      ({ s with buffered_count := 0, read_id := NVS_READ_ID_BASE,
                write_id := NVS_WRITE_ID_BASE, initialized := true }, 0)
    else
      let w := (count + NVS_WRITE_ID_BASE) % 65536
      ({ s with buffered_count := count, read_id := NVS_READ_ID_BASE,
                write_id := if w > cap then NVS_WRITE_ID_BASE else w,
                initialized := true }, 0)

/-- C `kargo_flash_buffer_store`; `f_slot` and `f_count` are the fates of the slot write and
of the count write. -/
def kargo_flash_buffer_store (cap : Nat) (f_slot f_count : Fault) (s : flash_buffer)
    (reading : kargo_sensor_reading) : flash_buffer × Int :=
  if !s.initialized then (s, -EINVAL)
  else
    let s1 : flash_buffer :=
      if s.buffered_count ≥ cap then
        let r := (s.read_id + 1) % 65536
        { s with read_id := if r > cap then NVS_READ_ID_BASE else r }
      else
        { s with buffered_count := (s.buffered_count + 1) % 65536 }
    let wr := nvs_write f_slot s1.nvs s1.write_id reading.to_bytes
    if wr.2 < 0 then ({ s1 with nvs := wr.1 }, wr.2)
    else
      let w := (s1.write_id + 1) % 65536
      let s2 : flash_buffer :=
        { s1 with nvs := wr.1, write_id := if w > cap then NVS_WRITE_ID_BASE else w }
      let wc := nvs_write f_count s2.nvs NVS_COUNT_ID (le_bytes 2 s2.buffered_count)
      ({ s2 with nvs := wc.1 }, 0)

/-- C `kargo_flash_buffer_retrieve`; `reading` is the content of the caller's object before
the call, the second component of the result its content after the call. -/
def kargo_flash_buffer_retrieve (cap : Nat) (f_slot f_count : Fault) (s : flash_buffer)
    (reading : kargo_sensor_reading) : flash_buffer × kargo_sensor_reading × Int :=
  if !s.initialized then (s, reading, -EINVAL)
  else if s.buffered_count = 0 then (s, reading, -ENODATA)
  else
    let rd := nvs_read f_slot s.nvs s.read_id reading.to_bytes READING_SIZE
    let out := kargo_sensor_reading.of_bytes rd.1
    if rd.2 < 0 then (s, out, rd.2)
    else
      let r := (s.read_id + 1) % 65536
      let s1 : flash_buffer :=
        { s with read_id := if r > cap then NVS_READ_ID_BASE else r,
                 buffered_count := s.buffered_count - 1 }
      let wc := nvs_write f_count s1.nvs NVS_COUNT_ID (le_bytes 2 s1.buffered_count)
      ({ s1 with nvs := wc.1 }, out, 0)

/-- C `kargo_flash_buffer_count`. -/
def kargo_flash_buffer_count (s : flash_buffer) : Nat := s.buffered_count

/-- C `kargo_flash_buffer_clear`. -/
def kargo_flash_buffer_clear (f_count : Fault) (s : flash_buffer) : flash_buffer × Int :=
  if !s.initialized then (s, -EINVAL)
  else
    let s1 : flash_buffer :=
      { s with buffered_count := 0, read_id := NVS_READ_ID_BASE,
               write_id := NVS_WRITE_ID_BASE }
    let wc := nvs_write f_count s1.nvs NVS_COUNT_ID (le_bytes 2 s1.buffered_count)
    ({ s1 with nvs := wc.1 }, 0)

/-- The flash content at the point where C `kargo_flash_buffer_store` has performed its slot
write and not yet its write of the count: what a restart at that point finds. -/
def store_torn (cap : Nat) (s : flash_buffer) (reading : kargo_sensor_reading) : nvs_fs :=
  if !s.initialized then s.nvs
  else
    let s1 : flash_buffer :=
      if s.buffered_count ≥ cap then
        let r := (s.read_id + 1) % 65536
        { s with read_id := if r > cap then NVS_READ_ID_BASE else r }
      else
        { s with buffered_count := (s.buffered_count + 1) % 65536 }
    (nvs_write none s1.nvs s1.write_id reading.to_bytes).1

/-- One call of the flash-buffer interface together with the fate of its NVS operations. -/
inductive fb_call where
  | store (reading : kargo_sensor_reading) (f_slot f_count : Fault)
  | retrieve (reading : kargo_sensor_reading) (f_slot f_count : Fault)
  | clear (f_count : Fault)

/-- The buffer after one call. -/
def fb_step (cap : Nat) (s : flash_buffer) : fb_call → flash_buffer
  | .store r f g => (kargo_flash_buffer_store cap f g s r).1
  | .retrieve r f g => (kargo_flash_buffer_retrieve cap f g s r).1
  | .clear g => (kargo_flash_buffer_clear g s).1

/-- The buffer after a sequence of calls. -/
def fb_run (cap : Nat) (s : flash_buffer) (calls : List fb_call) : flash_buffer :=
  calls.foldl (fb_step cap) s

/-- Consecutive `kargo_flash_buffer_store` calls whose NVS writes all go through: the final
buffer and the return codes. -/
def store_seq (cap : Nat) (s : flash_buffer) :
    List kargo_sensor_reading → flash_buffer × List Int
  | [] => (s, [])
  | r :: rs =>
    let a := kargo_flash_buffer_store cap none none s r
    let b := store_seq cap a.1 rs
    (b.1, a.2 :: b.2)

/-- Consecutive `kargo_flash_buffer_retrieve` calls, one per listed caller object (the list
gives the content of each object before its call), no NVS call being failed by the flash
layer: the final buffer and, per call, the return code and the object after the call. -/
def retrieve_seq (cap : Nat) (s : flash_buffer) :
    List kargo_sensor_reading → flash_buffer × List (Int × kargo_sensor_reading)
  | [] => (s, [])
  | reading :: rest =>
    let a := kargo_flash_buffer_retrieve cap none none s reading
    let b := retrieve_seq cap a.1 rest
    (b.1, (a.2.2, a.2.1) :: b.2)

/-- The state after a restart: the statics are reinitialised, the flash content is kept. -/
def flash_buffer.reboot (s : flash_buffer) : flash_buffer := flash_buffer.boot s.nvs

/-! ## `mqtt_manager.c` -/

/-- The record `struct sensor_data` of `sensor_manager.h`, fields as in
`kargo_sensor_reading`. -/
structure sensor_data where
  timestamp : Fin 18446744073709551616
  temperature : Fin 4294967296
  humidity : Fin 4294967296
  accel_x : Fin 4294967296
  accel_y : Fin 4294967296
  accel_z : Fin 4294967296
  latitude : Fin 4294967296
  longitude : Fin 4294967296
  gnss_valid : Fin 256
  deriving DecidableEq

/-- The statics of `mqtt_manager.c`, the flash-buffer module it drives, and the trace of the
`mqtt_publish` calls made so far: for each call the nine values formatted into the payload
and the value the transport returned. -/
structure mqtt_manager where
  connected : Bool
  initialized : Bool
  fb : flash_buffer
  published : List (sensor_data × Int)

/-- What the environment contributes to one `mqtt_manager_publish` call: the indeterminate
`reserved` bytes of the local `reading`, the return value of `mqtt_publish`, and the fate of
the two NVS writes of a fallback store. -/
structure publish_env where
  reserved : Fin 16777216
  publish_rc : Int
  f_slot : Fault
  f_count : Fault

/-- C `mqtt_manager_publish`. -/
def mqtt_manager_publish (cap : Nat) (env : publish_env) (m : mqtt_manager)
    (data : sensor_data) : mqtt_manager × Int :=
  if !m.initialized then (m, -EINVAL)
  else
    let reading : kargo_sensor_reading :=
      { timestamp := data.timestamp, temperature := data.temperature,
        humidity := data.humidity, accel_x := data.accel_x, accel_y := data.accel_y,
        accel_z := data.accel_z, latitude := data.latitude, longitude := data.longitude,
        gnss_valid := data.gnss_valid, reserved := env.reserved }
    if !m.connected then
      let st := kargo_flash_buffer_store cap env.f_slot env.f_count m.fb reading
      ({ m with fb := st.1 }, st.2)
    else
      let payload : sensor_data :=
        { timestamp := reading.timestamp, temperature := reading.temperature,
          humidity := reading.humidity, accel_x := reading.accel_x,
          accel_y := reading.accel_y, accel_z := reading.accel_z,
          latitude := reading.latitude, longitude := reading.longitude,
          gnss_valid := reading.gnss_valid }
      let m1 : mqtt_manager := { m with published := m.published ++ [(payload, env.publish_rc)] }
      if env.publish_rc ≠ 0 then
        let st := kargo_flash_buffer_store cap env.f_slot env.f_count m1.fb reading
        ({ m1 with fb := st.1 }, st.2)
      else (m1, 0)

/-- The events of `enum mqtt_evt_type` that `mqtt_evt_handler` distinguishes, with the
`result` field of the event. -/
inductive mqtt_evt where
  | connack (result : Int)
  | disconnect (result : Int)
  | puback
  | other

/-- C `mqtt_evt_handler`. -/
def mqtt_evt_handler (m : mqtt_manager) : mqtt_evt → mqtt_manager
  | .connack result =>
    if result = 0 then { m with connected := true } else { m with connected := false }
  | .disconnect _ => { m with connected := false }
  | .puback => m
  | .other => m

/-- C `mqtt_manager_is_connected`. -/
def mqtt_manager_is_connected (m : mqtt_manager) : Bool := m.connected

/-- C `mqtt_manager_get_buffered_count`. -/
def mqtt_manager_get_buffered_count (m : mqtt_manager) : Nat := kargo_flash_buffer_count m.fb

/-- What the environment contributes to one pass through the drain block of
`mqtt_thread_fn`: the indeterminate content of the local `buffered`, the fate of the slot
read and of the count write of the retrieve, and the environment of the publish. -/
structure drain_env where
  buffered : kargo_sensor_reading
  f_slot : Fault
  f_count : Fault
  pub : publish_env

/-- The block "Publish buffered readings" of C `mqtt_thread_fn`: one retrieve followed by
`mqtt_manager_publish` of the retrieved reading. -/
def mqtt_thread_fn_drain (cap : Nat) (env : drain_env) (m : mqtt_manager) : mqtt_manager :=
  if kargo_flash_buffer_count m.fb > 0 then
    let rt := kargo_flash_buffer_retrieve cap env.f_slot env.f_count m.fb env.buffered
    let m1 : mqtt_manager := { m with fb := rt.1 }
    if rt.2.2 = 0 then
      let buffered := rt.2.1
      let data : sensor_data :=
        { timestamp := buffered.timestamp, temperature := buffered.temperature,
          humidity := buffered.humidity, accel_x := buffered.accel_x,
          accel_y := buffered.accel_y, accel_z := buffered.accel_z,
          latitude := buffered.latitude, longitude := buffered.longitude,
          gnss_valid := buffered.gnss_valid }
      (mqtt_manager_publish cap env.pub m1 data).1
    else m1
  else m

/-- Consecutive `mqtt_manager_publish` calls, each with its own environment. -/
def publish_seq (cap : Nat) (m : mqtt_manager) :
    List (sensor_data × publish_env) → mqtt_manager
  | [] => m
  | (d, env) :: rest => publish_seq cap (mqtt_manager_publish cap env m d).1 rest

/-- Consecutive passes through the drain block, each with its own environment. -/
def drain_seq (cap : Nat) (m : mqtt_manager) : List drain_env → mqtt_manager
  | [] => m
  | env :: rest => drain_seq cap (mqtt_thread_fn_drain cap env m) rest

/-- The statics of `mqtt_manager.c` and of the flash-buffer module as the C initialisers
leave them at boot, over the given flash content. -/
def mqtt_manager.boot (fs : nvs_fs) : mqtt_manager :=
  { connected := false, initialized := false, fb := flash_buffer.boot fs, published := [] }

/-- C `mqtt_manager_init`.  The configuration of the MQTT client and the creation of the
thread, between the flash-buffer initialisation and `initialized = true`, touch none of the
modelled statics. -/
def mqtt_manager_init (cap : Nat) (env : init_env) (m : mqtt_manager) : mqtt_manager × Int :=
  if m.initialized then (m, 0)
  else
    let ret := kargo_flash_buffer_init cap env m.fb
    if ret.2 < 0 then ({ m with fb := ret.1 }, ret.2)
    else ({ m with fb := ret.1, initialized := true }, 0)

/-- The events that the MQTT client hands to `mqtt_evt_handler` while one library call runs. -/
def deliver (m : mqtt_manager) (evts : List mqtt_evt) : mqtt_manager :=
  evts.foldl mqtt_evt_handler m

/-- What the environment contributes to one iteration of the loop of `mqtt_thread_fn`: the
return value of each library call, the events the client hands to the handler during it,
the `POLLIN` bit of `fds[0].revents`, and the environment of the drain block.  The events of
`mqtt_disconnect` are left out: the loop clears `connected` right after each such call. -/
structure thread_env where
  connect_rc : Int
  connect_evts : List mqtt_evt
  poll_rc : Int
  pollin : Bool
  live_rc : Int
  live_evts : List mqtt_evt
  input_rc : Int
  input_evts : List mqtt_evt
  drain : drain_env

/-- One iteration of the loop of C `mqtt_thread_fn` up to the comment "Publish buffered
readings": the statics at that point, and whether control reaches the block (it does not
after a `continue` or when the `if (connected)` at "Process MQTT" is not taken). -/
def mqtt_thread_fn_head (env : thread_env) (m : mqtt_manager) : mqtt_manager × Bool :=
  let m1 : mqtt_manager := if !m.connected then deliver m env.connect_evts else m
  if !m.connected && decide (env.connect_rc < 0) then (m1, false)
  else if m1.connected then
    if env.poll_rc < 0 then ({ m1 with connected := false }, false)
    else
      let m2 : mqtt_manager := deliver m1 env.live_evts
      let m3 : mqtt_manager :=
        if env.live_rc ≠ 0 ∧ env.live_rc ≠ -EAGAIN then { m2 with connected := false } else m2
      let m4 : mqtt_manager :=
        if env.pollin then
          let m5 : mqtt_manager := deliver m3 env.input_evts
          if env.input_rc ≠ 0 then { m5 with connected := false } else m5
        else m3
      (m4, true)
  else (m1, false)

/-- One iteration of the loop of C `mqtt_thread_fn`. -/
def mqtt_thread_fn_iter (cap : Nat) (env : thread_env) (m : mqtt_manager) : mqtt_manager :=
  let at_drain := mqtt_thread_fn_head env m
  if at_drain.2 then mqtt_thread_fn_drain cap env.drain at_drain.1 else at_drain.1

/-! ## The ring buffer of `samples/kargo_iot_sensor/src/main.c` -/

/-- The capacity of the sample's ring buffer. -/
def MAX_BUFFERED_READINGS : Nat := 100

/-- The file-scope statics `nvs`, `nvs_read_id`, `nvs_write_id` and `buffered_count` of the
sample. -/
structure sample_storage where
  nvs : nvs_fs
  nvs_read_id : Nat
  nvs_write_id : Nat
  buffered_count : Nat

/-- The sample's statics as the C initialisers leave them at boot. -/
def sample_storage.boot (fs : nvs_fs) : sample_storage :=
  { nvs := fs, nvs_read_id := 1, nvs_write_id := 1, buffered_count := 0 }

/-- C `init_storage` of the sample. -/
def init_storage (env : init_env) (t : sample_storage) : sample_storage × Int :=
  if !env.device_ready then (t, -ENODEV)
  else if env.page_info_rc ≠ 0 then (t, env.page_info_rc)
  else if env.mount_rc ≠ 0 then (t, env.mount_rc)
  else
    let rd := nvs_read env.read_fault t.nvs 0 (le_bytes 2 t.buffered_count) 2
    let count := le_value rd.1
    if rd.2 < 0 then
      ({ t with buffered_count := 0, nvs_read_id := 1, nvs_write_id := 1 }, 0)
    else
      ({ t with buffered_count := count, nvs_read_id := 1,
                nvs_write_id := (count + 1) % 65536 }, 0)

/-- C `buffer_reading` of the sample; `reading` is the object representation of the
sample's `struct sensor_reading`. -/
def buffer_reading (f_slot f_count : Fault) (t : sample_storage) (reading : Blob) :
    sample_storage × Int :=
  let t1 : sample_storage :=
    if t.buffered_count ≥ MAX_BUFFERED_READINGS then
      let r := (t.nvs_read_id + 1) % 65536
      { t with nvs_read_id := if r > MAX_BUFFERED_READINGS then 1 else r }
    else
      { t with buffered_count := (t.buffered_count + 1) % 65536 }
  let wr := nvs_write f_slot t1.nvs t1.nvs_write_id reading
  if wr.2 < 0 then ({ t1 with nvs := wr.1 }, wr.2)
  else
    let w := (t1.nvs_write_id + 1) % 65536
    let t2 : sample_storage :=
      { t1 with nvs := wr.1, nvs_write_id := if w > MAX_BUFFERED_READINGS then 1 else w }
    let wc := nvs_write f_count t2.nvs 0 (le_bytes 2 t2.buffered_count)
    ({ t2 with nvs := wc.1 }, 0)

/-- C `get_buffered_reading` of the sample; `reading` is the object representation of the
caller's object before the call, the second component of the result the one after it. -/
def get_buffered_reading (f_slot f_count : Fault) (t : sample_storage) (reading : Blob) :
    sample_storage × Blob × Int :=
  if t.buffered_count = 0 then (t, reading, -ENODATA)
  else
    let rd := nvs_read f_slot t.nvs t.nvs_read_id reading reading.length
    if rd.2 < 0 then (t, rd.1, rd.2)
    else
      let r := (t.nvs_read_id + 1) % 65536
      let t1 : sample_storage :=
        { t with nvs_read_id := if r > MAX_BUFFERED_READINGS then 1 else r,
                 buffered_count := t.buffered_count - 1 }
      let wc := nvs_write f_count t1.nvs 0 (le_bytes 2 t1.buffered_count)
      ({ t1 with nvs := wc.1 }, rd.1, 0)

/-- The sample's statics carry the same count and cursors as the module's. -/
def same_ring (s : flash_buffer) (t : sample_storage) : Prop :=
  t.buffered_count = s.buffered_count ∧ t.nvs_read_id = s.read_id ∧
  t.nvs_write_id = s.write_id

/-! ## `sht4x.c` -/

/-- The record `struct sht4x_data`: `temperature` is an `int16_t`, `humidity` a
`uint16_t`. -/
structure sht4x_data where
  temperature : Int
  humidity : Nat

/-- Conversion of an `int` value to `int16_t` (two's complement wrap). -/
def to_int16 (x : Int) : Int := (x + 32768) % 65536 - 32768

/-- Conversion of an `int` value to `uint16_t` (reduction modulo 65536). -/
def to_uint16 (x : Int) : Nat := (x % 65536).toNat

/-- What the I2C bus answers during one `sht4x_sample_fetch`: the results of the write and
of the read, and the six bytes read into `rx_buf`. -/
structure fetch_env where
  write_rc : Int
  read_rc : Int
  rx0 : Byte
  rx1 : Byte
  rx2 : Byte
  rx3 : Byte
  rx4 : Byte
  rx5 : Byte

/-- C `sht4x_sample_fetch`.  The two raw words are `uint16_t`, the arithmetic is done in
`int32_t` with C's truncating division, and each result is converted to the type of the
field that receives it. -/
def sht4x_sample_fetch (env : fetch_env) (data : sht4x_data) : sht4x_data × Int :=
  if env.write_rc < 0 then (data, env.write_rc)
  else if env.read_rc < 0 then (data, env.read_rc)
  else
    let temp_raw : Nat := (env.rx0.val <<< 8 ||| env.rx1.val) % 65536
    let temperature := to_int16 (-45 + Int.tdiv (175 * (temp_raw : Int)) 65535)
    let hum_raw : Nat := (env.rx3.val <<< 8 ||| env.rx4.val) % 65536
    let humidity := to_uint16 (Int.tdiv (125 * (hum_raw : Int)) 65535 - 6)
    ({ temperature := temperature, humidity := humidity }, 0)

/-- The channels of `enum sensor_channel` that `sht4x_channel_get` distinguishes. -/
inductive sensor_channel where
  | SENSOR_CHAN_AMBIENT_TEMP
  | SENSOR_CHAN_HUMIDITY
  | other

/-- The record `struct sensor_value`. -/
structure sensor_value where
  val1 : Int
  val2 : Int
  deriving DecidableEq

/-- C `sht4x_channel_get`; `val` is the caller's object before the call. -/
def sht4x_channel_get (data : sht4x_data) (chan : sensor_channel) (val : sensor_value) :
    sensor_value × Int :=
  match chan with
  | .SENSOR_CHAN_AMBIENT_TEMP => ({ val1 := data.temperature, val2 := 0 }, 0)
  | .SENSOR_CHAN_HUMIDITY => ({ val1 := (data.humidity : Int), val2 := 0 }, 0)
  | .other => (val, -ENOTSUP)

/-- The humidity, in percent, that the comment in `sht4x_sample_fetch` documents for a raw
word: `RH = -6 + 125 * raw / 65535`, rounded down. -/
def rh_formula (hum_raw : Nat) : Int := (125 * (hum_raw : Int)) / 65535 - 6

/-- An I2C exchange that succeeds and reads the humidity word `hum_raw`, every other byte
zero. -/
def fetch_env.humidity (hum_raw : Nat) : fetch_env :=
  { write_rc := 0, read_rc := 0, rx0 := 0, rx1 := 0, rx2 := 0,
    rx3 := fin_wrap _ (by decide) (hum_raw / 256), rx4 := fin_wrap _ (by decide) hum_raw,
    rx5 := 0 }

/-! ## The BLE diagnostic write handlers -/

/-- ATT error code for an invalid offset. -/
def BT_ATT_ERR_INVALID_OFFSET : Int := 7

/-- Memory seen from the start of a 256-byte `char` array: the cells 0 to 255 are the
array, the cells from 256 on are what follows it. -/
abbrev Cells := Nat → Byte

/-- Effect of `memcpy(base + offset, src, src.length)`. -/
def copy_into (m : Cells) (offset : Nat) (src : Blob) : Cells :=
  fun k => if offset ≤ k ∧ k < offset + src.length then src.getD (k - offset) 0 else m k

/-- C `write_diag` of `ble_diag.c`: `diag_data` is the memory at the array `diag_data`,
`buf` the bytes of the write request, `len` and `offset` its 16-bit length and offset. -/
def write_diag (diag_data : Cells) (buf : Blob) (len offset : Nat) : Cells × Int :=
  if offset + len > 256 - 1 then (diag_data, -BT_ATT_ERR_INVALID_OFFSET)
  else
    let m1 := copy_into diag_data offset (buf.take len)
    ((fun k => if k = offset + len then 0 else m1 k), (len : Int))

/-- C `write_diagnostic` of the sample: the same handler over `diagnostic_data`, with the
bound `sizeof(diagnostic_data)`. -/
def write_diagnostic (diagnostic_data : Cells) (buf : Blob) (len offset : Nat) : Cells × Int :=
  if offset + len > 256 then (diagnostic_data, -BT_ATT_ERR_INVALID_OFFSET)
  else
    let m1 := copy_into diagnostic_data offset (buf.take len)
    ((fun k => if k = offset + len then 0 else m1 k), (len : Int))

/-! ## Specification vocabulary -/

/-- The C idiom `id++; if (id > CONFIG_KARGO_FLASH_BUFFER_SIZE) id = 1;` on a `uint16_t`. -/
def inc_wrap (cap id : Nat) : Nat := if (id + 1) % 65536 > cap then 1 else (id + 1) % 65536

/-- The wraparound successor of a slot id in the slot space `1 .. cap`. -/
def next_slot (cap id : Nat) : Nat := if id = cap then 1 else id + 1

/-- The slot id reached from `rd` after `i` steps forward, for `rd` in `1 .. cap` and
`i ≤ cap`. -/
def slot_at (cap rd i : Nat) : Nat := if rd + i ≤ cap then rd + i else rd + i - cap

/-- The bounded drop-oldest list: push appends at the tail and drops the head when the
length is already the capacity. -/
def push_oldest (cap : Nat) (q : List kargo_sensor_reading) (r : kargo_sensor_reading) :
    List kargo_sensor_reading :=
  if q.length ≥ cap then q.tail ++ [r] else q ++ [r]

/-- The buffer holds the readings `q`, oldest first: count and cursors are consistent and
the slots walked forward from the read cursor hold the object representations of `q`. -/
structure holds (cap : Nat) (s : flash_buffer) (q : List kargo_sensor_reading) : Prop where
  init : s.initialized = true
  rd_lo : 1 ≤ s.read_id
  rd_hi : s.read_id ≤ cap
  count : s.buffered_count = q.length
  bound : q.length ≤ cap
  wr : s.write_id = slot_at cap s.read_id q.length
  slots : ∀ i r, q[i]? = some r → s.nvs.entry (slot_at cap s.read_id i) = some r.to_bytes

/-- Both cursors are slot ids. -/
def cursors_in_range (cap : Nat) (s : flash_buffer) : Prop :=
  1 ≤ s.read_id ∧ s.read_id ≤ cap ∧ 1 ≤ s.write_id ∧ s.write_id ≤ cap

/-- The count that the entry under id 0 encodes, if there is one. -/
def persisted_count (fs : nvs_fs) : Option Nat := (fs.entry NVS_COUNT_ID).map le_value

/-- The count of buffer `t` is the one persisted under id 0, and the one that an
initialisation after a restart on the same flash content loads. -/
def count_tracked (cap : Nat) (env : init_env) (t : flash_buffer) : Prop :=
  persisted_count t.nvs = some (kargo_flash_buffer_count t) ∧
  kargo_flash_buffer_count (kargo_flash_buffer_init cap env t.reboot).1 =
    kargo_flash_buffer_count t

/-- One call of the queue interface when every NVS operation goes through: a push of a
reading, or a pop into a caller object with the given content. -/
inductive queue_call where
  | push (reading : kargo_sensor_reading)
  | pop (reading : kargo_sensor_reading)

/-- The call of the flash-buffer interface that carries out a queue call. -/
def queue_call.to_fb : queue_call → fb_call
  | .push r => fb_call.store r none none
  | .pop buf => fb_call.retrieve buf none none

/-- The abstract queue after one call: push is `push_oldest`, pop removes the head. -/
def queue_step (cap : Nat) (q : List kargo_sensor_reading) :
    queue_call → List kargo_sensor_reading
  | .push r => push_oldest cap q r
  | .pop _ => q.tail

/-- The abstract queue after a sequence of calls. -/
def queue_run (cap : Nat) (q : List kargo_sensor_reading) (calls : List queue_call) :
    List kargo_sensor_reading :=
  calls.foldl (queue_step cap) q

/-- What a pop of the abstract queue `q` answers into a caller object holding `buf`: the
head and 0, or the untouched object and `-ENODATA` when the queue is empty. -/
def pop_reply (q : List kargo_sensor_reading) (buf : kargo_sensor_reading) :
    kargo_sensor_reading × Int :=
  match q.head? with
  | some x => (x, 0)
  | none => (buf, -ENODATA)

/-- An initialised buffer that is empty with both cursors on slot 1. -/
def is_fresh (s : flash_buffer) : Prop :=
  s.initialized = true ∧ s.buffered_count = 0 ∧ s.read_id = 1 ∧ s.write_id = 1

/-- The reading that `mqtt_manager_publish` builds from a data record. -/
def sensor_data.to_reading (d : sensor_data) (reserved : Fin 16777216) :
    kargo_sensor_reading :=
  { timestamp := d.timestamp, temperature := d.temperature, humidity := d.humidity,
    accel_x := d.accel_x, accel_y := d.accel_y, accel_z := d.accel_z,
    latitude := d.latitude, longitude := d.longitude, gnss_valid := d.gnss_valid,
    reserved := reserved }

/-- The nine data fields of a reading. -/
def kargo_sensor_reading.data (r : kargo_sensor_reading) : sensor_data :=
  { timestamp := r.timestamp, temperature := r.temperature, humidity := r.humidity,
    accel_x := r.accel_x, accel_y := r.accel_y, accel_z := r.accel_z,
    latitude := r.latitude, longitude := r.longitude, gnss_valid := r.gnss_valid }

/-- A flash partition without any NVS entry. -/
def blank_flash : nvs_fs := { entry := fun _ => none }

/-- A platform on which every step of the initialisation goes through. -/
def platform_ok : init_env :=
  { device_ready := true, page_info_rc := 0, mount_rc := 0, read_fault := none }

/-- A sample reading: the given timestamp, every other byte zero. -/
def mk_reading (t : Nat) : kargo_sensor_reading :=
  { timestamp := fin_wrap _ (by decide) t, temperature := 0, humidity := 0, accel_x := 0,
    accel_y := 0, accel_z := 0, latitude := 0, longitude := 0, gnss_valid := 0,
    reserved := 0 }

/-- A sample data record: the given timestamp, every other field zero. -/
def mk_data (t : Nat) : sensor_data :=
  { timestamp := fin_wrap _ (by decide) t, temperature := 0, humidity := 0, accel_x := 0,
    accel_y := 0, accel_z := 0, latitude := 0, longitude := 0, gnss_valid := 0 }

/-- A publish environment without `reserved` garbage in which `mqtt_publish` returns
`publish_rc` and both NVS writes go through. -/
def publish_env.clean (publish_rc : Int) : publish_env :=
  { reserved := 0, publish_rc := publish_rc, f_slot := none, f_count := none }

/-- A drain environment whose local `buffered` starts zeroed, in which the NVS operations go
through and `mqtt_publish` returns `publish_rc`. -/
def drain_env.clean (publish_rc : Int) : drain_env :=
  { buffered := mk_reading 0, f_slot := none, f_count := none,
    pub := publish_env.clean publish_rc }

/-- An initialised, disconnected manager over the given buffer, nothing published yet. -/
def mqtt_manager.offline (fb : flash_buffer) : mqtt_manager :=
  { connected := false, initialized := true, fb := fb, published := [] }

/-- A consistent buffer of capacity 3 holding `mk_reading 5` and `mk_reading 6`: read cursor
on slot 2, write cursor wrapped to slot 1. -/
def sample_buffer : flash_buffer :=
  { nvs := ((blank_flash.put 0 (le_bytes 2 2)).put 2 (mk_reading 5).to_bytes).put 3
      (mk_reading 6).to_bytes,
    buffered_count := 2, read_id := 2, write_id := 1, initialized := true }

/-- A full buffer of capacity 3 after one more store whose slot write failed: three stores
fill the slots 1 to 3, the fourth advances the read cursor and fails with `-EIO`. -/
def stalled_buffer : flash_buffer :=
  fb_run 3 (flash_buffer.mk blank_flash 0 1 1 true)
    [fb_call.store (mk_reading 1) none none, fb_call.store (mk_reading 2) none none,
     fb_call.store (mk_reading 3) none none, fb_call.store (mk_reading 4) (some 4) none]

/-- The buffer of capacity 3 after an initialisation on a blank flash partition, the stores
of `mk_reading 1` and `mk_reading 2`, and one retrieve: count 1, read cursor on slot 2, write
cursor on slot 3. -/
def drained_once : flash_buffer :=
  (kargo_flash_buffer_retrieve 3 none none
    (store_seq 3 (kargo_flash_buffer_init 3 platform_ok (flash_buffer.boot blank_flash)).1
      [mk_reading 1, mk_reading 2]).1 (mk_reading 0)).1

/-- The buffer of capacity 3 after an initialisation on a blank flash partition and the
stores of `mk_reading 1`, `mk_reading 2` and `mk_reading 3`: full, both cursors on slot 1. -/
def filled_buffer : flash_buffer :=
  (store_seq 3 (kargo_flash_buffer_init 3 platform_ok (flash_buffer.boot blank_flash)).1
    [mk_reading 1, mk_reading 2, mk_reading 3]).1

/-- An initialised, connected manager over the given buffer, nothing published yet. -/
def mqtt_manager.online (fb : flash_buffer) : mqtt_manager :=
  { connected := true, initialized := true, fb := fb, published := [] }

/-- An iteration of the MQTT thread in which `zsock_poll` times out without input,
`mqtt_live` fails with `-ECONNRESET`, the client delivers no event, and the NVS operations
of the drain block go through. -/
def live_error_env : thread_env :=
  { connect_rc := 0, connect_evts := [], poll_rc := 0, pollin := false, live_rc := -104,
    live_evts := [], input_rc := 0, input_evts := [], drain := drain_env.clean 0 }

/-- A platform whose flash device is not ready. -/
def platform_no_flash : init_env :=
  { device_ready := false, page_info_rc := 0, mount_rc := 0, read_fault := none }

/-- A consistent buffer of capacity 65535 holding `mk_reading 5` in the last slot: read
cursor on slot 65535, write cursor wrapped to slot 1. -/
def edge_buffer : flash_buffer :=
  { nvs := (blank_flash.put 0 (le_bytes 2 1)).put 65535 (mk_reading 5).to_bytes,
    buffered_count := 1, read_id := 65535, write_id := 1, initialized := true }

/-- A flash partition whose only entry is the count 100 under id 0: what a full sample
buffer leaves behind at a restart. -/
def full_count_flash : nvs_fs := blank_flash.put 0 (le_bytes 2 100)

/-- The round trip of claim C1 on buffer `s0`: the stores of `rs` all return 0, the
retrieves (one per caller object in `bufs`) return 0 and yield `rs` in order, and the count
is 0 afterwards. -/
def fifo_round_trip (cap : Nat) (s0 : flash_buffer) (rs bufs : List kargo_sensor_reading) :
    Prop :=
  (store_seq cap s0 rs).2 = List.replicate rs.length 0 ∧
  (retrieve_seq cap (store_seq cap s0 rs).1 bufs).2 = rs.map (fun r => ((0 : Int), r)) ∧
  kargo_flash_buffer_count (retrieve_seq cap (store_seq cap s0 rs).1 bufs).1 = 0

/-- The outcome of claim C2 on buffer `s0` after the stores of `rs`, of which the first `k`
are overwritten: the count equals the capacity, the next retrieves (one per caller object in
`bufs`) return 0 and yield the remaining readings oldest first, and one more retrieve
reports the buffer empty. -/
def keeps_newest (cap k : Nat) (s0 : flash_buffer) (rs bufs : List kargo_sensor_reading)
    (buf : kargo_sensor_reading) : Prop :=
  kargo_flash_buffer_count (store_seq cap s0 rs).1 = cap ∧
  (retrieve_seq cap (store_seq cap s0 rs).1 bufs).2 =
    (rs.drop k).map (fun r => ((0 : Int), r)) ∧
  (kargo_flash_buffer_retrieve cap none none
    (retrieve_seq cap (store_seq cap s0 rs).1 bufs).1 buf).2.2 = -ENODATA


/-- The alternative of claim C5 after `mqtt_manager_publish` of `d`: either `mqtt_publish`
was called with the payload of `d` and returned success, or the reading built from `d` is
the newest element of the buffer, the last one that a run of retrieves (one per caller
object in `bufs`) returns. -/
def delivered_or_newest (cap : Nat) (env : publish_env) (m : mqtt_manager) (d : sensor_data)
    (bufs : List kargo_sensor_reading) : Prop :=
  (m.connected = true ∧ env.publish_rc = 0 ∧
    (mqtt_manager_publish cap env m d).1.published = m.published ++ [(d, 0)]) ∨
  (retrieve_seq cap (mqtt_manager_publish cap env m d).1.fb bufs).2.getLast? =
    some (0, d.to_reading env.reserved)

/-- The scenario of claim C6 from the disconnected manager `m`: the publishes of `ds` leave
the buffer holding all but the first `k` readings and publish nothing; after a successful
CONNACK the drain passes `envs` publish exactly these readings, oldest first, each accepted
by the transport, and leave the buffer empty. -/
def buffer_then_drain (cap k : Nat) (m : mqtt_manager) (ds : List (sensor_data × publish_env))
    (envs : List drain_env) : Prop :=
  holds cap (publish_seq cap m ds).fb
    ((ds.drop k).map (fun e => e.1.to_reading e.2.reserved)) ∧
  (publish_seq cap m ds).published = m.published ∧
  (drain_seq cap (mqtt_evt_handler (publish_seq cap m ds) (mqtt_evt.connack 0))
    envs).published = m.published ++ (ds.drop k).map (fun e => (e.1, (0 : Int))) ∧
  kargo_flash_buffer_count
    (drain_seq cap (mqtt_evt_handler (publish_seq cap m ds) (mqtt_evt.connack 0))
      envs).fb = 0

/-! ## Byte codec and the NVS model -/

theorem le_bytes_length (k n : Nat) : (le_bytes k n).length = k := by
  induction k generalizing n with
  | zero => rfl
  | succ k ih => simp [le_bytes, ih]

theorem le_value_le_bytes (k n : Nat) : le_value (le_bytes k n) = n % 256 ^ k := by
  induction k generalizing n with
  | zero => simp [le_bytes, le_value, Nat.mod_one]
  | succ k ih =>
    simp only [le_bytes, le_value, ih]
    rw [pow_succ', Nat.mod_mul]

theorem le_take_append (k n : Nat) (rest : Blob) :
    (le_bytes k n ++ rest).take k = le_bytes k n := by
  rw [List.take_left' (le_bytes_length k n)]

theorem le_drop_append (k n : Nat) (rest : Blob) :
    (le_bytes k n ++ rest).drop k = rest := by
  rw [List.drop_left' (le_bytes_length k n)]

theorem le_take_self (k n : Nat) : (le_bytes k n).take k = le_bytes k n := by
  rw [List.take_of_length_le (le_of_eq (le_bytes_length k n))]

theorem to_bytes_length (r : kargo_sensor_reading) : r.to_bytes.length = 40 := by
  simp only [kargo_sensor_reading.to_bytes, List.length_append, le_bytes_length]

theorem of_bytes_to_bytes (r : kargo_sensor_reading) :
    kargo_sensor_reading.of_bytes r.to_bytes = r := by
  obtain ⟨a, b, c, d, e, f, g, h, i, j⟩ := r
  simp only [kargo_sensor_reading.of_bytes, kargo_sensor_reading.to_bytes,
    le_take_append, le_drop_append, le_take_self, le_value_le_bytes, fin_wrap]
  congr 1 <;> (apply Fin.ext; simp only []; omega)

theorem mem_write_full (dst src : Blob) (h : dst.length ≤ src.length) :
    mem_write dst src = src := by
  simp [mem_write, List.drop_eq_nil_of_le h]

theorem nvs_write_none_fst (fs : nvs_fs) (id : Nat) (d : Blob) :
    (nvs_write none fs id d).1 = fs.put id d := by
  unfold nvs_write; split_ifs <;> rfl

theorem nvs_write_none_snd (fs : nvs_fs) (id : Nat) (d : Blob) :
    ¬ (nvs_write none fs id d).2 < 0 := by
  unfold nvs_write; split_ifs <;> simp

theorem nvs_write_some (e : Nat) (fs : nvs_fs) (id : Nat) (d : Blob) :
    nvs_write (some e) fs id d = (fs, Int.negSucc e) := rfl

theorem nvs_read_reading (fs : nvs_fs) (id : Nat) (r buf : kargo_sensor_reading)
    (h : fs.entry id = some r.to_bytes) :
    nvs_read none fs id buf.to_bytes READING_SIZE = (r.to_bytes, 40) := by
  have h1 : r.to_bytes.take 40 = r.to_bytes :=
    List.take_of_length_le (le_of_eq (to_bytes_length r))
  simp only [nvs_read, h, READING_SIZE, h1, to_bytes_length]
  rw [mem_write_full _ _ (by simp [to_bytes_length])]
  rfl

@[simp] theorem put_entry (fs : nvs_fs) (id k : Nat) (d : Blob) :
    (fs.put id d).entry k = if k = id then some d else fs.entry k := rfl

/-! ## Single calls -/

theorem store_none (cap : Nat) (s : flash_buffer) (r : kargo_sensor_reading)
    (h : s.initialized = true) :
    kargo_flash_buffer_store cap none none s r =
      ({ nvs := (s.nvs.put s.write_id r.to_bytes).put 0
                  (le_bytes 2 (if s.buffered_count ≥ cap then s.buffered_count
                               else (s.buffered_count + 1) % 65536)),
         buffered_count := if s.buffered_count ≥ cap then s.buffered_count
                           else (s.buffered_count + 1) % 65536,
         read_id := if s.buffered_count ≥ cap then inc_wrap cap s.read_id else s.read_id,
         write_id := inc_wrap cap s.write_id,
         initialized := true }, 0) := by
  unfold kargo_flash_buffer_store
  simp only [h, Bool.not_true, Bool.false_eq_true, if_false]
  by_cases hc : s.buffered_count ≥ cap
  · simp only [hc, if_true, nvs_write_none_snd, if_false, nvs_write_none_fst, inc_wrap,
      NVS_READ_ID_BASE, NVS_WRITE_ID_BASE, NVS_COUNT_ID, h]
  · simp only [hc, if_false, nvs_write_none_snd, nvs_write_none_fst, inc_wrap,
      NVS_READ_ID_BASE, NVS_WRITE_ID_BASE, NVS_COUNT_ID, h]

theorem retrieve_none (cap : Nat) (s : flash_buffer) (r buf : kargo_sensor_reading)
    (h : s.initialized = true) (hc : s.buffered_count ≠ 0)
    (hs : s.nvs.entry s.read_id = some r.to_bytes) :
    kargo_flash_buffer_retrieve cap none none s buf =
      ({ nvs := s.nvs.put 0 (le_bytes 2 (s.buffered_count - 1)),
         buffered_count := s.buffered_count - 1,
         read_id := inc_wrap cap s.read_id,
         write_id := s.write_id,
         initialized := true }, r, 0) := by
  unfold kargo_flash_buffer_retrieve
  simp only [h, Bool.not_true, Bool.false_eq_true, if_false, hc, nvs_read_reading _ _ _ _ hs,
    of_bytes_to_bytes, nvs_write_none_fst, inc_wrap, NVS_READ_ID_BASE, NVS_COUNT_ID]
  simp

theorem retrieve_blob (cap : Nat) (s : flash_buffer) (b : Blob) (buf : kargo_sensor_reading)
    (h : s.initialized = true) (hc : s.buffered_count ≠ 0)
    (hs : s.nvs.entry s.read_id = some b) :
    kargo_flash_buffer_retrieve cap none none s buf =
      ({ nvs := s.nvs.put 0 (le_bytes 2 (s.buffered_count - 1)),
         buffered_count := s.buffered_count - 1,
         read_id := inc_wrap cap s.read_id,
         write_id := s.write_id,
         initialized := true },
       kargo_sensor_reading.of_bytes (mem_write buf.to_bytes (b.take READING_SIZE)), 0) := by
  unfold kargo_flash_buffer_retrieve
  have hrd : nvs_read none s.nvs s.read_id buf.to_bytes READING_SIZE =
      (mem_write buf.to_bytes (b.take READING_SIZE), (b.length : Int)) := by
    simp only [nvs_read, hs]
  have hnn : ¬ ((b.length : Int) < 0) := by omega
  simp only [h, Bool.not_true, Bool.false_eq_true, if_false, hc, hrd, hnn,
    nvs_write_none_fst, inc_wrap, NVS_READ_ID_BASE, NVS_COUNT_ID]

theorem retrieve_empty (cap : Nat) (f g : Fault) (s : flash_buffer) (buf : kargo_sensor_reading)
    (h : s.initialized = true) (hc : s.buffered_count = 0) :
    kargo_flash_buffer_retrieve cap f g s buf = (s, buf, -ENODATA) := by
  unfold kargo_flash_buffer_retrieve
  simp [h, hc]

theorem count_eq (s : flash_buffer) : kargo_flash_buffer_count s = s.buffered_count := rfl

theorem inc_wrap_small (cap id : Nat) (h1 : id ≤ cap) (h2 : cap ≤ 65534) :
    inc_wrap cap id = if id = cap then 1 else id + 1 := by
  unfold inc_wrap
  have : (id + 1) % 65536 = id + 1 := Nat.mod_eq_of_lt (by omega)
  rw [this]
  split_ifs <;> omega

theorem inc_wrap_lin (cap id : Nat) (h1 : id + 1 ≤ cap) (h2 : id + 1 < 65536) :
    inc_wrap cap id = id + 1 := by
  unfold inc_wrap
  rw [Nat.mod_eq_of_lt h2, if_neg (by omega)]

theorem next_slot_eq_inc_wrap (cap id : Nat) (h1 : id ≤ cap) (h2 : cap ≤ 65534) :
    inc_wrap cap id = next_slot cap id := by
  rw [inc_wrap_small cap id h1 h2]; rfl

theorem init_rc_zero (cap : Nat) (env : init_env) (s : flash_buffer)
    (hs : s.initialized = false) (h : (kargo_flash_buffer_init cap env s).2 = 0) :
    env.device_ready = true ∧ env.page_info_rc = 0 ∧ env.mount_rc = 0 := by
  unfold kargo_flash_buffer_init at h
  rw [if_neg (by simp [hs])] at h
  by_cases h1 : env.device_ready = true
  · rw [if_neg (by simp [h1])] at h
    by_cases h2 : env.page_info_rc = 0
    · rw [if_neg (by simp [h2])] at h
      by_cases h3 : env.mount_rc = 0
      · exact ⟨h1, h2, h3⟩
      · rw [if_pos h3] at h; exact absurd h h3
    · rw [if_pos h2] at h; exact absurd h h2
  · rw [if_pos (by simp [h1])] at h
    have h' : (-ENODEV : Int) = 0 := h
    exact absurd h' (by decide)

theorem init_run (cap : Nat) (env : init_env) (s : flash_buffer)
    (hs : s.initialized = false) (h1 : env.device_ready = true)
    (h2 : env.page_info_rc = 0) (h3 : env.mount_rc = 0) :
    kargo_flash_buffer_init cap env s =
      if (nvs_read env.read_fault s.nvs NVS_COUNT_ID (le_bytes 2 s.buffered_count) 2).2 < 0 then
        ({ s with buffered_count := 0, read_id := 1, write_id := 1, initialized := true }, 0)
      else
        ({ s with
            buffered_count :=
              le_value (nvs_read env.read_fault s.nvs NVS_COUNT_ID
                (le_bytes 2 s.buffered_count) 2).1,
            read_id := 1,
            write_id :=
              if (le_value (nvs_read env.read_fault s.nvs NVS_COUNT_ID
                    (le_bytes 2 s.buffered_count) 2).1 + 1) % 65536 > cap then 1
              else (le_value (nvs_read env.read_fault s.nvs NVS_COUNT_ID
                    (le_bytes 2 s.buffered_count) 2).1 + 1) % 65536,
            initialized := true }, 0) := by
  unfold kargo_flash_buffer_init
  rw [if_neg (by simp [hs]), if_neg (by simp [h1]), if_neg (by simp [h2]),
    if_neg (by simp [h3])]
  rfl

theorem init_no_metadata (cap : Nat) (env : init_env) (fs : nvs_fs)
    (hmeta : fs.entry NVS_COUNT_ID = none)
    (hinit : (kargo_flash_buffer_init cap env (flash_buffer.boot fs)).2 = 0) :
    is_fresh (kargo_flash_buffer_init cap env (flash_buffer.boot fs)).1 ∧
    (kargo_flash_buffer_init cap env (flash_buffer.boot fs)).1.nvs = fs := by
  obtain ⟨h1, h2, h3⟩ := init_rc_zero cap env _ rfl hinit
  rw [init_run cap env _ rfl h1 h2 h3]
  have hrd : (nvs_read env.read_fault (flash_buffer.boot fs).nvs NVS_COUNT_ID
      (le_bytes 2 (flash_buffer.boot fs).buffered_count) 2).2 < 0 := by
    unfold nvs_read
    cases env.read_fault with
    | some e => exact Int.negSucc_lt_zero e
    | none =>
      have : (flash_buffer.boot fs).nvs.entry NVS_COUNT_ID = none := hmeta
      simp only [this]; decide
  rw [if_pos hrd]
  exact ⟨⟨rfl, rfl, rfl, rfl⟩, rfl⟩

/-! ## The ring invariant -/

theorem getElem?_push_oldest_lt (cap : Nat) (q : List kargo_sensor_reading)
    (r x : kargo_sensor_reading) (i : Nat) (hq : q.length < cap)
    (h : (push_oldest cap q r)[i]? = some x) :
    (i < q.length ∧ q[i]? = some x) ∨ (i = q.length ∧ x = r) := by
  have hp : push_oldest cap q r = q ++ [r] := by
    unfold push_oldest; rw [if_neg (by omega)]
  rw [hp] at h
  by_cases hi : i < q.length
  · left
    rw [List.getElem?_append_left hi] at h
    exact ⟨hi, h⟩
  · right
    rw [List.getElem?_append_right (by omega)] at h
    have : i - q.length = 0 := by
      by_contra hne
      have : ([r] : List kargo_sensor_reading)[i - q.length]? = none := by
        apply List.getElem?_eq_none; simp; omega
      rw [this] at h; cases h
    rw [this] at h
    simp at h
    exact ⟨by omega, h.symm⟩

theorem getElem?_push_oldest_full (cap : Nat) (q : List kargo_sensor_reading)
    (r x : kargo_sensor_reading) (i : Nat) (hq : q.length = cap) (hc : 1 ≤ cap)
    (h : (push_oldest cap q r)[i]? = some x) :
    (i + 1 < cap ∧ q[i + 1]? = some x) ∨ (i + 1 = cap ∧ x = r) := by
  have hp : push_oldest cap q r = q.tail ++ [r] := by
    unfold push_oldest; rw [if_pos (by omega)]
  rw [hp] at h
  have hl : q.tail.length = cap - 1 := by simp [hq]
  by_cases hi : i < q.tail.length
  · left
    rw [List.getElem?_append_left hi] at h
    refine ⟨by omega, ?_⟩
    rw [← h]
    cases q with
    | nil => simp at hq; omega
    | cons a t => simp
  · right
    rw [List.getElem?_append_right (by omega)] at h
    have : i - q.tail.length = 0 := by
      by_contra hne
      have : ([r] : List kargo_sensor_reading)[i - q.tail.length]? = none := by
        apply List.getElem?_eq_none; simp; omega
      rw [this] at h; cases h
    rw [this] at h
    simp at h
    exact ⟨by omega, h.symm⟩

theorem length_push_oldest (cap : Nat) (q : List kargo_sensor_reading)
    (r : kargo_sensor_reading) (hc : 1 ≤ cap) (hq : q.length ≤ cap) :
    (push_oldest cap q r).length = if q.length = cap then cap else q.length + 1 := by
  unfold push_oldest
  by_cases h : q.length = cap
  · rw [if_pos (by omega), if_pos h]; simp [h]; omega
  · rw [if_neg (by omega), if_neg h]; simp

theorem getLast?_push_oldest (cap : Nat) (q : List kargo_sensor_reading)
    (r : kargo_sensor_reading) : (push_oldest cap q r).getLast? = some r := by
  unfold push_oldest
  split_ifs <;> exact List.getLast?_concat _

theorem holds_store (cap : Nat) (s : flash_buffer) (q : List kargo_sensor_reading)
    (r : kargo_sensor_reading) (hcap : cap ≤ 65534) (hq : holds cap s q) :
    (kargo_flash_buffer_store cap none none s r).2 = 0 ∧
    holds cap (kargo_flash_buffer_store cap none none s r).1 (push_oldest cap q r) := by
  obtain ⟨hi, h1, h2, hc, hb, hw, hs⟩ := hq
  rw [store_none cap s r hi]
  refine ⟨rfl, ?_⟩
  have hc1 : 1 ≤ cap := by omega
  have hwr : 1 ≤ s.write_id ∧ s.write_id ≤ cap := by
    rw [hw]; unfold slot_at; split_ifs <;> omega
  have hlen := length_push_oldest cap q r hc1 hb
  by_cases hfull : q.length = cap
  · -- full: the oldest reading is overwritten
    have hge : s.buffered_count ≥ cap := by omega
    have hweq : s.write_id = s.read_id := by
      rw [hw]; unfold slot_at; split_ifs <;> omega
    refine ⟨rfl, ?_, ?_, ?_, ?_, ?_, ?_⟩
    · simp only [hge, if_true]; rw [inc_wrap_small cap _ h2 hcap]; split_ifs <;> omega
    · simp only [hge, if_true]; rw [inc_wrap_small cap _ h2 hcap]; split_ifs <;> omega
    · simp only [hge, if_true]; rw [hlen]; simp [hfull]; omega
    · rw [hlen]; simp [hfull]
    · simp only [hge, if_true]
      rw [inc_wrap_small cap _ h2 hcap, inc_wrap_small cap _ hwr.2 hcap, hlen, hweq]
      unfold slot_at; split_ifs <;> omega
    · intro i x hx
      simp only [hge, if_true]
      rw [inc_wrap_small cap _ h2 hcap]
      rcases getElem?_push_oldest_full cap q r x i hfull hc1 hx with ⟨hlt, hget⟩ | ⟨heq, hxr⟩
      · have key : slot_at cap (if s.read_id = cap then 1 else s.read_id + 1) i
            = slot_at cap s.read_id (i + 1) := by
          unfold slot_at; split_ifs <;> omega
        have hne0 : slot_at cap s.read_id (i + 1) ≠ 0 := by
          unfold slot_at; split_ifs <;> omega
        have hnew : slot_at cap s.read_id (i + 1) ≠ s.write_id := by
          rw [hweq]; unfold slot_at; split_ifs <;> omega
        rw [key]
        simp only [put_entry, hne0, hnew, if_false]
        exact hs _ _ hget
      · have key : slot_at cap (if s.read_id = cap then 1 else s.read_id + 1) i
            = s.write_id := by
          rw [hweq]; unfold slot_at; split_ifs <;> omega
        have hne0 : s.write_id ≠ 0 := by omega
        rw [key, hxr]
        simp [put_entry, hne0]
  · -- room left
    have hlt : ¬ s.buffered_count ≥ cap := by omega
    have hmod : (s.buffered_count + 1) % 65536 = s.buffered_count + 1 :=
      Nat.mod_eq_of_lt (by omega)
    refine ⟨rfl, ?_, ?_, ?_, ?_, ?_, ?_⟩
    · simp only [hlt, if_false]; exact h1
    · simp only [hlt, if_false]; exact h2
    · simp only [hlt, if_false]; rw [hlen, hmod]; simp [hfull]; omega
    · rw [hlen]; simp [hfull]; omega
    · simp only [hlt, if_false]
      rw [inc_wrap_small cap _ hwr.2 hcap, hlen, hw]
      simp only [hfull, if_false]
      unfold slot_at; split_ifs <;> omega
    · intro i x hx
      simp only [hlt, if_false]
      rcases getElem?_push_oldest_lt cap q r x i (by omega) hx with ⟨hil, hget⟩ | ⟨heq, hxr⟩
      · have hne0 : slot_at cap s.read_id i ≠ 0 := by
          unfold slot_at; split_ifs <;> omega
        have hnew : slot_at cap s.read_id i ≠ s.write_id := by
          rw [hw]; unfold slot_at; split_ifs <;> omega
        simp only [put_entry, hne0, hnew, if_false]
        exact hs _ _ hget
      · have hne0 : s.write_id ≠ 0 := by omega
        rw [heq, ← hw, hxr]
        simp [put_entry, hne0]

theorem holds_retrieve (cap : Nat) (s : flash_buffer) (x : kargo_sensor_reading)
    (q : List kargo_sensor_reading) (buf : kargo_sensor_reading) (hcap : cap ≤ 65534)
    (hq : holds cap s (x :: q)) :
    (kargo_flash_buffer_retrieve cap none none s buf).2 = (x, 0) ∧
    holds cap (kargo_flash_buffer_retrieve cap none none s buf).1 q := by
  obtain ⟨hi, h1, h2, hc, hb, hw, hs⟩ := hq
  have hslot : s.nvs.entry s.read_id = some x.to_bytes := by
    have := hs 0 x (by simp)
    have h0 : slot_at cap s.read_id 0 = s.read_id := by
      unfold slot_at; split_ifs <;> omega
    rwa [h0] at this
  simp only [List.length_cons] at hc hb hw
  rw [retrieve_none cap s x buf hi (by omega) hslot]
  refine ⟨rfl, rfl, ?_, ?_, ?_, ?_, ?_, ?_⟩
  · show 1 ≤ inc_wrap cap s.read_id
    rw [inc_wrap_small cap _ h2 hcap]; split_ifs <;> omega
  · show inc_wrap cap s.read_id ≤ cap
    rw [inc_wrap_small cap _ h2 hcap]; split_ifs <;> omega
  · show s.buffered_count - 1 = q.length
    omega
  · omega
  · show s.write_id = slot_at cap (inc_wrap cap s.read_id) q.length
    rw [inc_wrap_small cap _ h2 hcap, hw]
    unfold slot_at; split_ifs <;> omega
  · intro i r hr
    show (s.nvs.put 0 _).entry (slot_at cap (inc_wrap cap s.read_id) i) = _
    have hil : i < q.length := by
      by_contra hne
      rw [List.getElem?_eq_none (by omega)] at hr; cases hr
    rw [inc_wrap_small cap _ h2 hcap]
    have key : slot_at cap (if s.read_id = cap then 1 else s.read_id + 1) i
        = slot_at cap s.read_id (i + 1) := by
      unfold slot_at; split_ifs <;> omega
    have hne0 : slot_at cap s.read_id (i + 1) ≠ 0 := by
      unfold slot_at; split_ifs <;> omega
    rw [key]
    simp only [put_entry, hne0, if_false]
    exact hs (i + 1) r (by simpa using hr)

theorem holds_fresh (cap : Nat) (s : flash_buffer) (hc : 1 ≤ cap) (h : is_fresh s) :
    holds cap s [] := by
  obtain ⟨hi, h0, hr, hw⟩ := h
  refine ⟨hi, by omega, by omega, by simpa using h0, by simp, ?_, ?_⟩
  · rw [hw, hr]; simp only [List.length_nil]; unfold slot_at; split_ifs <;> omega
  · intro i r hr; simp at hr

theorem holds_store_seq (cap : Nat) (hcap : cap ≤ 65534) (rs : List kargo_sensor_reading) :
    ∀ (s : flash_buffer) (q : List kargo_sensor_reading), holds cap s q →
      (store_seq cap s rs).2 = List.replicate rs.length 0 ∧
      holds cap (store_seq cap s rs).1 (rs.foldl (push_oldest cap) q) := by
  induction rs with
  | nil => intro s q h; exact ⟨rfl, h⟩
  | cons r rs ih =>
    intro s q h
    obtain ⟨h0, h1⟩ := holds_store cap s q r hcap h
    obtain ⟨h2, h3⟩ := ih _ _ h1
    simp only [store_seq, List.foldl_cons, List.length_cons, List.replicate_succ]
    exact ⟨by rw [h0, h2], h3⟩

theorem holds_retrieve_seq (cap : Nat) (hcap : cap ≤ 65534)
    (q1 : List kargo_sensor_reading) :
    ∀ (bufs : List kargo_sensor_reading) (s : flash_buffer) (q2 : List kargo_sensor_reading),
      bufs.length = q1.length → holds cap s (q1 ++ q2) →
      (retrieve_seq cap s bufs).2 = q1.map (fun r => ((0 : Int), r)) ∧
      holds cap (retrieve_seq cap s bufs).1 q2 := by
  induction q1 with
  | nil =>
    intro bufs s q2 hl h
    have : bufs = [] := List.length_eq_zero.mp hl
    subst this
    exact ⟨rfl, h⟩
  | cons x q1 ih =>
    intro bufs s q2 hl h
    cases bufs with
    | nil => simp at hl
    | cons buf bufs =>
      obtain ⟨h0, h1⟩ := holds_retrieve cap s x (q1 ++ q2) buf hcap h
      obtain ⟨h2, h3⟩ := ih bufs _ _ (by simpa using hl) h1
      simp only [retrieve_seq, List.map_cons]
      refine ⟨?_, h3⟩
      rw [h2, h0]

theorem foldl_push_oldest (cap : Nat) (hc : 1 ≤ cap) (rs : List kargo_sensor_reading) :
    ∀ q : List kargo_sensor_reading, q.length ≤ cap →
      rs.foldl (push_oldest cap) q = (q ++ rs).drop ((q ++ rs).length - cap) := by
  induction rs with
  | nil =>
    intro q hq
    simp only [List.foldl_nil, List.append_nil]
    rw [Nat.sub_eq_zero_of_le hq]; rfl
  | cons r rs ih =>
    intro q hq
    have hl := length_push_oldest cap q r hc hq
    rw [List.foldl_cons, ih _ (by rw [hl]; split_ifs <;> omega)]
    by_cases hfull : q.length = cap
    · have hp : push_oldest cap q r = q.tail ++ [r] := by
        unfold push_oldest; rw [if_pos (by omega)]
      rw [hp]
      cases q with
      | nil => simp at hfull; omega
      | cons a t =>
        simp only [List.tail_cons, List.append_assoc, List.singleton_append, List.cons_append,
          List.length_cons, List.length_append] at *
        have : t.length + (rs.length + 1) + 1 - cap = (t.length + (rs.length + 1) - cap) + 1 := by
          omega
        rw [this, List.drop_succ_cons]
        simp
    · have hp : push_oldest cap q r = q ++ [r] := by
        unfold push_oldest; rw [if_neg (by omega)]
      rw [hp]
      simp

theorem holds_empty_retrieve (cap : Nat) (s : flash_buffer) (buf : kargo_sensor_reading)
    (f g : Fault) (h : holds cap s []) :
    kargo_flash_buffer_retrieve cap f g s buf = (s, buf, -ENODATA) :=
  retrieve_empty cap f g s buf h.init (by simpa using h.count)

theorem holds_retrieve_all (cap : Nat) (hcap : cap ≤ 65534) (s : flash_buffer)
    (q bufs : List kargo_sensor_reading) (hb : bufs.length = s.buffered_count)
    (h : holds cap s q) :
    (retrieve_seq cap s bufs).2 = q.map (fun r => ((0 : Int), r)) ∧
    holds cap (retrieve_seq cap s bufs).1 [] := by
  have h' : holds cap s (q ++ []) := by rw [List.append_nil]; exact h
  exact holds_retrieve_seq cap hcap q bufs s [] (by rw [hb, h.count]) h'

theorem holds_keeps_newest (cap k : Nat) (s0 : flash_buffer)
    (rs bufs : List kargo_sensor_reading) (buf : kargo_sensor_reading) (hc1 : 1 ≤ cap)
    (hcap : cap ≤ 65534) (hlen : rs.length = cap + k) (hb : bufs.length = cap)
    (h0 : is_fresh s0) : keeps_newest cap k s0 rs bufs buf := by
  obtain ⟨-, h2⟩ := holds_store_seq cap hcap rs s0 [] (holds_fresh cap s0 hc1 h0)
  rw [foldl_push_oldest cap hc1 rs [] (by simp)] at h2
  simp only [List.nil_append] at h2
  have hk : rs.length - cap = k := by omega
  rw [hk] at h2
  have hl : (rs.drop k).length = cap := by rw [List.length_drop]; omega
  have h3 : holds cap (store_seq cap s0 rs).1 (rs.drop k ++ []) := by
    rw [List.append_nil]; exact h2
  obtain ⟨h4, h5⟩ := holds_retrieve_seq cap hcap (rs.drop k) bufs _ [] (by omega) h3
  refine ⟨?_, h4, ?_⟩
  · unfold kargo_flash_buffer_count; rw [h2.count, hl]
  · rw [holds_empty_retrieve cap _ buf none none h5]

/-! ## Runs that do not wrap -/

theorem getElem?_single (r x : kargo_sensor_reading) (i : Nat)
    (h : ([r] : List kargo_sensor_reading)[i]? = some x) : i = 0 ∧ x = r := by
  cases i with
  | zero => simp at h; exact ⟨rfl, h.symm⟩
  | succ j => simp at h

theorem getElem?_replicate_some (n i : Nat) (x r : kargo_sensor_reading)
    (h : (List.replicate n x)[i]? = some r) : i < n ∧ r = x := by
  have hi : i < n := by
    by_contra hne
    rw [List.getElem?_eq_none (by rw [List.length_replicate]; omega)] at h
    cases h
  refine ⟨hi, ?_⟩
  rw [List.getElem?_eq_getElem (by rw [List.length_replicate]; exact hi)] at h
  simp only [List.getElem_replicate, Option.some.injEq] at h
  exact h.symm

theorem getElem?_replicate_lt (n i : Nat) (x : kargo_sensor_reading) (h : i < n) :
    (List.replicate n x)[i]? = some x := by
  rw [List.getElem?_eq_getElem (by rw [List.length_replicate]; exact h)]
  simp

theorem replicate_ne_nil (n : Nat) (x : kargo_sensor_reading) (h : 0 < n) :
    List.replicate n x ≠ [] := by
  intro h'
  have := congrArg List.length h'
  rw [List.length_replicate] at this
  simp only [List.length_nil] at this
  omega

theorem store_seq_append (cap : Nat) (a b : List kargo_sensor_reading) :
    ∀ s : flash_buffer, store_seq cap s (a ++ b) =
      ((store_seq cap (store_seq cap s a).1 b).1,
       (store_seq cap s a).2 ++ (store_seq cap (store_seq cap s a).1 b).2) := by
  induction a with
  | nil => intro s; rfl
  | cons x a ih =>
    intro s
    show store_seq cap s (x :: (a ++ b)) = _
    simp only [store_seq, ih, List.cons_append]

theorem store_seq_single (cap : Nat) (s : flash_buffer) (x : kargo_sensor_reading) :
    store_seq cap s [x] =
      ((kargo_flash_buffer_store cap none none s x).1,
       [(kargo_flash_buffer_store cap none none s x).2]) := rfl

theorem retrieve_seq_append (cap : Nat) (a b : List kargo_sensor_reading) :
    ∀ s : flash_buffer, retrieve_seq cap s (a ++ b) =
      ((retrieve_seq cap (retrieve_seq cap s a).1 b).1,
       (retrieve_seq cap s a).2 ++ (retrieve_seq cap (retrieve_seq cap s a).1 b).2) := by
  induction a with
  | nil => intro s; rfl
  | cons x a ih =>
    intro s
    show retrieve_seq cap s (x :: (a ++ b)) = _
    simp only [retrieve_seq, ih, List.cons_append]

theorem retrieve_seq_cons_empty (cap : Nat) (s : flash_buffer) (buf : kargo_sensor_reading)
    (bufs : List kargo_sensor_reading) (hi : s.initialized = true)
    (hc : s.buffered_count = 0) :
    (retrieve_seq cap s (buf :: bufs)).2.head? = some (-ENODATA, buf) := by
  simp only [retrieve_seq, retrieve_empty cap none none s buf hi hc, List.head?_cons]

theorem lin_store (cap : Nat) (rs : List kargo_sensor_reading) :
    ∀ s : flash_buffer, s.initialized = true → 1 ≤ s.write_id →
      s.buffered_count + rs.length ≤ cap → s.buffered_count + rs.length ≤ 65535 →
      s.write_id + rs.length ≤ cap + 1 → s.write_id + rs.length ≤ 65536 →
      (store_seq cap s rs).2 = List.replicate rs.length 0 ∧
      (store_seq cap s rs).1.initialized = true ∧
      (store_seq cap s rs).1.buffered_count = s.buffered_count + rs.length ∧
      (store_seq cap s rs).1.read_id = s.read_id ∧
      (store_seq cap s rs).1.write_id =
        (if rs = [] then s.write_id else inc_wrap cap (s.write_id + rs.length - 1)) ∧
      (∀ i r, rs[i]? = some r →
        (store_seq cap s rs).1.nvs.entry (s.write_id + i) = some r.to_bytes) ∧
      (∀ k, k ≠ 0 → (k < s.write_id ∨ s.write_id + rs.length ≤ k) →
        (store_seq cap s rs).1.nvs.entry k = s.nvs.entry k) := by
  induction rs with
  | nil =>
    intro s hi _ _ _ _ _
    refine ⟨rfl, hi, rfl, rfl, rfl, ?_, ?_⟩
    · intro i r h; simp at h
    · intro k _ _; rfl
  | cons r rs ih =>
    intro s hi hw hc1 hc2 hw1 hw2
    simp only [List.length_cons] at hc1 hc2 hw1 hw2
    have hlt : ¬ s.buffered_count ≥ cap := by omega
    have hmod : (s.buffered_count + 1) % 65536 = s.buffered_count + 1 :=
      Nat.mod_eq_of_lt (by omega)
    have hst := store_none cap s r hi
    simp only [hlt, if_false, hmod] at hst
    have hw0 : s.write_id ≠ 0 := by omega
    by_cases hrs : rs = []
    · subst hrs
      have hseq : store_seq cap s [r] =
          ({ nvs := (s.nvs.put s.write_id r.to_bytes).put 0 (le_bytes 2 (s.buffered_count + 1)),
             buffered_count := s.buffered_count + 1, read_id := s.read_id,
             write_id := inc_wrap cap s.write_id, initialized := true }, [0]) := by
        simp only [store_seq, hst]
      rw [hseq]
      refine ⟨rfl, rfl, rfl, rfl, ?_, ?_, ?_⟩
      · simp
      · intro i x hx
        obtain ⟨hi0, hxr⟩ := getElem?_single r x i hx
        subst hi0; subst hxr
        simp [put_entry, hw0]
      · intro k hk hr
        simp only [List.length_cons, List.length_nil] at hr
        have : k ≠ s.write_id := by omega
        simp [put_entry, hk, this]
    · have hpos : 1 ≤ rs.length := by
        cases rs with
        | nil => exact absurd rfl hrs
        | cons a t => simp
      have hinc : inc_wrap cap s.write_id = s.write_id + 1 :=
        inc_wrap_lin cap _ (by omega) (by omega)
      rw [hinc] at hst
      obtain ⟨a1, a2, a3, a4, a5, a6, a7⟩ :=
        ih { nvs := (s.nvs.put s.write_id r.to_bytes).put 0 (le_bytes 2 (s.buffered_count + 1)),
             buffered_count := s.buffered_count + 1, read_id := s.read_id,
             write_id := s.write_id + 1, initialized := true }
          rfl (by simp) (by simp; omega) (by simp; omega) (by simp; omega) (by simp; omega)
      simp only [hrs, if_false] at a5
      dsimp only at a3 a4 a5 a6 a7
      have hseq : store_seq cap s (r :: rs) =
          ((store_seq cap
            { nvs := (s.nvs.put s.write_id r.to_bytes).put 0 (le_bytes 2 (s.buffered_count + 1)),
              buffered_count := s.buffered_count + 1, read_id := s.read_id,
              write_id := s.write_id + 1, initialized := true } rs).1,
           0 :: (store_seq cap
            { nvs := (s.nvs.put s.write_id r.to_bytes).put 0 (le_bytes 2 (s.buffered_count + 1)),
              buffered_count := s.buffered_count + 1, read_id := s.read_id,
              write_id := s.write_id + 1, initialized := true } rs).2) := by
        simp only [store_seq, hst]
      rw [hseq]
      refine ⟨?_, a2, ?_, a4, ?_, ?_, ?_⟩
      · show (0 : Int) :: _ = _
        rw [a1]; rfl
      · show _ = s.buffered_count + (rs.length + 1)
        rw [a3]; omega
      · rw [if_neg (List.cons_ne_nil _ _)]
        show _ = inc_wrap cap (s.write_id + (rs.length + 1) - 1)
        rw [a5]
        congr 1
        omega
      · intro i x hx
        show _ = some x.to_bytes
        cases i with
        | zero =>
          simp only [List.getElem?_cons_zero, Option.some.injEq] at hx
          subst hx
          have h7 := a7 s.write_id hw0 (Or.inl (by omega))
          show (store_seq cap _ rs).1.nvs.entry s.write_id = _
          rw [h7]
          simp [put_entry, hw0]
        | succ j =>
          simp only [List.getElem?_cons_succ] at hx
          have := a6 j x hx
          rw [← this]
          congr 1
          omega
      · intro k hk hr
        have hr2 : k < s.write_id + 1 ∨ s.write_id + 1 + rs.length ≤ k := by
          simp only [List.length_cons] at hr; omega
        have h7 := a7 k hk hr2
        show (store_seq cap _ rs).1.nvs.entry k = _
        rw [h7]
        have : k ≠ s.write_id := by
          simp only [List.length_cons] at hr; omega
        simp [put_entry, hk, this]

theorem lin_retrieve (cap : Nat) (q : List kargo_sensor_reading) :
    ∀ (bufs : List kargo_sensor_reading) (s : flash_buffer), bufs.length = q.length →
      s.initialized = true → 1 ≤ s.read_id →
      q.length ≤ s.buffered_count →
      s.read_id + q.length ≤ cap + 1 → s.read_id + q.length ≤ 65536 →
      (∀ i r, q[i]? = some r → s.nvs.entry (s.read_id + i) = some r.to_bytes) →
      (retrieve_seq cap s bufs).2 = q.map (fun r => ((0 : Int), r)) ∧
      (retrieve_seq cap s bufs).1.initialized = true ∧
      (retrieve_seq cap s bufs).1.buffered_count = s.buffered_count - q.length ∧
      (retrieve_seq cap s bufs).1.write_id = s.write_id ∧
      (retrieve_seq cap s bufs).1.read_id =
        (if q = [] then s.read_id else inc_wrap cap (s.read_id + q.length - 1)) ∧
      (∀ k, k ≠ 0 → (retrieve_seq cap s bufs).1.nvs.entry k = s.nvs.entry k) ∧
      (q ≠ [] → (retrieve_seq cap s bufs).1.nvs.entry 0 =
        some (le_bytes 2 (s.buffered_count - q.length))) := by
  induction q with
  | nil =>
    intro bufs s hl hi _ _ _ _ _
    have : bufs = [] := List.length_eq_zero.mp hl
    subst this
    exact ⟨rfl, hi, rfl, rfl, rfl, fun _ _ => rfl, fun h => absurd rfl h⟩
  | cons x q ih =>
    intro bufs s hl hi hr hc hr1 hr2 hs
    cases bufs with
    | nil => simp at hl
    | cons buf bufs =>
    have hl' : bufs.length = q.length := by simpa using hl
    simp only [List.length_cons] at hc hr1 hr2
    have hslot : s.nvs.entry s.read_id = some x.to_bytes := by
      have := hs 0 x (by simp)
      simpa using this
    have hrt := retrieve_none cap s x buf hi (by omega) hslot
    by_cases hq : q = []
    · subst hq
      have : bufs = [] := List.length_eq_zero.mp hl'
      subst this
      have hseq : retrieve_seq cap s [buf] =
          ({ nvs := s.nvs.put 0 (le_bytes 2 (s.buffered_count - 1)),
             buffered_count := s.buffered_count - 1, read_id := inc_wrap cap s.read_id,
             write_id := s.write_id, initialized := true }, [(0, x)]) := by
        simp only [retrieve_seq, hrt]
      rw [hseq]
      refine ⟨rfl, rfl, rfl, rfl, ?_, ?_, ?_⟩
      · simp
      · intro k hk; simp [put_entry, hk]
      · intro _; simp [put_entry]
    · have hpos : 1 ≤ q.length := by
        cases q with
        | nil => exact absurd rfl hq
        | cons a t => simp
      have hinc : inc_wrap cap s.read_id = s.read_id + 1 :=
        inc_wrap_lin cap _ (by omega) (by omega)
      rw [hinc] at hrt
      obtain ⟨a1, a2, a3, a4, a5, a6, a7⟩ :=
        ih bufs
          { nvs := s.nvs.put 0 (le_bytes 2 (s.buffered_count - 1)),
            buffered_count := s.buffered_count - 1, read_id := s.read_id + 1,
            write_id := s.write_id, initialized := true }
          hl' rfl (by simp) (by simp; omega) (by simp; omega) (by simp; omega)
          (by
            intro i r hir
            have := hs (i + 1) r (by simpa using hir)
            have hne : s.read_id + 1 + i ≠ 0 := by omega
            simp only [put_entry, hne, if_false]
            rw [← this]; congr 1; omega)
      simp only [hq, if_false] at a5
      dsimp only at a3 a4 a5 a6 a7
      have hseq : retrieve_seq cap s (buf :: bufs) =
          ((retrieve_seq cap
            { nvs := s.nvs.put 0 (le_bytes 2 (s.buffered_count - 1)),
              buffered_count := s.buffered_count - 1, read_id := s.read_id + 1,
              write_id := s.write_id, initialized := true } bufs).1,
           (0, x) :: (retrieve_seq cap
            { nvs := s.nvs.put 0 (le_bytes 2 (s.buffered_count - 1)),
              buffered_count := s.buffered_count - 1, read_id := s.read_id + 1,
              write_id := s.write_id, initialized := true } bufs).2) := by
        simp only [retrieve_seq, hrt]
      rw [hseq]
      refine ⟨?_, a2, ?_, a4, ?_, ?_, ?_⟩
      · show ((0 : Int), x) :: _ = _
        rw [a1]; rfl
      · show _ = s.buffered_count - (q.length + 1)
        rw [a3]; omega
      · rw [if_neg (List.cons_ne_nil _ _)]
        show _ = inc_wrap cap (s.read_id + (q.length + 1) - 1)
        rw [a5]
        congr 1
        omega
      · intro k hk
        show (retrieve_seq cap _ bufs).1.nvs.entry k = _
        rw [a6 k hk]
        simp [put_entry, hk]
      · intro _
        show (retrieve_seq cap _ bufs).1.nvs.entry 0 = _
        rw [a7 hq]
        simp only [List.length_cons, Nat.sub_sub]
        congr 3
        omega

theorem fifo_linear (cap : Nat) (s0 : flash_buffer) (rs bufs : List kargo_sensor_reading)
    (hcap : cap ≤ 65535) (hn : rs.length ≤ cap) (hb : bufs.length = rs.length)
    (h0 : is_fresh s0) : fifo_round_trip cap s0 rs bufs := by
  obtain ⟨hi, hc, hr, hw⟩ := h0
  obtain ⟨a1, a2, a3, a4, -, a6, -⟩ :=
    lin_store cap rs s0 hi (by omega) (by omega) (by omega) (by omega) (by omega)
  obtain ⟨b1, -, b3, -, -, -, -⟩ :=
    lin_retrieve cap rs bufs (store_seq cap s0 rs).1 hb a2 (by omega) (by omega) (by omega)
      (by omega) (by
        intro i r hir
        rw [a4, hr]
        have := a6 i r hir
        rwa [hw] at this)
  refine ⟨a1, b1, ?_⟩
  unfold kargo_flash_buffer_count
  rw [b3, a3]; omega

/-! ## The 16-bit boundary -/

theorem wrapped_count_65536 (s0 : flash_buffer) (x : kargo_sensor_reading)
    (h0 : is_fresh s0) :
    (store_seq 65536 s0 (List.replicate 65536 x)).1.initialized = true ∧
    (store_seq 65536 s0 (List.replicate 65536 x)).1.buffered_count = 0 := by
  obtain ⟨hi, hc, hr, hw⟩ := h0
  have hrep : List.replicate 65536 x = List.replicate 65535 x ++ [x] :=
    List.replicate_succ' 65535 x
  obtain ⟨-, a2, a3, -, -, -, -⟩ :=
    lin_store 65536 (List.replicate 65535 x) s0 hi (by omega)
      (by rw [List.length_replicate]; omega) (by rw [List.length_replicate]; omega)
      (by rw [List.length_replicate]; omega) (by rw [List.length_replicate]; omega)
  rw [List.length_replicate, hc] at a3
  rw [hrep, store_seq_append, store_seq_single, store_none 65536 _ x a2, a3]
  refine ⟨rfl, ?_⟩
  show (if 0 + 65535 ≥ 65536 then 0 + 65535 else (0 + 65535 + 1) % 65536) = 0
  decide

/-- After 65536 stores at capacity 65535: the buffer is full, the read cursor is on slot 2
and the slots 2 .. 65535 still hold their readings. -/
theorem store_wrap_65535 (s0 : flash_buffer) (x : kargo_sensor_reading) (h0 : is_fresh s0) :
    (store_seq 65535 s0 (List.replicate 65536 x)).1.initialized = true ∧
    (store_seq 65535 s0 (List.replicate 65536 x)).1.buffered_count = 65535 ∧
    (store_seq 65535 s0 (List.replicate 65536 x)).1.read_id = 2 ∧
    (∀ k, 2 ≤ k → k ≤ 65535 →
      (store_seq 65535 s0 (List.replicate 65536 x)).1.nvs.entry k = some x.to_bytes) := by
  obtain ⟨hi, hc, hr, hw⟩ := h0
  have hrep : List.replicate 65536 x = List.replicate 65535 x ++ [x] :=
    List.replicate_succ' 65535 _
  obtain ⟨-, a2, a3, a4, a5, a6, -⟩ :=
    lin_store 65535 (List.replicate 65535 x) s0 hi (by omega)
      (by rw [List.length_replicate]; omega) (by rw [List.length_replicate]; omega)
      (by rw [List.length_replicate]; omega) (by rw [List.length_replicate]; omega)
  rw [List.length_replicate, hc] at a3
  rw [hr] at a4
  rw [if_neg (replicate_ne_nil _ _ (by decide)), List.length_replicate, hw] at a5
  have hwid : inc_wrap 65535 (1 + 65535 - 1) = 0 := by decide
  rw [hwid] at a5
  have hst := store_none 65535 _ x a2
  rw [a3, a4, a5] at hst
  have hcnt : (if 0 + 65535 ≥ 65535 then 0 + 65535 else (0 + 65535 + 1) % 65536) = 65535 := by
    decide
  have hrd : (if 0 + 65535 ≥ 65535 then inc_wrap 65535 1 else 1) = 2 := by decide
  rw [hcnt, hrd] at hst
  rw [hrep, store_seq_append, store_seq_single, hst]
  refine ⟨rfl, rfl, rfl, ?_⟩
  intro k hk1 hk2
  have hne0 : k ≠ 0 := by omega
  show ((_ : nvs_fs).put 0 _).entry k = _
  simp only [put_entry, hne0, if_false]
  have := a6 (k - 1) x (getElem?_replicate_lt _ _ _ (by omega))
  rw [hw] at this
  have hk : 1 + (k - 1) = k := by omega
  rw [hk] at this
  exact this

/-- At capacity 65535, 65535 retrieves from a full buffer whose read cursor is on slot 2
walk over the metadata id 0: the last one returns the count bytes in place of a reading. -/
theorem read_wrap_65535 (s : flash_buffer) (x buf : kargo_sensor_reading)
    (hi : s.initialized = true) (hc : s.buffered_count = 65535) (hr : s.read_id = 2)
    (hs : ∀ k, 2 ≤ k → k ≤ 65535 → s.nvs.entry k = some x.to_bytes) :
    (retrieve_seq 65535 s (List.replicate 65534 buf ++ [buf])).2 =
      List.replicate 65534 ((0 : Int), x) ++
        [((0 : Int), kargo_sensor_reading.of_bytes
          (mem_write buf.to_bytes ((le_bytes 2 1).take READING_SIZE)))] := by
  obtain ⟨b1, b2, b3, -, b5, -, b7⟩ :=
    lin_retrieve 65535 (List.replicate 65534 x) (List.replicate 65534 buf) s
      (by rw [List.length_replicate, List.length_replicate]) hi (by omega)
      (by rw [List.length_replicate]; omega) (by rw [List.length_replicate]; omega)
      (by rw [List.length_replicate]; omega)
      (by
        intro i r hir
        obtain ⟨hlt, hrx⟩ := getElem?_replicate_some _ _ _ _ hir
        subst hrx
        exact hs _ (by omega) (by omega))
  have hne := replicate_ne_nil 65534 x (by decide)
  rw [if_neg hne] at b5
  have b7' := b7 hne
  rw [List.length_replicate] at b3 b5 b7'
  rw [hr] at b5
  rw [hc] at b3 b7'
  have hrid : inc_wrap 65535 (2 + 65534 - 1) = 0 := by decide
  rw [hrid] at b5
  have hone : 65535 - 65534 = 1 := by decide
  rw [hone] at b3 b7'
  have e2 : (retrieve_seq 65535 s (List.replicate 65534 buf ++ [buf])).2 =
      (retrieve_seq 65535 s (List.replicate 65534 buf)).2 ++
        (retrieve_seq 65535 (retrieve_seq 65535 s (List.replicate 65534 buf)).1 [buf]).2 := by
    rw [retrieve_seq_append]
  rw [e2, b1, List.map_replicate]
  have hlast := retrieve_blob 65535 _ (le_bytes 2 1) buf b2
    (by rw [b3]; decide) (by rw [b5]; exact b7')
  have hone' : ∀ t : flash_buffer, (retrieve_seq 65535 t [buf]).2 =
      [((kargo_flash_buffer_retrieve 65535 none none t buf).2.2,
        (kargo_flash_buffer_retrieve 65535 none none t buf).2.1)] := fun _ => rfl
  rw [hone', hlast]

/-- At capacity 65535 the write cursor reaches the metadata id 0: the reading stored there
is overwritten by the count, and the last retrieve returns the count bytes instead. -/
theorem overflow_65535 (s0 : flash_buffer) (h0 : is_fresh s0) :
    kargo_flash_buffer_count
      (store_seq 65535 s0 (List.replicate 65536 (mk_reading 0))).1 = 65535 ∧
    (retrieve_seq 65535 (store_seq 65535 s0 (List.replicate 65536 (mk_reading 0))).1
      (List.replicate 65535 (mk_reading 0))).2 =
      List.replicate 65534 ((0 : Int), mk_reading 0) ++ [((0 : Int), mk_reading 1)] := by
  obtain ⟨a1, a2, a3, a4⟩ := store_wrap_65535 s0 (mk_reading 0) h0
  refine ⟨?_, ?_⟩
  · rw [count_eq]; exact a2
  have hb : List.replicate 65535 (mk_reading 0) =
      List.replicate 65534 (mk_reading 0) ++ [mk_reading 0] := List.replicate_succ' 65534 _
  rw [hb, read_wrap_65535 _ (mk_reading 0) (mk_reading 0) a1 a2 a3 a4]
  have hdec : kargo_sensor_reading.of_bytes
      (mem_write (mk_reading 0).to_bytes ((le_bytes 2 1).take READING_SIZE)) = mk_reading 1 := by
    decide
  rw [hdec]

theorem store_seq_snoc (cap : Nat) (s : flash_buffer) (a : List kargo_sensor_reading)
    (x : kargo_sensor_reading) :
    (kargo_flash_buffer_store cap none none (store_seq cap s a).1 x).1 =
      (store_seq cap s (a ++ [x])).1 := by
  rw [store_seq_append, store_seq_single]

/-- One more store into the buffer filled by 65535 stores at capacity 65535: the reading
goes under the metadata id 0 and the run of retrieves ends on the count bytes. -/
theorem brim_store :
    (retrieve_seq 65535 (kargo_flash_buffer_store 65535 none none
        (store_seq 65535 (flash_buffer.mk blank_flash 0 1 1 true)
          (List.replicate 65535 (mk_reading 0))).1 (mk_reading 0)).1
      (List.replicate 65535 (mk_reading 0))).2 =
      List.replicate 65534 ((0 : Int), mk_reading 0) ++ [((0 : Int), mk_reading 1)] := by
  have h := (overflow_65535 (flash_buffer.mk blank_flash 0 1 1 true) ⟨rfl, rfl, rfl, rfl⟩).2
  have hrep : List.replicate 65536 (mk_reading 0) =
      List.replicate 65535 (mk_reading 0) ++ [mk_reading 0] := List.replicate_succ' 65535 _
  rw [store_seq_snoc, ← hrep]
  exact h

/-! ## Count bound -/

theorem store_count_le (cap : Nat) (f g : Fault) (s : flash_buffer) (r : kargo_sensor_reading)
    (h : s.buffered_count ≤ cap) :
    (kargo_flash_buffer_store cap f g s r).1.buffered_count ≤ cap := by
  unfold kargo_flash_buffer_store
  by_cases hi : s.initialized = true
  · simp only [hi, Bool.not_true, Bool.false_eq_true, if_false]
    by_cases hc : s.buffered_count ≥ cap
    · simp only [hc, if_true]
      split_ifs <;> exact h
    · simp only [hc, if_false]
      have : (s.buffered_count + 1) % 65536 ≤ cap :=
        le_trans (Nat.mod_le _ _) (by omega)
      split_ifs <;> exact this
  · simp only [hi, Bool.not_false, if_true]
    exact h

theorem retrieve_count_le (cap : Nat) (f g : Fault) (s : flash_buffer)
    (r : kargo_sensor_reading) (h : s.buffered_count ≤ cap) :
    (kargo_flash_buffer_retrieve cap f g s r).1.buffered_count ≤ cap := by
  unfold kargo_flash_buffer_retrieve
  by_cases hi : s.initialized = true
  · simp only [hi, Bool.not_true, Bool.false_eq_true, if_false]
    by_cases hc : s.buffered_count = 0
    · simp only [hc, if_true]; exact Nat.zero_le _
    · simp only [hc, if_false]
      split_ifs
      · exact h
      all_goals
        show s.buffered_count - 1 ≤ cap
        omega
  · simp only [hi, Bool.not_false, if_true]
    exact h

theorem clear_count_le (cap : Nat) (g : Fault) (s : flash_buffer)
    (h : s.buffered_count ≤ cap) :
    (kargo_flash_buffer_clear g s).1.buffered_count ≤ cap := by
  unfold kargo_flash_buffer_clear
  split_ifs
  · exact h
  · exact Nat.zero_le _

theorem fb_run_count_le (cap : Nat) (calls : List fb_call) :
    ∀ s : flash_buffer, s.buffered_count ≤ cap → (fb_run cap s calls).buffered_count ≤ cap := by
  induction calls with
  | nil => intro s h; exact h
  | cons c cs ih =>
    intro s h
    show (fb_run cap (fb_step cap s c) cs).buffered_count ≤ cap
    apply ih
    cases c with
    | store r f g => exact store_count_le cap f g s r h
    | retrieve r f g => exact retrieve_count_le cap f g s r h
    | clear g => exact clear_count_le cap g s h

theorem le_value_lt (k n : Nat) : le_value (le_bytes k n) ≤ n := by
  rw [le_value_le_bytes]; exact Nat.mod_le _ _

theorem init_count_le (cap : Nat) (env : init_env) (fs : nvs_fs)
    (hmeta : fs.entry NVS_COUNT_ID = none ∨
      ∃ c, c ≤ cap ∧ fs.entry NVS_COUNT_ID = some (le_bytes 2 c)) :
    (kargo_flash_buffer_init cap env (flash_buffer.boot fs)).1.buffered_count ≤ cap := by
  by_cases h1 : env.device_ready = true ∧ env.page_info_rc = 0 ∧ env.mount_rc = 0
  · obtain ⟨h1, h2, h3⟩ := h1
    rw [init_run cap env _ rfl h1 h2 h3]
    by_cases hrd : (nvs_read env.read_fault (flash_buffer.boot fs).nvs NVS_COUNT_ID
        (le_bytes 2 (flash_buffer.boot fs).buffered_count) 2).2 < 0
    · rw [if_pos hrd]; exact Nat.zero_le _
    · rw [if_neg hrd]
      show le_value (nvs_read env.read_fault fs NVS_COUNT_ID (le_bytes 2 0) 2).1 ≤ cap
      cases hf : env.read_fault with
      | some e =>
        simp only [nvs_read]
        exact Nat.zero_le _
      | none =>
        rcases hmeta with hm | ⟨c, hc, hm⟩
        · simp only [nvs_read, hm]; exact Nat.zero_le _
        · simp only [nvs_read, hm, le_take_self]
          rw [mem_write_full _ _ (by simp [le_bytes_length])]
          exact le_trans (le_value_lt 2 c) hc
  · unfold kargo_flash_buffer_init
    simp only [flash_buffer.boot, Bool.false_eq_true, if_false]
    split_ifs <;> first | exact Nat.zero_le _ | (exfalso; apply h1; simp_all)

/-! ## Publish and drain -/

theorem data_to_reading (d : sensor_data) (x : Fin 16777216) : (d.to_reading x).data = d := by
  cases d; rfl

theorem to_reading_data (r : kargo_sensor_reading) : r.data.to_reading r.reserved = r := by
  cases r; rfl

theorem publish_sends (cap : Nat) (env : publish_env) (m : mqtt_manager) (d : sensor_data)
    (hm : m.initialized = true) (hc : m.connected = true) (hrc : env.publish_rc = 0) :
    mqtt_manager_publish cap env m d =
      ({ m with published := m.published ++ [(d, 0)] }, 0) := by
  unfold mqtt_manager_publish
  simp only [hm, hc, hrc, Bool.not_true, Bool.false_eq_true, if_false, ne_eq,
    not_true_eq_false]

theorem publish_buffers (cap : Nat) (env : publish_env) (m : mqtt_manager) (d : sensor_data)
    (hm : m.initialized = true) (h : ¬ (m.connected = true ∧ env.publish_rc = 0)) :
    mqtt_manager_publish cap env m d =
      ({ m with
          fb := (kargo_flash_buffer_store cap env.f_slot env.f_count m.fb
                  (d.to_reading env.reserved)).1,
          published := m.published ++
            (if m.connected = true then [(d, env.publish_rc)] else []) },
       (kargo_flash_buffer_store cap env.f_slot env.f_count m.fb
          (d.to_reading env.reserved)).2) := by
  unfold mqtt_manager_publish
  by_cases hc : m.connected = true
  · have hrc : env.publish_rc ≠ 0 := fun h0 => h ⟨hc, h0⟩
    simp only [hm, hc, Bool.not_true, Bool.false_eq_true, if_false, ne_eq, hrc,
      not_false_eq_true, if_true, sensor_data.to_reading]
  · have hc' : m.connected = false := by simpa using hc
    simp only [hm, hc', Bool.not_true, Bool.false_eq_true, if_false, Bool.not_false, if_true,
      sensor_data.to_reading, List.append_nil]

theorem publish_cases (cap : Nat) (env : publish_env) (m : mqtt_manager)
    (d : sensor_data) (q bufs : List kargo_sensor_reading)
    (hcap : cap ≤ 65534) (hm : m.initialized = true) (hq : holds cap m.fb q)
    (hf : env.f_slot = none) (hg : env.f_count = none)
    (hb : bufs.length = (mqtt_manager_publish cap env m d).1.fb.buffered_count) :
    (m.connected = true ∧ env.publish_rc = 0 →
      (mqtt_manager_publish cap env m d).2 = 0 ∧
      (mqtt_manager_publish cap env m d).1.published = m.published ++ [(d, 0)] ∧
      (mqtt_manager_publish cap env m d).1.fb = m.fb) ∧
    (¬ (m.connected = true ∧ env.publish_rc = 0) →
      (mqtt_manager_publish cap env m d).2 = 0 ∧
      (mqtt_manager_publish cap env m d).1.fb =
        (kargo_flash_buffer_store cap none none m.fb (d.to_reading env.reserved)).1 ∧
      holds cap (mqtt_manager_publish cap env m d).1.fb
        (push_oldest cap q (d.to_reading env.reserved)) ∧
      (retrieve_seq cap (mqtt_manager_publish cap env m d).1.fb bufs).2.getLast? =
        some (0, d.to_reading env.reserved) ∧
      (d.to_reading env.reserved).data = d) := by
  constructor
  · rintro ⟨hc, hrc⟩
    rw [publish_sends cap env m d hm hc hrc]
    exact ⟨rfl, rfl, rfl⟩
  · intro hn
    rw [publish_buffers cap env m d hm hn, hf, hg] at hb ⊢
    obtain ⟨h0, h1⟩ := holds_store cap m.fb q (d.to_reading env.reserved) hcap hq
    refine ⟨h0, rfl, h1, ?_, data_to_reading d env.reserved⟩
    obtain ⟨h2, -⟩ := holds_retrieve_all cap hcap _ _ bufs hb h1
    show (retrieve_seq cap (kargo_flash_buffer_store cap none none m.fb
      (d.to_reading env.reserved)).1 bufs).2.getLast? = _
    rw [h2, List.getLast?_map, getLast?_push_oldest]
    rfl

theorem offline_fb (fb : flash_buffer) : (mqtt_manager.offline fb).fb = fb := rfl

theorem publish_offline_fb (cap : Nat) (env : publish_env) (fb : flash_buffer)
    (d : sensor_data) (h1 : env.f_slot = none) (h2 : env.f_count = none) :
    (mqtt_manager_publish cap env (mqtt_manager.offline fb) d).1.fb =
      (kargo_flash_buffer_store cap none none fb (d.to_reading env.reserved)).1 := by
  rw [publish_buffers cap env _ d rfl (by rintro ⟨h, -⟩; cases h), h1, h2]
  rfl

theorem brim_initialized :
    (mqtt_manager.offline (store_seq 65535 (flash_buffer.mk blank_flash 0 1 1 true)
      (List.replicate 65535 (mk_reading 0))).1).fb.initialized = true := by
  rw [offline_fb]
  exact (lin_store 65535 (List.replicate 65535 (mk_reading 0))
    (flash_buffer.mk blank_flash 0 1 1 true) rfl (Nat.le_refl 1)
    (by rw [List.length_replicate]) (by rw [List.length_replicate])
    (by rw [List.length_replicate]) (by rw [List.length_replicate])).2.1

theorem rotation_run :
    (mqtt_manager_publish 3 (publish_env.clean 0) (mqtt_manager.offline stalled_buffer)
      (mk_data 9)).2 = 0 ∧
    (mqtt_manager_publish 3 (publish_env.clean 0) (mqtt_manager.offline stalled_buffer)
      (mk_data 9)).1.published = [] ∧
    (retrieve_seq 3 (mqtt_manager_publish 3 (publish_env.clean 0)
      (mqtt_manager.offline stalled_buffer) (mk_data 9)).1.fb
      [mk_reading 0, mk_reading 0, mk_reading 0]).2 =
      [(0, mk_reading 3), (0, mk_reading 9), (0, mk_reading 2)] := by
  decide

/-- While disconnected, a run of publishes is a run of stores of the readings built from
the data records. -/
theorem publish_seq_offline (cap : Nat) (ds : List (sensor_data × publish_env)) :
    ∀ m : mqtt_manager, m.initialized = true → m.connected = false →
      (∀ e ∈ ds, e.2.f_slot = none ∧ e.2.f_count = none) →
      publish_seq cap m ds =
        { m with fb := (store_seq cap m.fb
            (ds.map (fun e => e.1.to_reading e.2.reserved))).1 } := by
  induction ds with
  | nil => intro m _ _ _; rfl
  | cons e ds ih =>
    intro m hm hc hall
    obtain ⟨d, env⟩ := e
    have he := hall (d, env) (List.mem_cons_self _ _)
    have hn : ¬ (m.connected = true ∧ env.publish_rc = 0) := by
      rw [hc]; rintro ⟨h, -⟩; cases h
    have hp := publish_buffers cap env m d hm hn
    rw [he.1, he.2, hc] at hp
    simp only [Bool.false_eq_true, if_false, List.append_nil] at hp
    show publish_seq cap (mqtt_manager_publish cap env m d).1 ds = _
    rw [hp]
    dsimp only
    have ih' := ih
      { connected := false, initialized := m.initialized,
        fb := (kargo_flash_buffer_store cap none none m.fb (d.to_reading env.reserved)).1,
        published := m.published }
      hm rfl (fun e' he' => hall e' (List.mem_cons_of_mem _ he'))
    rw [ih']
    dsimp only [List.map_cons, store_seq]
    rw [hc]

/-- One pass through the drain block while connected, the transport accepting the message:
the buffer makes one retrieve, and the retrieved data is published if the retrieve
returned 0. -/
theorem drain_online (cap : Nat) (env : drain_env) (m : mqtt_manager)
    (hm : m.initialized = true) (hc : m.connected = true)
    (hrc : env.pub.publish_rc = 0) :
    mqtt_thread_fn_drain cap env m =
      { m with
          fb := (kargo_flash_buffer_retrieve cap env.f_slot env.f_count m.fb env.buffered).1,
          published := m.published ++
            (if (kargo_flash_buffer_retrieve cap env.f_slot env.f_count m.fb
                  env.buffered).2.2 = 0
             then [((kargo_flash_buffer_retrieve cap env.f_slot env.f_count m.fb
                      env.buffered).2.1.data, 0)]
             else []) } := by
  unfold mqtt_thread_fn_drain
  by_cases hcount : kargo_flash_buffer_count m.fb > 0
  · rw [if_pos hcount]
    by_cases hret : (kargo_flash_buffer_retrieve cap env.f_slot env.f_count m.fb
        env.buffered).2.2 = 0
    · simp only [hret, if_true]
      refine (congrArg Prod.fst (publish_sends cap env.pub _ _ ?_ ?_ hrc)).trans ?_
      · exact hm
      · exact hc
      · rfl
    · simp only [hret, if_false, List.append_nil]
  · rw [if_neg hcount]
    have h0 : m.fb.buffered_count = 0 := by
      unfold kargo_flash_buffer_count at hcount; omega
    have hrt : kargo_flash_buffer_retrieve cap env.f_slot env.f_count m.fb env.buffered =
        (m.fb, env.buffered,
          if m.fb.initialized = true then -ENODATA else -EINVAL) := by
      unfold kargo_flash_buffer_retrieve
      by_cases hi : m.fb.initialized = true
      · simp [hi, h0]
      · simp [hi]
    have hne : ¬ ((if m.fb.initialized = true then -ENODATA else -EINVAL : Int) = 0) := by
      split_ifs <;> decide
    rw [hrt]
    simp only [hne, if_false, List.append_nil]

theorem drain_seq_online (cap : Nat) (envs : List drain_env) :
    ∀ m : mqtt_manager, m.initialized = true → m.connected = true →
      (∀ e ∈ envs, e.f_slot = none ∧ e.f_count = none ∧ e.pub.publish_rc = 0) →
      drain_seq cap m envs =
        { m with
            fb := (retrieve_seq cap m.fb (envs.map (fun e => e.buffered))).1,
            published := m.published ++
              (retrieve_seq cap m.fb (envs.map (fun e => e.buffered))).2.filterMap
                (fun p => if p.1 = 0 then some (p.2.data, (0 : Int)) else none) } := by
  induction envs with
  | nil => intro m _ _ _; simp [drain_seq, retrieve_seq]
  | cons e envs ih =>
    intro m hm hc hall
    obtain ⟨h1, h2, h3⟩ := hall e (List.mem_cons_self _ _)
    have hd := drain_online cap e m hm hc h3
    rw [h1, h2] at hd
    show drain_seq cap (mqtt_thread_fn_drain cap e m) envs = _
    rw [hd]
    have ih' := ih
      { m with
          fb := (kargo_flash_buffer_retrieve cap none none m.fb e.buffered).1,
          published := m.published ++
            (if (kargo_flash_buffer_retrieve cap none none m.fb e.buffered).2.2 = 0
             then [((kargo_flash_buffer_retrieve cap none none m.fb e.buffered).2.1.data, 0)]
             else []) }
      hm hc (fun e' he' => hall e' (List.mem_cons_of_mem _ he'))
    rw [ih']
    simp only [List.map_cons, retrieve_seq, List.filterMap_cons]
    by_cases hret : (kargo_flash_buffer_retrieve cap none none m.fb e.buffered).2.2 = 0
    · simp [hret]
    · simp [hret]

theorem filterMap_ok (q : List kargo_sensor_reading) :
    (q.map (fun r => ((0 : Int), r))).filterMap
      (fun p => if p.1 = 0 then some (p.2.data, (0 : Int)) else none) =
    q.map (fun r => (r.data, (0 : Int))) := by
  induction q with
  | nil => rfl
  | cons x q ih => simp [List.filterMap_cons, ih]

theorem connack_ok (m : mqtt_manager) :
    mqtt_evt_handler m (mqtt_evt.connack 0) = { m with connected := true } := rfl

/-- The trace of a disconnected run of publishes followed, after CONNACK, by a run of drain
passes, in terms of the store and retrieve runs of the buffer. -/
theorem offline_then_drain (cap : Nat) (fb : flash_buffer)
    (ds : List (sensor_data × publish_env)) (envs : List drain_env)
    (hds : ∀ e ∈ ds, e.2.f_slot = none ∧ e.2.f_count = none)
    (henvs : ∀ e ∈ envs, e.f_slot = none ∧ e.f_count = none ∧ e.pub.publish_rc = 0) :
    (drain_seq cap (mqtt_evt_handler (publish_seq cap (mqtt_manager.offline fb) ds)
      (mqtt_evt.connack 0)) envs).published =
    (retrieve_seq cap (store_seq cap fb (ds.map (fun e => e.1.to_reading e.2.reserved))).1
      (envs.map (fun e => e.buffered))).2.filterMap
        (fun p => if p.1 = 0 then some (p.2.data, (0 : Int)) else none) := by
  rw [publish_seq_offline cap ds (mqtt_manager.offline fb) rfl rfl hds, connack_ok]
  have hd := drain_seq_online cap envs
    { connected := true, initialized := true,
      fb := (store_seq cap fb (ds.map (fun e => e.1.to_reading e.2.reserved))).1,
      published := [] }
    rfl rfl henvs
  exact (congrArg mqtt_manager.published hd).trans (List.nil_append _)

/-! ## Initialisation -/

theorem boot_read_count (fs : nvs_fs) (b : Blob) (h : fs.entry NVS_COUNT_ID = some b) :
    nvs_read none fs NVS_COUNT_ID (le_bytes 2 0) 2 =
      (mem_write (le_bytes 2 0) (b.take 2), (b.length : Int)) := by
  simp only [nvs_read, h]

theorem le_value_boot_read (b : Blob) :
    le_value (mem_write (le_bytes 2 0) (b.take 2)) = le_value (b.take 2) := by
  match b with
  | [] => rfl
  | [x] => simp [mem_write, le_bytes, le_value]
  | x :: y :: rest => simp [mem_write, le_bytes, le_value]

theorem le_value_take_two_lt (b : Blob) : le_value (b.take 2) < 65536 := by
  match b with
  | [] => simp [le_value]
  | [x] => simp [le_value]; omega
  | x :: y :: rest => simp [le_value]; omega

theorem init_boot_loaded (cap : Nat) (env : init_env) (fs : nvs_fs) (b : Blob)
    (h1 : env.device_ready = true) (h2 : env.page_info_rc = 0) (h3 : env.mount_rc = 0)
    (h4 : env.read_fault = none) (h : fs.entry NVS_COUNT_ID = some b) :
    kargo_flash_buffer_init cap env (flash_buffer.boot fs) =
      ({ nvs := fs, buffered_count := le_value (b.take 2), read_id := 1,
         write_id := if (le_value (b.take 2) + 1) % 65536 > cap then 1
                     else (le_value (b.take 2) + 1) % 65536,
         initialized := true }, 0) := by
  rw [init_run cap env _ rfl h1 h2 h3, h4]
  have e : nvs_read none (flash_buffer.boot fs).nvs NVS_COUNT_ID
      (le_bytes 2 (flash_buffer.boot fs).buffered_count) 2 =
      (mem_write (le_bytes 2 0) (b.take 2), (b.length : Int)) := boot_read_count fs b h
  rw [e]
  have hnn : ¬ ((b.length : Int) < 0) := by omega
  simp only [hnn, if_false, le_value_boot_read]
  rfl

/-! ## Cursor range -/

theorem inc_wrap_range (cap id : Nat) (h1 : 1 ≤ cap) (h2 : cap ≤ 65534) (h3 : id ≤ cap) :
    1 ≤ inc_wrap cap id ∧ inc_wrap cap id ≤ cap := by
  rw [inc_wrap_small cap id h3 h2]
  split_ifs <;> omega

theorem store_cursors (cap : Nat) (f g : Fault) (s : flash_buffer) (r : kargo_sensor_reading)
    (h1 : 1 ≤ cap) (h2 : cap ≤ 65534) (h : cursors_in_range cap s) :
    cursors_in_range cap (kargo_flash_buffer_store cap f g s r).1 := by
  obtain ⟨a1, a2, a3, a4⟩ := h
  unfold kargo_flash_buffer_store cursors_in_range
  split_ifs <;> dsimp only [NVS_READ_ID_BASE, NVS_WRITE_ID_BASE] <;> (try split_ifs) <;>
    (try dsimp only) <;> omega

theorem retrieve_cursors (cap : Nat) (f g : Fault) (s : flash_buffer)
    (buf : kargo_sensor_reading) (h1 : 1 ≤ cap) (h2 : cap ≤ 65534)
    (h : cursors_in_range cap s) :
    cursors_in_range cap (kargo_flash_buffer_retrieve cap f g s buf).1 := by
  obtain ⟨a1, a2, a3, a4⟩ := h
  unfold kargo_flash_buffer_retrieve cursors_in_range
  split_ifs <;> dsimp only [NVS_READ_ID_BASE, NVS_WRITE_ID_BASE] <;> (try split_ifs) <;>
    (try dsimp only) <;> omega

theorem clear_cursors (cap : Nat) (g : Fault) (s : flash_buffer) (h1 : 1 ≤ cap)
    (h : cursors_in_range cap s) :
    cursors_in_range cap (kargo_flash_buffer_clear g s).1 := by
  unfold kargo_flash_buffer_clear
  split_ifs
  · exact h
  · exact ⟨le_refl 1, h1, le_refl 1, h1⟩

theorem fb_run_cursors (cap : Nat) (h1 : 1 ≤ cap) (h2 : cap ≤ 65534) (calls : List fb_call) :
    ∀ s : flash_buffer, cursors_in_range cap s → cursors_in_range cap (fb_run cap s calls) := by
  induction calls with
  | nil => intro s h; exact h
  | cons c cs ih =>
    intro s h
    show cursors_in_range cap (fb_run cap (fb_step cap s c) cs)
    apply ih
    cases c with
    | store r f g => exact store_cursors cap f g s r h1 h2 h
    | retrieve r f g => exact retrieve_cursors cap f g s r h1 h2 h
    | clear g => exact clear_cursors cap g s h1 h

theorem init_cursors (cap : Nat) (env : init_env) (fs : nvs_fs) (h1 : 1 ≤ cap)
    (hkey : ∀ b, fs.entry NVS_COUNT_ID = some b → le_value (b.take 2) ≠ 65535) :
    cursors_in_range cap (kargo_flash_buffer_init cap env (flash_buffer.boot fs)).1 := by
  have hboot : cursors_in_range cap (flash_buffer.boot fs) := ⟨le_refl 1, h1, le_refl 1, h1⟩
  have hone : cursors_in_range cap
      { flash_buffer.boot fs with buffered_count := 0, read_id := 1, write_id := 1,
                                  initialized := true } := ⟨le_refl 1, h1, le_refl 1, h1⟩
  by_cases hp : env.device_ready = true ∧ env.page_info_rc = 0 ∧ env.mount_rc = 0
  · obtain ⟨p1, p2, p3⟩ := hp
    cases hf : env.read_fault with
    | some e =>
      rw [init_run cap env _ rfl p1 p2 p3, hf]
      rw [if_pos (by simp only [nvs_read]; exact Int.negSucc_lt_zero e)]
      exact hone
    | none =>
      cases hm : fs.entry NVS_COUNT_ID with
      | none =>
        rw [init_run cap env _ rfl p1 p2 p3, hf]
        have e : (flash_buffer.boot fs).nvs.entry NVS_COUNT_ID = none := hm
        rw [if_pos (by simp only [nvs_read, e]; decide)]
        exact hone
      | some b =>
        rw [init_boot_loaded cap env fs b p1 p2 p3 hf hm]
        have hlt := le_value_take_two_lt b
        have hne := hkey b hm
        have hmod : (le_value (b.take 2) + 1) % 65536 = le_value (b.take 2) + 1 :=
          Nat.mod_eq_of_lt (by omega)
        refine ⟨le_refl 1, h1, ?_, ?_⟩
        · show 1 ≤ if (le_value (b.take 2) + 1) % 65536 > cap then 1
            else (le_value (b.take 2) + 1) % 65536
          rw [hmod]; split_ifs <;> omega
        · show (if (le_value (b.take 2) + 1) % 65536 > cap then 1
            else (le_value (b.take 2) + 1) % 65536) ≤ cap
          rw [hmod]; split_ifs <;> omega
  · unfold kargo_flash_buffer_init
    simp only [flash_buffer.boot, Bool.false_eq_true, if_false]
    split_ifs <;> first | exact hboot | (exfalso; apply hp; simp_all)

/-! ## The persisted count -/

theorem count_tracked_of_entry (cap : Nat) (env : init_env) (t : flash_buffer)
    (h1 : env.device_ready = true) (h2 : env.page_info_rc = 0) (h3 : env.mount_rc = 0)
    (h4 : env.read_fault = none) (hlt : t.buffered_count < 65536)
    (he : t.nvs.entry NVS_COUNT_ID = some (le_bytes 2 t.buffered_count)) :
    count_tracked cap env t := by
  have e : t.buffered_count % 256 ^ 2 = t.buffered_count := Nat.mod_eq_of_lt (by omega)
  constructor
  · unfold persisted_count
    rw [he, Option.map_some', le_value_le_bytes, e, count_eq]
  · show kargo_flash_buffer_count
      (kargo_flash_buffer_init cap env (flash_buffer.boot t.nvs)).1 = _
    rw [init_boot_loaded cap env t.nvs _ h1 h2 h3 h4 he, le_take_self, le_value_le_bytes, e]
    rfl

theorem store_rc_zero (cap : Nat) (f g : Fault) (s : flash_buffer) (r : kargo_sensor_reading)
    (h : (kargo_flash_buffer_store cap f g s r).2 = 0) :
    s.initialized = true ∧ f = none := by
  unfold kargo_flash_buffer_store at h
  by_cases hi : s.initialized = true
  · refine ⟨hi, ?_⟩
    cases f with
    | none => rfl
    | some e =>
      exfalso
      simp only [hi, Bool.not_true, Bool.false_eq_true, if_false, nvs_write_some,
        Int.negSucc_lt_zero, if_true] at h
      exact absurd h (by simp)
  · exfalso
    rw [if_pos (by simpa using hi)] at h
    have h' : (-EINVAL : Int) = 0 := h
    exact absurd h' (by decide)

theorem retrieve_rc_zero (cap : Nat) (f g : Fault) (s : flash_buffer)
    (buf : kargo_sensor_reading) (h : (kargo_flash_buffer_retrieve cap f g s buf).2.2 = 0) :
    s.initialized = true ∧ s.buffered_count ≠ 0 ∧ f = none ∧
    ∃ b, s.nvs.entry s.read_id = some b := by
  unfold kargo_flash_buffer_retrieve at h
  by_cases hi : s.initialized = true
  · rw [if_neg (by simp [hi])] at h
    by_cases hc : s.buffered_count = 0
    · exfalso
      rw [if_pos hc] at h
      have h' : (-ENODATA : Int) = 0 := h
      exact absurd h' (by decide)
    · rw [if_neg hc] at h
      refine ⟨hi, hc, ?_⟩
      cases f with
      | some e =>
        exfalso
        simp only [nvs_read, Fault.rc, Int.negSucc_lt_zero, if_true] at h
        exact absurd h (by simp)
      | none =>
        refine ⟨rfl, ?_⟩
        cases hs : s.nvs.entry s.read_id with
        | some b => exact ⟨b, rfl⟩
        | none =>
          exfalso
          have hn : (-ENOENT : Int) < 0 := by decide
          simp only [nvs_read, hs, hn, if_true] at h
          exact absurd h (by decide)
  · exfalso
    rw [if_pos (by simpa using hi)] at h
    have h' : (-EINVAL : Int) = 0 := h
    exact absurd h' (by decide)

theorem clear_rc_zero (g : Fault) (s : flash_buffer)
    (h : (kargo_flash_buffer_clear g s).2 = 0) : s.initialized = true := by
  unfold kargo_flash_buffer_clear at h
  by_cases hi : s.initialized = true
  · exact hi
  · exfalso
    rw [if_pos (by simpa using hi)] at h
    have h' : (-EINVAL : Int) = 0 := h
    exact absurd h' (by decide)

theorem store_persists (cap : Nat) (s : flash_buffer) (r : kargo_sensor_reading)
    (hi : s.initialized = true) (hty : s.buffered_count < 65536) :
    (kargo_flash_buffer_store cap none none s r).1.buffered_count < 65536 ∧
    (kargo_flash_buffer_store cap none none s r).1.nvs.entry NVS_COUNT_ID =
      some (le_bytes 2 (kargo_flash_buffer_store cap none none s r).1.buffered_count) := by
  rw [store_none cap s r hi]
  constructor
  · show (if s.buffered_count ≥ cap then s.buffered_count
      else (s.buffered_count + 1) % 65536) < 65536
    split_ifs
    · exact hty
    · exact Nat.mod_lt _ (by decide)
  · show ((s.nvs.put s.write_id r.to_bytes).put 0 _).entry NVS_COUNT_ID = _
    rfl

theorem retrieve_persists (cap : Nat) (s : flash_buffer) (b : Blob)
    (buf : kargo_sensor_reading) (hi : s.initialized = true) (hc : s.buffered_count ≠ 0)
    (hs : s.nvs.entry s.read_id = some b) (hty : s.buffered_count < 65536) :
    (kargo_flash_buffer_retrieve cap none none s buf).1.buffered_count < 65536 ∧
    (kargo_flash_buffer_retrieve cap none none s buf).1.nvs.entry NVS_COUNT_ID =
      some (le_bytes 2 (kargo_flash_buffer_retrieve cap none none s buf).1.buffered_count) := by
  rw [retrieve_blob cap s b buf hi hc hs]
  constructor
  · show s.buffered_count - 1 < 65536
    omega
  · show (s.nvs.put 0 _).entry NVS_COUNT_ID = _
    rfl

theorem clear_persists (s : flash_buffer) (hi : s.initialized = true) :
    (kargo_flash_buffer_clear none s).1.buffered_count < 65536 ∧
    (kargo_flash_buffer_clear none s).1.nvs.entry NVS_COUNT_ID =
      some (le_bytes 2 (kargo_flash_buffer_clear none s).1.buffered_count) := by
  unfold kargo_flash_buffer_clear
  simp only [hi, Bool.not_true, Bool.false_eq_true, if_false, nvs_write_none_fst, put_entry,
    NVS_COUNT_ID, if_true]
  exact ⟨by decide, trivial⟩

/-! ## A store cut short before the count write -/

theorem store_torn_eq (cap : Nat) (s : flash_buffer) (r : kargo_sensor_reading)
    (hi : s.initialized = true) :
    store_torn cap s r = s.nvs.put s.write_id r.to_bytes := by
  unfold store_torn
  rw [if_neg (by simp [hi]), nvs_write_none_fst]
  by_cases hc : s.buffered_count ≥ cap
  · simp only [hc, if_true]
  · simp only [hc, if_false]

theorem retrieve_below (cap w : Nat) (f g : Fault) (t : flash_buffer)
    (buf : kargo_sensor_reading) (h : t.read_id + t.buffered_count ≤ w) :
    (kargo_flash_buffer_retrieve cap f g t buf).1.read_id +
      (kargo_flash_buffer_retrieve cap f g t buf).1.buffered_count ≤ w := by
  unfold kargo_flash_buffer_retrieve
  split_ifs <;> dsimp only [NVS_READ_ID_BASE] <;> (try split_ifs) <;> (try dsimp only) <;> omega

theorem retrieve_seq_below (cap w : Nat) (bufs : List kargo_sensor_reading) :
    ∀ t : flash_buffer, t.read_id + t.buffered_count ≤ w →
      (retrieve_seq cap t bufs).1.read_id + (retrieve_seq cap t bufs).1.buffered_count ≤ w := by
  induction bufs with
  | nil => intro t h; exact h
  | cons b bs ih =>
    intro t h
    exact ih _ (retrieve_below cap w none none t b h)

theorem init_boot_absent (cap : Nat) (env : init_env) (fs : nvs_fs)
    (h1 : env.device_ready = true) (h2 : env.page_info_rc = 0) (h3 : env.mount_rc = 0)
    (h : fs.entry NVS_COUNT_ID = none) :
    kargo_flash_buffer_init cap env (flash_buffer.boot fs) =
      ({ nvs := fs, buffered_count := 0, read_id := 1, write_id := 1, initialized := true },
       0) := by
  rw [init_run cap env _ rfl h1 h2 h3]
  have hrd : (nvs_read env.read_fault (flash_buffer.boot fs).nvs NVS_COUNT_ID
      (le_bytes 2 (flash_buffer.boot fs).buffered_count) 2).2 < 0 := by
    unfold nvs_read
    cases env.read_fault with
    | some e => exact Int.negSucc_lt_zero e
    | none =>
      have : (flash_buffer.boot fs).nvs.entry NVS_COUNT_ID = none := h
      simp only [this]; decide
  rw [if_pos hrd]
  rfl

/-! ## A drain pass whose publish fails -/

theorem drain_requeues (cap : Nat) (env : drain_env) (m : mqtt_manager)
    (x : kargo_sensor_reading) (q : List kargo_sensor_reading)
    (hcap : cap ≤ 65534) (hm : m.initialized = true) (hc : m.connected = true)
    (hq : holds cap m.fb (x :: q))
    (hf1 : env.f_slot = none) (hf2 : env.f_count = none)
    (hrc : env.pub.publish_rc ≠ 0) :
    mqtt_thread_fn_drain cap env m =
      { m with
          fb := (kargo_flash_buffer_store cap env.pub.f_slot env.pub.f_count
                  (kargo_flash_buffer_retrieve cap none none m.fb env.buffered).1
                  (x.data.to_reading env.pub.reserved)).1,
          published := m.published ++ [(x.data, env.pub.publish_rc)] } := by
  have hcount : kargo_flash_buffer_count m.fb > 0 := by
    rw [count_eq, hq.count]; simp
  obtain ⟨hr2, -⟩ := holds_retrieve cap m.fb x q env.buffered hcap hq
  have hr3 : (kargo_flash_buffer_retrieve cap none none m.fb env.buffered).2.2 = 0 := by
    rw [hr2]
  have hr4 : (kargo_flash_buffer_retrieve cap none none m.fb env.buffered).2.1 = x := by
    rw [hr2]
  unfold mqtt_thread_fn_drain
  rw [if_pos hcount, hf1, hf2]
  simp only [hr3, hr4, if_true]
  refine (congrArg Prod.fst (publish_buffers cap env.pub
    { connected := m.connected, initialized := m.initialized,
      fb := (kargo_flash_buffer_retrieve cap none none m.fb env.buffered).1,
      published := m.published } x.data hm (fun h => hrc h.2))).trans ?_
  simp only [hc, if_true]

/-! ## Refinement of the drop-oldest list -/

theorem holds_pop_reply (cap : Nat) (hcap : cap ≤ 65534) (s : flash_buffer)
    (q : List kargo_sensor_reading) (buf : kargo_sensor_reading) (h : holds cap s q) :
    (kargo_flash_buffer_retrieve cap none none s buf).2 = pop_reply q buf ∧
    holds cap (kargo_flash_buffer_retrieve cap none none s buf).1 q.tail := by
  cases q with
  | nil =>
    rw [holds_empty_retrieve cap s buf none none h]
    exact ⟨rfl, h⟩
  | cons x q =>
    obtain ⟨h1, h2⟩ := holds_retrieve cap s x q buf hcap h
    exact ⟨h1, h2⟩

theorem holds_queue_run (cap : Nat) (hcap : cap ≤ 65534) (calls : List queue_call) :
    ∀ (s : flash_buffer) (q : List kargo_sensor_reading), holds cap s q →
      holds cap (fb_run cap s (calls.map queue_call.to_fb)) (queue_run cap q calls) := by
  induction calls with
  | nil => intro s q h; exact h
  | cons c cs ih =>
    intro s q h
    show holds cap (fb_run cap (fb_step cap s c.to_fb) (cs.map queue_call.to_fb))
      (queue_run cap (queue_step cap q c) cs)
    apply ih
    cases c with
    | push r => exact (holds_store cap s q r hcap h).2
    | pop buf => exact (holds_pop_reply cap hcap s q buf h).2

theorem holds_write_pos (cap : Nat) (s : flash_buffer) (q : List kargo_sensor_reading)
    (h : holds cap s q) : 1 ≤ s.write_id := by
  have h1 := h.rd_lo
  rw [h.wr]
  unfold slot_at
  split_ifs <;> omega

theorem fb_run_pushes (cap : Nat) (rs : List kargo_sensor_reading) :
    ∀ s : flash_buffer,
      fb_run cap s ((rs.map queue_call.push).map queue_call.to_fb) = (store_seq cap s rs).1 := by
  induction rs with
  | nil => intro s; rfl
  | cons r rs ih =>
    intro s
    show fb_run cap (kargo_flash_buffer_store cap none none s r).1
      ((rs.map queue_call.push).map queue_call.to_fb) = _
    rw [ih]
    rfl

theorem write_zero_65535 (s0 : flash_buffer) (x : kargo_sensor_reading) (h0 : is_fresh s0) :
    (store_seq 65535 s0 (List.replicate 65535 x)).1.write_id = 0 := by
  obtain ⟨hi, hc, -, hw⟩ := h0
  obtain ⟨-, -, -, -, a5, -, -⟩ :=
    lin_store 65535 (List.replicate 65535 x) s0 hi (by omega)
      (by rw [List.length_replicate]; omega) (by rw [List.length_replicate]; omega)
      (by rw [List.length_replicate]; omega) (by rw [List.length_replicate]; omega)
  rw [if_neg (replicate_ne_nil _ _ (by decide)), List.length_replicate, hw] at a5
  have hwid : inc_wrap 65535 (1 + 65535 - 1) = 0 := by decide
  rw [hwid] at a5
  exact a5

/-! ## The sample's ring buffer against the module's -/

theorem nvs_write_neg (f : Fault) (fs : nvs_fs) (id : Nat) (d : Blob) :
    (nvs_write f fs id d).2 < 0 ↔ f ≠ none := by
  cases f with
  | none => simp [nvs_write_none_snd]
  | some e => simp [nvs_write_some, Int.negSucc_lt_zero]

theorem nvs_write_rc_some (e : Nat) (fs : nvs_fs) (id : Nat) (d : Blob) :
    (nvs_write (some e) fs id d).2 = Fault.rc e := rfl

theorem buffer_reading_agrees (f g : Fault) (s : flash_buffer) (t : sample_storage)
    (r : kargo_sensor_reading) (bytes : Blob) (hi : s.initialized = true)
    (h : same_ring s t) :
    (buffer_reading f g t bytes).2 =
      (kargo_flash_buffer_store MAX_BUFFERED_READINGS f g s r).2 ∧
    same_ring (kargo_flash_buffer_store MAX_BUFFERED_READINGS f g s r).1
      (buffer_reading f g t bytes).1 := by
  obtain ⟨h1, h2, h3⟩ := h
  unfold buffer_reading kargo_flash_buffer_store same_ring
  simp only [hi, Bool.not_true, Bool.false_eq_true, if_false, h1, h2, h3, nvs_write_neg,
    NVS_READ_ID_BASE, NVS_WRITE_ID_BASE]
  cases f with
  | none =>
    simp only [ne_eq, not_true_eq_false, if_false]
    split_ifs <;> simp
  | some e =>
    simp only [ne_eq, reduceCtorEq, not_false_eq_true, if_true, nvs_write_rc_some]
    split_ifs <;> simp

theorem nvs_read_neg (f : Fault) (fs : nvs_fs) (id : Nat) (dst : Blob) (len : Nat) :
    (nvs_read f fs id dst len).2 < 0 ↔ (f ≠ none ∨ fs.entry id = none) := by
  cases f with
  | some e => simp [nvs_read, Fault.rc, Int.negSucc_lt_zero]
  | none =>
    cases h : fs.entry id with
    | none =>
      simp only [nvs_read, h, ne_eq, not_true_eq_false, false_or, iff_true]
      decide
    | some b =>
      simp only [nvs_read, h, ne_eq, not_true_eq_false, reduceCtorEq, or_self, iff_false]
      omega

theorem get_buffered_reading_agrees (f g : Fault) (s : flash_buffer) (t : sample_storage)
    (buf : kargo_sensor_reading) (dst : Blob) (hi : s.initialized = true)
    (h : same_ring s t)
    (hslot : t.nvs.entry t.nvs_read_id = none ↔ s.nvs.entry s.read_id = none) :
    ((get_buffered_reading f g t dst).2.2 = 0 ↔
      (kargo_flash_buffer_retrieve MAX_BUFFERED_READINGS f g s buf).2.2 = 0) ∧
    same_ring (kargo_flash_buffer_retrieve MAX_BUFFERED_READINGS f g s buf).1
      (get_buffered_reading f g t dst).1 := by
  obtain ⟨h1, h2, h3⟩ := h
  have hneg : (nvs_read f t.nvs t.nvs_read_id dst dst.length).2 < 0 ↔
      (nvs_read f s.nvs s.read_id buf.to_bytes READING_SIZE).2 < 0 := by
    rw [nvs_read_neg, nvs_read_neg, hslot]
  unfold get_buffered_reading kargo_flash_buffer_retrieve same_ring
  simp only [hi, Bool.not_true, Bool.false_eq_true, if_false, h1, NVS_READ_ID_BASE]
  by_cases hc : s.buffered_count = 0
  · simp only [hc, if_true]
    exact ⟨by decide, h1.trans hc, h2, h3⟩
  · simp only [hc, if_false]
    by_cases hr : (nvs_read f s.nvs s.read_id buf.to_bytes READING_SIZE).2 < 0
    · have hr' := hneg.mpr hr
      simp only [hr, hr', if_true]
      exact ⟨⟨fun e => absurd (e ▸ hr') (by decide), fun e => absurd (e ▸ hr) (by decide)⟩,
        h1, h2, h3⟩
    · have hr' : ¬ (nvs_read f t.nvs t.nvs_read_id dst dst.length).2 < 0 :=
        fun e => hr (hneg.mp e)
      rw [h2] at hr'
      simp only [hr, h2, hr', if_false, h3, and_self, iff_self]

theorem init_storage_agrees (env : init_env) (fs : nvs_fs) (c : Nat)
    (hc : c < MAX_BUFFERED_READINGS) (hkey : fs.entry NVS_COUNT_ID = some (le_bytes 2 c))
    (hrd : env.read_fault = none)
    (hrc : (kargo_flash_buffer_init MAX_BUFFERED_READINGS env (flash_buffer.boot fs)).2 = 0) :
    (init_storage env (sample_storage.boot fs)).2 = 0 ∧
    same_ring (kargo_flash_buffer_init MAX_BUFFERED_READINGS env (flash_buffer.boot fs)).1
      (init_storage env (sample_storage.boot fs)).1 := by
  obtain ⟨h1, h2, h3⟩ := init_rc_zero _ env _ rfl hrc
  have hc' : c < 100 := hc
  rw [init_boot_loaded _ env fs _ h1 h2 h3 hrd hkey, le_take_self, le_value_le_bytes,
    Nat.mod_eq_of_lt (by omega : c < 256 ^ 2)]
  have e : nvs_read none (sample_storage.boot fs).nvs 0
      (le_bytes 2 (sample_storage.boot fs).buffered_count) 2 =
      (mem_write (le_bytes 2 0) ((le_bytes 2 c).take 2), ((le_bytes 2 c).length : Int)) :=
    boot_read_count fs _ hkey
  unfold init_storage
  rw [if_neg (by simp [h1]), if_neg (by simp [h2]), if_neg (by simp [h3]), hrd]
  have hnn : ¬ (((le_bytes 2 c).length : Int) < 0) := by omega
  have hm : c % 256 ^ 2 = c := Nat.mod_eq_of_lt (by omega)
  have hm2 : (c + 1) % 65536 = c + 1 := Nat.mod_eq_of_lt (by omega)
  have hle : ¬ (c + 1 > MAX_BUFFERED_READINGS) := by
    show ¬ (c + 1 > 100)
    omega
  have hv : le_value (mem_write (le_bytes 2 0) ((le_bytes 2 c).take 2)) = c := by
    rw [le_value_boot_read, le_take_self, le_value_le_bytes, hm]
  rw [e, if_neg hnn]
  refine ⟨rfl, ?_, rfl, ?_⟩
  · show le_value (mem_write (le_bytes 2 0) ((le_bytes 2 c).take 2)) = c
    exact hv
  · show (le_value (mem_write (le_bytes 2 0) ((le_bytes 2 c).take 2)) + 1) % 65536 =
      if (c + 1) % 65536 > MAX_BUFFERED_READINGS then 1 else (c + 1) % 65536
    rw [hv, hm2, if_neg hle]

/-! ## The BLE write handlers -/

theorem copy_into_outside (m : Cells) (offset : Nat) (src : Blob) (k : Nat)
    (h : offset + src.length ≤ k) : copy_into m offset src k = m k := by
  unfold copy_into
  rw [if_neg (by omega)]

theorem write_diag_in_bounds (m : Cells) (buf : Blob) (len offset k : Nat) (hk : 256 ≤ k) :
    (write_diag m buf len offset).1 k = m k := by
  unfold write_diag
  by_cases h : offset + len > 256 - 1
  · rw [if_pos h]
  · rw [if_neg h]
    have hl : (buf.take len).length ≤ len := by
      rw [List.length_take]; exact Nat.min_le_left _ _
    show (if k = offset + len then (0 : Byte) else copy_into m offset (buf.take len) k) = m k
    rw [if_neg (by omega), copy_into_outside _ _ _ _ (by omega)]

theorem write_diagnostic_in_bounds (m : Cells) (buf : Blob) (len offset k : Nat)
    (hk : 256 < k) : (write_diagnostic m buf len offset).1 k = m k := by
  unfold write_diagnostic
  by_cases h : offset + len > 256
  · rw [if_pos h]
  · rw [if_neg h]
    have hl : (buf.take len).length ≤ len := by
      rw [List.length_take]; exact Nat.min_le_left _ _
    show (if k = offset + len then (0 : Byte) else copy_into m offset (buf.take len) k) = m k
    rw [if_neg (by omega), copy_into_outside _ _ _ _ (by omega)]

/-! ## Return codes of store and retrieve -/

theorem slot_errors_propagate (cap : Nat) (s : flash_buffer)
    (r buf : kargo_sensor_reading) (e : Nat) (g : Fault) (hi : s.initialized = true) :
    Fault.rc e < 0 ∧
    (kargo_flash_buffer_store cap (some e) g s r).2 = Fault.rc e ∧
    (s.buffered_count ≠ 0 →
      (kargo_flash_buffer_retrieve cap (some e) g s buf).2.2 = Fault.rc e) ∧
    (s.buffered_count ≠ 0 → s.nvs.entry s.read_id = none →
      (kargo_flash_buffer_retrieve cap none g s buf).2.2 = -ENOENT) ∧
    (kargo_flash_buffer_store cap none g s r).2 = 0 ∧
    (s.buffered_count ≠ 0 → s.nvs.entry s.read_id ≠ none →
      (kargo_flash_buffer_retrieve cap none g s buf).2.2 = 0) := by
  have hneg : Fault.rc e < 0 := Int.negSucc_lt_zero e
  have hneg' : Int.negSucc e < 0 := Int.negSucc_lt_zero e
  refine ⟨hneg, ?_, ?_, ?_, ?_, ?_⟩
  · unfold kargo_flash_buffer_store
    simp only [hi, Bool.not_true, Bool.false_eq_true, if_false, nvs_write_some, hneg, hneg',
      if_true]
    rfl
  · intro hc
    unfold kargo_flash_buffer_retrieve
    simp only [hi, Bool.not_true, Bool.false_eq_true, if_false, hc, nvs_read, hneg, hneg',
      if_true]
  · intro hc hs
    unfold kargo_flash_buffer_retrieve
    have : (-ENOENT : Int) < 0 := by decide
    simp only [hi, Bool.not_true, Bool.false_eq_true, if_false, hc, nvs_read, hs, this, if_true]
  · unfold kargo_flash_buffer_store
    simp only [hi, Bool.not_true, Bool.false_eq_true, if_false, nvs_write_none_snd]
  · intro hc hs
    obtain ⟨b, hb⟩ := Option.ne_none_iff_exists'.mp hs
    unfold kargo_flash_buffer_retrieve
    have hnn : ¬ ((b.length : Int) < 0) := by omega
    simp only [hi, Bool.not_true, Bool.false_eq_true, if_false, hc, nvs_read, hb, hnn]

/-! ## The claims -/

/-- C1, for capacities up to 65535: a buffer initialised on a store without metadata is
empty with both cursors on slot 1; when every NVS operation goes through, `n ≤ cap` stores
followed by `n` retrieves all return 0, the retrieves yield the stored readings in the order
of the stores, and the count is 0 afterwards. -/
theorem C1_fifo_without_overflow (cap : Nat) (env : init_env) (fs : nvs_fs)
    (rs bufs : List kargo_sensor_reading)
    (hcap : cap ≤ 65535) (hn : rs.length ≤ cap) (hb : bufs.length = rs.length)
    (hmeta : fs.entry NVS_COUNT_ID = none)
    (hinit : (kargo_flash_buffer_init cap env (flash_buffer.boot fs)).2 = 0) :
    is_fresh (kargo_flash_buffer_init cap env (flash_buffer.boot fs)).1 ∧
    fifo_round_trip cap (kargo_flash_buffer_init cap env (flash_buffer.boot fs)).1 rs bufs :=
  ⟨(init_no_metadata cap env fs hmeta hinit).1,
   fifo_linear cap _ rs bufs hcap hn hb (init_no_metadata cap env fs hmeta hinit).1⟩

/-- C1 at capacity 3 with two readings on a blank flash partition. -/
theorem C1_witness :
    ((3 : Nat) ≤ 65535 ∧ [mk_reading 10, mk_reading 20].length ≤ 3 ∧
      [mk_reading 0, mk_reading 0].length = [mk_reading 10, mk_reading 20].length ∧
      blank_flash.entry NVS_COUNT_ID = none ∧
      (kargo_flash_buffer_init 3 platform_ok (flash_buffer.boot blank_flash)).2 = 0) ∧
    (is_fresh (kargo_flash_buffer_init 3 platform_ok (flash_buffer.boot blank_flash)).1 ∧
     fifo_round_trip 3 (kargo_flash_buffer_init 3 platform_ok (flash_buffer.boot blank_flash)).1
      [mk_reading 10, mk_reading 20] [mk_reading 0, mk_reading 0]) :=
  ⟨⟨by decide, by decide, rfl, rfl, by decide⟩,
   C1_fifo_without_overflow 3 platform_ok blank_flash [mk_reading 10, mk_reading 20]
    [mk_reading 0, mk_reading 0] (by decide) (by decide) rfl rfl (by decide)⟩

/-- C1 fails at capacity 65536: the 16-bit count wraps to 0 on the 65536th store, so the
first retrieve of the round trip reports an empty buffer. -/
theorem C1_counterexample :
    ¬ fifo_round_trip 65536
        (kargo_flash_buffer_init 65536 platform_ok (flash_buffer.boot blank_flash)).1
        (List.replicate 65536 (mk_reading 7)) (List.replicate 65536 (mk_reading 7)) := by
  intro h
  obtain ⟨-, h2, -⟩ := h
  have h0 := (init_no_metadata 65536 platform_ok blank_flash rfl (by decide)).1
  obtain ⟨hi, hc⟩ := wrapped_count_65536 _ (mk_reading 7) h0
  have hrep : List.replicate 65536 (mk_reading 7) =
      mk_reading 7 :: List.replicate 65535 (mk_reading 7) := List.replicate_succ _ _
  have hh := retrieve_seq_cons_empty 65536 _ (mk_reading 7)
    (List.replicate 65535 (mk_reading 7)) hi hc
  rw [← hrep, h2, List.map_replicate] at hh
  have : (List.replicate 65536 ((0 : Int), mk_reading 7)).head? = some (0, mk_reading 7) :=
    by rw [List.replicate_succ]; rfl
  rw [this] at hh
  simp only [Option.some.injEq, Prod.mk.injEq] at hh
  exact absurd hh.1 (by decide)

/-- C2, for capacities up to 65534: from an empty initialised buffer, `cap + k` stores whose
NVS writes go through leave the count at `cap`; the next `cap` retrieves return 0 and yield
exactly the last `cap` readings, oldest first, and one more retrieve returns `-ENODATA`. -/
theorem C2_overwrite_oldest (cap k : Nat) (s0 : flash_buffer)
    (rs bufs : List kargo_sensor_reading) (buf : kargo_sensor_reading)
    (hc1 : 1 ≤ cap) (hcap : cap ≤ 65534) (hlen : rs.length = cap + k)
    (hb : bufs.length = cap) (h0 : is_fresh s0) :
    keeps_newest cap k s0 rs bufs buf :=
  holds_keeps_newest cap k s0 rs bufs buf hc1 hcap hlen hb h0

/-- C2 at capacity 3 with four readings: the first one is overwritten. -/
theorem C2_witness :
    ((1 : Nat) ≤ 3 ∧ (3 : Nat) ≤ 65534 ∧
      [mk_reading 1, mk_reading 2, mk_reading 3, mk_reading 4].length = 3 + 1 ∧
      [mk_reading 0, mk_reading 0, mk_reading 0].length = 3 ∧
      is_fresh (kargo_flash_buffer_init 3 platform_ok (flash_buffer.boot blank_flash)).1) ∧
    keeps_newest 3 1 (kargo_flash_buffer_init 3 platform_ok (flash_buffer.boot blank_flash)).1
      [mk_reading 1, mk_reading 2, mk_reading 3, mk_reading 4]
      [mk_reading 0, mk_reading 0, mk_reading 0] (mk_reading 0) :=
  ⟨⟨by decide, by decide, rfl, rfl, ⟨rfl, rfl, rfl, rfl⟩⟩,
   C2_overwrite_oldest 3 1 _ [mk_reading 1, mk_reading 2, mk_reading 3, mk_reading 4]
    [mk_reading 0, mk_reading 0, mk_reading 0] (mk_reading 0) (by decide) (by decide) rfl rfl
    ⟨rfl, rfl, rfl, rfl⟩⟩

/-- C2 fails at capacity 65535 with one reading too many: the 65536th reading is written
under the metadata id 0 and overwritten by the count, so the last retrieve returns the count
bytes (the reading `mk_reading 1`) instead of the newest reading. -/
theorem C2_counterexample :
    ¬ keeps_newest 65535 1
        (kargo_flash_buffer_init 65535 platform_ok (flash_buffer.boot blank_flash)).1
        (List.replicate 65536 (mk_reading 0)) (List.replicate 65535 (mk_reading 0))
        (mk_reading 0) := by
  intro h
  obtain ⟨-, h2, -⟩ := h
  have h0 := (init_no_metadata 65535 platform_ok blank_flash rfl (by decide)).1
  have hov := (overflow_65535 _ h0).2
  rw [hov] at h2
  have hd : (List.replicate 65536 (mk_reading 0)).drop 1 = List.replicate 65535 (mk_reading 0) := by
    rw [List.drop_replicate]
  rw [hd, List.map_replicate] at h2
  have hr : List.replicate 65535 ((0 : Int), mk_reading 0) =
      List.replicate 65534 ((0 : Int), mk_reading 0) ++ [((0 : Int), mk_reading 0)] :=
    List.replicate_succ' 65534 _
  rw [hr] at h2
  have h3 := List.append_cancel_left h2
  simp only [List.cons.injEq, Prod.mk.injEq, and_true, true_and] at h3
  exact absurd h3 (by decide)

/-- C3: after `kargo_flash_buffer_init` on a store whose metadata is absent or holds a count
`c ≤ cap`, and after any sequence of store, retrieve and clear calls whatever the fate of
their NVS operations, `kargo_flash_buffer_count` is at most the capacity. -/
theorem C3_capacity_bound (cap : Nat) (env : init_env) (fs : nvs_fs) (calls : List fb_call)
    (hmeta : fs.entry NVS_COUNT_ID = none ∨
      ∃ c, c ≤ cap ∧ fs.entry NVS_COUNT_ID = some (le_bytes 2 c)) :
    kargo_flash_buffer_count
      (fb_run cap (kargo_flash_buffer_init cap env (flash_buffer.boot fs)).1 calls) ≤ cap :=
  fb_run_count_le cap calls _ (init_count_le cap env fs hmeta)

/-- C3 at capacity 2 over a run with failing slot and count writes. -/
theorem C3_witness :
    (blank_flash.entry NVS_COUNT_ID = none ∨
      ∃ c, c ≤ 2 ∧ blank_flash.entry NVS_COUNT_ID = some (le_bytes 2 c)) ∧
    kargo_flash_buffer_count
      (fb_run 2 (kargo_flash_buffer_init 2 platform_ok (flash_buffer.boot blank_flash)).1
        [fb_call.store (mk_reading 1) none none, fb_call.store (mk_reading 2) (some 4) none,
         fb_call.store (mk_reading 3) none (some 4), fb_call.store (mk_reading 4) none none,
         fb_call.retrieve (mk_reading 0) none none, fb_call.clear none]) ≤ 2 :=
  ⟨Or.inl rfl, C3_capacity_bound 2 platform_ok blank_flash _ (Or.inl rfl)⟩

/-- C4 fails on the code: at capacity 3, after the stores of `mk_reading 1` and
`mk_reading 2` and one retrieve, the running buffer would return `mk_reading 2` next, but
after a restart and a fresh `kargo_flash_buffer_init` the next retrieve returns the already
delivered `mk_reading 1`: only the count is persisted and the read cursor restarts at 1. -/
theorem C4_restart_loses_read_cursor :
    (kargo_flash_buffer_retrieve 3 none none
      (fb_run 3 (kargo_flash_buffer_init 3 platform_ok (flash_buffer.boot blank_flash)).1
        [fb_call.store (mk_reading 1) none none, fb_call.store (mk_reading 2) none none,
         fb_call.retrieve (mk_reading 0) none none]) (mk_reading 0)).2 = (mk_reading 2, 0) ∧
    (kargo_flash_buffer_retrieve 3 none none
      (kargo_flash_buffer_init 3 platform_ok
        (fb_run 3 (kargo_flash_buffer_init 3 platform_ok (flash_buffer.boot blank_flash)).1
          [fb_call.store (mk_reading 1) none none, fb_call.store (mk_reading 2) none none,
           fb_call.retrieve (mk_reading 0) none none]).reboot).1 (mk_reading 0)).2
      = (mk_reading 1, 0) := by
  decide

/-- C5, for capacities up to 65534 and a consistent buffer: when the manager is initialised
and the NVS writes go through, after `mqtt_manager_publish` of `d` either `mqtt_publish` was
called with the payload of `d` and returned 0, or the reading built from `d` is the newest
element of the buffer, the last one a run of retrieves returns, its nine data fields being
those of `d`; whenever the message was not accepted the call is exactly a
`kargo_flash_buffer_store` of that reading and returns 0. -/
theorem C5_at_least_once (cap : Nat) (env : publish_env) (m : mqtt_manager)
    (d : sensor_data) (q bufs : List kargo_sensor_reading)
    (hcap : cap ≤ 65534) (hm : m.initialized = true) (hq : holds cap m.fb q)
    (hf : env.f_slot = none) (hg : env.f_count = none)
    (hb : bufs.length = (mqtt_manager_publish cap env m d).1.fb.buffered_count) :
    delivered_or_newest cap env m d bufs ∧
    (¬ (m.connected = true ∧ env.publish_rc = 0) →
      (mqtt_manager_publish cap env m d).2 = 0 ∧
      (mqtt_manager_publish cap env m d).1.fb =
        (kargo_flash_buffer_store cap none none m.fb (d.to_reading env.reserved)).1 ∧
      holds cap (mqtt_manager_publish cap env m d).1.fb
        (push_oldest cap q (d.to_reading env.reserved))) ∧
    (d.to_reading env.reserved).data = d := by
  obtain ⟨h1, h2⟩ := publish_cases cap env m d q bufs hcap hm hq hf hg hb
  refine ⟨?_, ?_, data_to_reading d env.reserved⟩
  · by_cases hc : m.connected = true ∧ env.publish_rc = 0
    · exact Or.inl ⟨hc.1, hc.2, (h1 hc).2.1⟩
    · exact Or.inr (h2 hc).2.2.2.1
  · intro hn
    exact ⟨(h2 hn).1, (h2 hn).2.1, (h2 hn).2.2.1⟩

/-- C5 at capacity 3: a disconnected manager over an empty buffer. -/
theorem C5_witness :
    ((3 : Nat) ≤ 65534 ∧
      (mqtt_manager.offline (flash_buffer.mk blank_flash 0 1 1 true)).initialized = true ∧
      holds 3 (mqtt_manager.offline (flash_buffer.mk blank_flash 0 1 1 true)).fb [] ∧
      (publish_env.clean 0).f_slot = none ∧ (publish_env.clean 0).f_count = none ∧
      [mk_reading 0].length = (mqtt_manager_publish 3 (publish_env.clean 0)
        (mqtt_manager.offline (flash_buffer.mk blank_flash 0 1 1 true))
        (mk_data 9)).1.fb.buffered_count) ∧
    (delivered_or_newest 3 (publish_env.clean 0)
        (mqtt_manager.offline (flash_buffer.mk blank_flash 0 1 1 true)) (mk_data 9)
        [mk_reading 0] ∧
      (¬ ((mqtt_manager.offline (flash_buffer.mk blank_flash 0 1 1 true)).connected = true ∧
          (publish_env.clean 0).publish_rc = 0) →
        (mqtt_manager_publish 3 (publish_env.clean 0)
          (mqtt_manager.offline (flash_buffer.mk blank_flash 0 1 1 true)) (mk_data 9)).2 = 0 ∧
        (mqtt_manager_publish 3 (publish_env.clean 0)
          (mqtt_manager.offline (flash_buffer.mk blank_flash 0 1 1 true)) (mk_data 9)).1.fb =
          (kargo_flash_buffer_store 3 none none
            (mqtt_manager.offline (flash_buffer.mk blank_flash 0 1 1 true)).fb
            ((mk_data 9).to_reading (publish_env.clean 0).reserved)).1 ∧
        holds 3 (mqtt_manager_publish 3 (publish_env.clean 0)
          (mqtt_manager.offline (flash_buffer.mk blank_flash 0 1 1 true)) (mk_data 9)).1.fb
          (push_oldest 3 [] ((mk_data 9).to_reading (publish_env.clean 0).reserved))) ∧
      ((mk_data 9).to_reading (publish_env.clean 0).reserved).data = mk_data 9) :=
  ⟨⟨by decide, rfl, holds_fresh 3 _ (by decide) ⟨rfl, rfl, rfl, rfl⟩, rfl, rfl, by decide⟩,
   C5_at_least_once 3 (publish_env.clean 0)
    (mqtt_manager.offline (flash_buffer.mk blank_flash 0 1 1 true)) (mk_data 9) []
    [mk_reading 0] (by decide) rfl (holds_fresh 3 _ (by decide) ⟨rfl, rfl, rfl, rfl⟩) rfl rfl
    (by decide)⟩

/-- C5 fails on initialised buffers in two ways.  At capacity 3, on the buffer left by a
store whose slot write failed, the published reading lands in the middle of the retrieve
order.  At capacity 65535, on the buffer filled by 65535 successful stores, the published
reading is written under the metadata id 0 and overwritten by the count: the run of
retrieves ends on the count bytes (the reading `mk_reading 1`). -/
theorem C5_counterexample :
    ((mqtt_manager.offline stalled_buffer).initialized = true ∧
     (mqtt_manager.offline stalled_buffer).fb.initialized = true ∧
     ¬ delivered_or_newest 3 (publish_env.clean 0) (mqtt_manager.offline stalled_buffer)
        (mk_data 9) [mk_reading 0, mk_reading 0, mk_reading 0]) ∧
    ((mqtt_manager.offline (store_seq 65535 (flash_buffer.mk blank_flash 0 1 1 true)
        (List.replicate 65535 (mk_reading 0))).1).initialized = true ∧
     (mqtt_manager.offline (store_seq 65535 (flash_buffer.mk blank_flash 0 1 1 true)
        (List.replicate 65535 (mk_reading 0))).1).fb.initialized = true ∧
     ¬ delivered_or_newest 65535 (publish_env.clean 0)
        (mqtt_manager.offline (store_seq 65535 (flash_buffer.mk blank_flash 0 1 1 true)
          (List.replicate 65535 (mk_reading 0))).1)
        (mk_data 0) (List.replicate 65535 (mk_reading 0))) := by
  refine ⟨⟨rfl, by decide, ?_⟩, rfl, brim_initialized, ?_⟩
  · rintro (⟨hc, -⟩ | h)
    · exact absurd hc (by decide)
    · have hrun := rotation_run.2.2
      rw [hrun] at h
      exact absurd h (by decide)
  · rintro (⟨hc, -⟩ | h)
    · cases hc
    · have hr : (mk_data 0).to_reading (publish_env.clean 0).reserved = mk_reading 0 := rfl
      rw [publish_offline_fb 65535 (publish_env.clean 0) _ (mk_data 0) rfl rfl, hr,
        brim_store, List.getLast?_concat] at h
      exact absurd h (by decide)

/-- C6, for capacities up to 65534 and NVS operations that go through: from an empty
initialised buffer and a disconnected manager, `mqtt_manager_publish` of `cap + k` readings
leaves the buffer holding the last `cap` of them and publishes nothing; after a successful
CONNACK, `cap` drain passes in which `mqtt_publish` returns 0 publish exactly those readings,
oldest first, and leave the buffer empty. -/
theorem C6_buffer_then_drain (cap k : Nat) (m : mqtt_manager)
    (ds : List (sensor_data × publish_env)) (envs : List drain_env)
    (hc1 : 1 ≤ cap) (hcap : cap ≤ 65534) (hlen : ds.length = cap + k)
    (hm : m.initialized = true) (hconn : m.connected = false) (hfresh : is_fresh m.fb)
    (hds : ∀ e ∈ ds, e.2.f_slot = none ∧ e.2.f_count = none)
    (hn : envs.length = cap)
    (henvs : ∀ e ∈ envs, e.f_slot = none ∧ e.f_count = none ∧ e.pub.publish_rc = 0) :
    buffer_then_drain cap k m ds envs := by
  have hp := publish_seq_offline cap ds m hm hconn hds
  obtain ⟨-, h2⟩ := holds_store_seq cap hcap (ds.map (fun e => e.1.to_reading e.2.reserved))
    m.fb [] (holds_fresh cap m.fb hc1 hfresh)
  rw [foldl_push_oldest cap hc1 _ [] (by simp)] at h2
  simp only [List.nil_append, List.length_map] at h2
  have hk : ds.length - cap = k := by omega
  rw [hk, ← List.map_drop] at h2
  have hl : ((ds.drop k).map (fun e => e.1.to_reading e.2.reserved)).length = cap := by
    rw [List.length_map, List.length_drop]; omega
  have h3 : holds cap (store_seq cap m.fb (ds.map (fun e => e.1.to_reading e.2.reserved))).1
      ((ds.drop k).map (fun e => e.1.to_reading e.2.reserved) ++ []) := by
    rw [List.append_nil]; exact h2
  obtain ⟨h4, h5⟩ := holds_retrieve_seq cap hcap _ (envs.map (fun e => e.buffered)) _ []
    (by rw [List.length_map, hl, hn]) h3
  unfold buffer_then_drain
  rw [hp]
  refine ⟨h2, rfl, ?_, ?_⟩
  · have hd := drain_seq_online cap envs
      (mqtt_evt_handler { m with fb := (store_seq cap m.fb
        (ds.map (fun e => e.1.to_reading e.2.reserved))).1 } (mqtt_evt.connack 0))
      hm rfl henvs
    rw [hd]
    show m.published ++ List.filterMap _ (retrieve_seq cap
      (store_seq cap m.fb (ds.map (fun e => e.1.to_reading e.2.reserved))).1
      (envs.map (fun e => e.buffered))).2 = _
    rw [h4, filterMap_ok, List.map_map]
    rfl
  · have hd := drain_seq_online cap envs
      (mqtt_evt_handler { m with fb := (store_seq cap m.fb
        (ds.map (fun e => e.1.to_reading e.2.reserved))).1 } (mqtt_evt.connack 0))
      hm rfl henvs
    rw [hd]
    show (retrieve_seq cap
      (store_seq cap m.fb (ds.map (fun e => e.1.to_reading e.2.reserved))).1
      (envs.map (fun e => e.buffered))).1.buffered_count = 0
    rw [h5.count]; rfl

/-- C6 at capacity 3: the readings A, B, C, D (timestamps 1 to 4) are submitted while
disconnected; the three drain passes publish B, C, D in that order. -/
theorem C6_witness :
    ((1 : Nat) ≤ 3 ∧ (3 : Nat) ≤ 65534 ∧
      [(mk_data 1, publish_env.clean 0), (mk_data 2, publish_env.clean 0),
       (mk_data 3, publish_env.clean 0), (mk_data 4, publish_env.clean 0)].length = 3 + 1 ∧
      (mqtt_manager.offline (flash_buffer.mk blank_flash 0 1 1 true)).initialized = true ∧
      (mqtt_manager.offline (flash_buffer.mk blank_flash 0 1 1 true)).connected = false ∧
      is_fresh (mqtt_manager.offline (flash_buffer.mk blank_flash 0 1 1 true)).fb ∧
      (∀ e ∈ [(mk_data 1, publish_env.clean 0), (mk_data 2, publish_env.clean 0),
              (mk_data 3, publish_env.clean 0), (mk_data 4, publish_env.clean 0)],
        e.2.f_slot = none ∧ e.2.f_count = none) ∧
      [drain_env.clean 0, drain_env.clean 0, drain_env.clean 0].length = 3 ∧
      (∀ e ∈ [drain_env.clean 0, drain_env.clean 0, drain_env.clean 0],
        e.f_slot = none ∧ e.f_count = none ∧ e.pub.publish_rc = 0)) ∧
    (buffer_then_drain 3 1 (mqtt_manager.offline (flash_buffer.mk blank_flash 0 1 1 true))
      [(mk_data 1, publish_env.clean 0), (mk_data 2, publish_env.clean 0),
       (mk_data 3, publish_env.clean 0), (mk_data 4, publish_env.clean 0)]
      [drain_env.clean 0, drain_env.clean 0, drain_env.clean 0] ∧
     (drain_seq 3 (mqtt_evt_handler (publish_seq 3
        (mqtt_manager.offline (flash_buffer.mk blank_flash 0 1 1 true))
        [(mk_data 1, publish_env.clean 0), (mk_data 2, publish_env.clean 0),
         (mk_data 3, publish_env.clean 0), (mk_data 4, publish_env.clean 0)])
        (mqtt_evt.connack 0))
        [drain_env.clean 0, drain_env.clean 0, drain_env.clean 0]).published =
      [(mk_data 2, 0), (mk_data 3, 0), (mk_data 4, 0)]) :=
  ⟨⟨by decide, by decide, rfl, rfl, rfl, ⟨rfl, rfl, rfl, rfl⟩, by decide, rfl, by decide⟩,
   C6_buffer_then_drain 3 1 _ _ _ (by decide) (by decide) rfl rfl rfl ⟨rfl, rfl, rfl, rfl⟩
    (by decide) rfl (by decide),
   by decide⟩

/-- C6 fails in two ways.  At capacity 65535 with one reading too many the last drain pass
publishes the count bytes in place of the newest reading.  At capacity 3, when the slot
write of the first submitted reading fails, that reading is never published. -/
theorem C6_counterexample :
    (¬ buffer_then_drain 65535 1
        (mqtt_manager.offline (flash_buffer.mk blank_flash 0 1 1 true))
        (List.replicate 65536 (mk_data 0, publish_env.clean 0))
        (List.replicate 65535 (drain_env.clean 0))) ∧
    (¬ buffer_then_drain 3 0 (mqtt_manager.offline (flash_buffer.mk blank_flash 0 1 1 true))
        [(mk_data 1, publish_env.mk 0 0 (some 4) none), (mk_data 2, publish_env.clean 0),
         (mk_data 3, publish_env.clean 0)]
        [drain_env.clean 0, drain_env.clean 0, drain_env.clean 0]) := by
  constructor
  · intro h
    obtain ⟨-, -, h3, -⟩ := h
    rw [offline_then_drain 65535 _ _ _
      (by
        intro e he
        rw [List.eq_of_mem_replicate he]
        exact ⟨rfl, rfl⟩)
      (by
        intro e he
        rw [List.eq_of_mem_replicate he]
        exact ⟨rfl, rfl, rfl⟩)] at h3
    have hov :=
      (overflow_65535 (flash_buffer.mk blank_flash 0 1 1 true) ⟨rfl, rfl, rfl, rfl⟩).2
    have hr : (mk_data 0, publish_env.clean 0).1.to_reading
        (mk_data 0, publish_env.clean 0).2.reserved = mk_reading 0 := rfl
    have hb : (drain_env.clean 0).buffered = mk_reading 0 := rfl
    have hpub :
        (mqtt_manager.offline (flash_buffer.mk blank_flash 0 1 1 true)).published = [] := rfl
    have hfst : (mk_data 0, publish_env.clean 0).1 = mk_data 0 := rfl
    have hfm : List.filterMap
        (fun p : Int × kargo_sensor_reading =>
          if p.1 = 0 then some (p.2.data, (0 : Int)) else none)
        (List.replicate 65534 ((0 : Int), mk_reading 0)) =
        List.replicate 65534 (mk_data 0, (0 : Int)) :=
      List.filterMap_replicate_of_some rfl
    have hfs : List.filterMap
        (fun p : Int × kargo_sensor_reading =>
          if p.1 = 0 then some (p.2.data, (0 : Int)) else none)
        [((0 : Int), mk_reading 1)] = [(mk_data 1, (0 : Int))] := rfl
    rw [List.map_replicate, List.map_replicate, hr, hb, hov, List.filterMap_append,
      List.drop_replicate, List.map_replicate, hfm, hfs, hpub, hfst, List.nil_append] at h3
    have hrep : List.replicate (65536 - 1) (mk_data 0, (0 : Int)) =
        List.replicate 65534 (mk_data 0, (0 : Int)) ++ [(mk_data 0, (0 : Int))] :=
      List.replicate_succ' 65534 _
    rw [hrep] at h3
    have h4 := List.append_cancel_left h3
    exact absurd h4 (by decide)
  · intro h
    exact absurd h.2.2.1 (by decide)

/-- C7, for capacities up to 65534: on an initialised buffer with both cursors in
`1 .. cap`, a store whose NVS writes go through returns 0; afterwards the slot under the old
write cursor holds the reading and no other slot changed, the write cursor is the
wraparound successor of the old one, a count below the capacity is incremented with the
read cursor unchanged, a count equal to the capacity is unchanged with the read cursor
advanced, and id 0 holds the new count. -/
theorem C7_store_postcondition (cap : Nat) (s : flash_buffer) (r : kargo_sensor_reading)
    (hcap : cap ≤ 65534) (hi : s.initialized = true)
    (hr : 1 ≤ s.read_id ∧ s.read_id ≤ cap) (hw : 1 ≤ s.write_id ∧ s.write_id ≤ cap) :
    (kargo_flash_buffer_store cap none none s r).2 = 0 ∧
    (kargo_flash_buffer_store cap none none s r).1.nvs.entry s.write_id = some r.to_bytes ∧
    (∀ k, k ≠ s.write_id → k ≠ NVS_COUNT_ID →
      (kargo_flash_buffer_store cap none none s r).1.nvs.entry k = s.nvs.entry k) ∧
    (kargo_flash_buffer_store cap none none s r).1.write_id = next_slot cap s.write_id ∧
    (s.buffered_count < cap →
      (kargo_flash_buffer_store cap none none s r).1.buffered_count = s.buffered_count + 1 ∧
      (kargo_flash_buffer_store cap none none s r).1.read_id = s.read_id) ∧
    (s.buffered_count = cap →
      (kargo_flash_buffer_store cap none none s r).1.buffered_count = s.buffered_count ∧
      (kargo_flash_buffer_store cap none none s r).1.read_id = next_slot cap s.read_id) ∧
    (kargo_flash_buffer_store cap none none s r).1.nvs.entry NVS_COUNT_ID =
      some (le_bytes 2 (kargo_flash_buffer_store cap none none s r).1.buffered_count) := by
  rw [store_none cap s r hi]
  have hw0 : s.write_id ≠ 0 := by omega
  refine ⟨rfl, ?_, ?_, ?_, ?_, ?_, ?_⟩
  · simp [put_entry, hw0]
  · intro k hk hk0
    have : k ≠ 0 := hk0
    simp [put_entry, hk, this]
  · exact next_slot_eq_inc_wrap cap _ hw.2 hcap
  · intro hlt
    have hnf : ¬ s.buffered_count ≥ cap := by omega
    simp only [hnf, if_false]
    exact ⟨Nat.mod_eq_of_lt (by omega), trivial⟩
  · intro heq
    have hf : s.buffered_count ≥ cap := by omega
    simp only [hf, if_true]
    exact ⟨trivial, next_slot_eq_inc_wrap cap _ hr.2 hcap⟩
  · simp [put_entry, NVS_COUNT_ID]

/-- C7 on the sample buffer of capacity 3. -/
theorem C7_witness :
    ((3 : Nat) ≤ 65534 ∧ sample_buffer.initialized = true ∧
      (1 ≤ sample_buffer.read_id ∧ sample_buffer.read_id ≤ 3) ∧
      (1 ≤ sample_buffer.write_id ∧ sample_buffer.write_id ≤ 3)) ∧
    ((kargo_flash_buffer_store 3 none none sample_buffer (mk_reading 9)).2 = 0 ∧
     (kargo_flash_buffer_store 3 none none sample_buffer (mk_reading 9)).1.nvs.entry
        sample_buffer.write_id = some (mk_reading 9).to_bytes ∧
     (∀ k, k ≠ sample_buffer.write_id → k ≠ NVS_COUNT_ID →
       (kargo_flash_buffer_store 3 none none sample_buffer (mk_reading 9)).1.nvs.entry k =
        sample_buffer.nvs.entry k) ∧
     (kargo_flash_buffer_store 3 none none sample_buffer (mk_reading 9)).1.write_id =
        next_slot 3 sample_buffer.write_id ∧
     (sample_buffer.buffered_count < 3 →
       (kargo_flash_buffer_store 3 none none sample_buffer (mk_reading 9)).1.buffered_count =
        sample_buffer.buffered_count + 1 ∧
       (kargo_flash_buffer_store 3 none none sample_buffer (mk_reading 9)).1.read_id =
        sample_buffer.read_id) ∧
     (sample_buffer.buffered_count = 3 →
       (kargo_flash_buffer_store 3 none none sample_buffer (mk_reading 9)).1.buffered_count =
        sample_buffer.buffered_count ∧
       (kargo_flash_buffer_store 3 none none sample_buffer (mk_reading 9)).1.read_id =
        next_slot 3 sample_buffer.read_id) ∧
     (kargo_flash_buffer_store 3 none none sample_buffer (mk_reading 9)).1.nvs.entry
        NVS_COUNT_ID =
      some (le_bytes 2
        (kargo_flash_buffer_store 3 none none sample_buffer (mk_reading 9)).1.buffered_count)) :=
  ⟨⟨by decide, rfl, by decide, by decide⟩,
   C7_store_postcondition 3 sample_buffer (mk_reading 9) (by decide) rfl (by decide)
    (by decide)⟩

/-- C7 fails at capacity 65535: from the initialised state with count 65534, read cursor 1
and write cursor 65535, a successful store leaves the 16-bit write cursor on 0, not on the
wraparound successor 1. -/
theorem C7_counterexample :
    (flash_buffer.mk blank_flash 65534 1 65535 true).initialized = true ∧
    (1 ≤ (flash_buffer.mk blank_flash 65534 1 65535 true).read_id ∧
      (flash_buffer.mk blank_flash 65534 1 65535 true).read_id ≤ 65535) ∧
    (1 ≤ (flash_buffer.mk blank_flash 65534 1 65535 true).write_id ∧
      (flash_buffer.mk blank_flash 65534 1 65535 true).write_id ≤ 65535) ∧
    (kargo_flash_buffer_store 65535 none none (flash_buffer.mk blank_flash 65534 1 65535 true)
        (mk_reading 9)).2 = 0 ∧
    (kargo_flash_buffer_store 65535 none none (flash_buffer.mk blank_flash 65534 1 65535 true)
        (mk_reading 9)).1.write_id = 0 ∧
    next_slot 65535 (flash_buffer.mk blank_flash 65534 1 65535 true).write_id = 1 := by
  decide

/-- C8: on an initialised buffer, `kargo_flash_buffer_retrieve` with count 0 returns
`-ENODATA` leaving the buffer and the caller's object untouched whatever the store holds or
would answer; with a positive count and a slot read that succeeds it returns 0, which is
not `-ENODATA`. -/
theorem C8_retrieve_empty (cap : Nat) (f g : Fault) (s : flash_buffer)
    (buf : kargo_sensor_reading) (hi : s.initialized = true) :
    (s.buffered_count = 0 →
      kargo_flash_buffer_retrieve cap f g s buf = (s, buf, -ENODATA)) ∧
    (0 < s.buffered_count →
      0 ≤ (nvs_read f s.nvs s.read_id buf.to_bytes READING_SIZE).2 →
      (kargo_flash_buffer_retrieve cap f g s buf).2.2 = 0 ∧
      (kargo_flash_buffer_retrieve cap f g s buf).2.2 ≠ -ENODATA) := by
  constructor
  · intro hc
    exact retrieve_empty cap f g s buf hi hc
  · intro hc hrd
    have hne : s.buffered_count ≠ 0 := by omega
    have hnn : ¬ (nvs_read f s.nvs s.read_id buf.to_bytes READING_SIZE).2 < 0 := by omega
    have h0 : (kargo_flash_buffer_retrieve cap f g s buf).2.2 = 0 := by
      unfold kargo_flash_buffer_retrieve
      simp only [hi, Bool.not_true, Bool.false_eq_true, if_false, hne, hnn]
    refine ⟨h0, ?_⟩
    rw [h0]; decide

/-- C8 on the sample buffer of capacity 3, whose count is 2. -/
theorem C8_witness :
    sample_buffer.initialized = true ∧
    ((sample_buffer.buffered_count = 0 →
      kargo_flash_buffer_retrieve 3 none none sample_buffer (mk_reading 0) =
        (sample_buffer, mk_reading 0, -ENODATA)) ∧
     (0 < sample_buffer.buffered_count →
      0 ≤ (nvs_read none sample_buffer.nvs sample_buffer.read_id (mk_reading 0).to_bytes
            READING_SIZE).2 →
      (kargo_flash_buffer_retrieve 3 none none sample_buffer (mk_reading 0)).2.2 = 0 ∧
      (kargo_flash_buffer_retrieve 3 none none sample_buffer (mk_reading 0)).2.2
        ≠ -ENODATA)) :=
  ⟨rfl, C8_retrieve_empty 3 none none sample_buffer (mk_reading 0) rfl⟩

/-- C11, with the store left as it is: when `kargo_flash_buffer_init` runs on an
uninitialised module, returns 0 and its read of id 0 fails, the module is initialised with
count 0 and both cursors on slot 1, and the NVS content is exactly what it was: the
initialisation writes nothing. -/
theorem C11_init_without_metadata (cap : Nat) (env : init_env) (s : flash_buffer)
    (hs : s.initialized = false)
    (hrc : (kargo_flash_buffer_init cap env s).2 = 0)
    (hrd : (nvs_read env.read_fault s.nvs NVS_COUNT_ID (le_bytes 2 s.buffered_count) 2).2 < 0) :
    (kargo_flash_buffer_init cap env s).1.buffered_count = 0 ∧
    (kargo_flash_buffer_init cap env s).1.read_id = 1 ∧
    (kargo_flash_buffer_init cap env s).1.write_id = 1 ∧
    (kargo_flash_buffer_init cap env s).1.initialized = true ∧
    (kargo_flash_buffer_init cap env s).1.nvs = s.nvs := by
  obtain ⟨h1, h2, h3⟩ := init_rc_zero cap env s hs hrc
  rw [init_run cap env s hs h1 h2 h3, if_pos hrd]
  exact ⟨rfl, rfl, rfl, rfl, rfl⟩

/-- C11 on a blank flash partition at capacity 3. -/
theorem C11_witness :
    ((flash_buffer.boot blank_flash).initialized = false ∧
     (kargo_flash_buffer_init 3 platform_ok (flash_buffer.boot blank_flash)).2 = 0 ∧
     (nvs_read platform_ok.read_fault (flash_buffer.boot blank_flash).nvs NVS_COUNT_ID
        (le_bytes 2 (flash_buffer.boot blank_flash).buffered_count) 2).2 < 0) ∧
    ((kargo_flash_buffer_init 3 platform_ok (flash_buffer.boot blank_flash)).1.buffered_count
        = 0 ∧
     (kargo_flash_buffer_init 3 platform_ok (flash_buffer.boot blank_flash)).1.read_id = 1 ∧
     (kargo_flash_buffer_init 3 platform_ok (flash_buffer.boot blank_flash)).1.write_id = 1 ∧
     (kargo_flash_buffer_init 3 platform_ok (flash_buffer.boot blank_flash)).1.initialized
        = true ∧
     (kargo_flash_buffer_init 3 platform_ok (flash_buffer.boot blank_flash)).1.nvs =
        (flash_buffer.boot blank_flash).nvs) :=
  ⟨⟨rfl, by decide, by decide⟩,
   C11_init_without_metadata 3 platform_ok (flash_buffer.boot blank_flash) rfl (by decide)
    (by decide)⟩

/-- C11 fails on a blank flash partition: the initialisation returns 0 after a failed read
of id 0, and afterwards there is still no entry under id 0, so the store holds no metadata
entry with count 0. -/
theorem C11_counterexample :
    (kargo_flash_buffer_init 3 platform_ok (flash_buffer.boot blank_flash)).2 = 0 ∧
    (nvs_read none blank_flash NVS_COUNT_ID (le_bytes 2 0) 2).2 < 0 ∧
    (kargo_flash_buffer_init 3 platform_ok (flash_buffer.boot blank_flash)).1.nvs.entry
      NVS_COUNT_ID = none ∧
    persisted_count
      (kargo_flash_buffer_init 3 platform_ok (flash_buffer.boot blank_flash)).1.nvs ≠ some 0 := by
  decide

/-- C12, with the count kept: when id 0 holds a count `c` above the capacity (and below
65535) and the initialisation goes through, `kargo_flash_buffer_init` loads that count
unchanged, so `kargo_flash_buffer_count` returns `c`; the read cursor is 1 and the write
cursor, `c + 1` being above the capacity, is 1. -/
theorem C12_init_keeps_oversized_count (cap c : Nat) (env : init_env) (fs : nvs_fs)
    (hc : cap < c) (hc2 : c ≤ 65534)
    (hkey : fs.entry NVS_COUNT_ID = some (le_bytes 2 c))
    (hrd : env.read_fault = none)
    (hrc : (kargo_flash_buffer_init cap env (flash_buffer.boot fs)).2 = 0) :
    kargo_flash_buffer_count (kargo_flash_buffer_init cap env (flash_buffer.boot fs)).1 = c ∧
    (kargo_flash_buffer_init cap env (flash_buffer.boot fs)).1.read_id = 1 ∧
    (kargo_flash_buffer_init cap env (flash_buffer.boot fs)).1.write_id = 1 ∧
    (kargo_flash_buffer_init cap env (flash_buffer.boot fs)).1.initialized = true := by
  obtain ⟨h1, h2, h3⟩ := init_rc_zero cap env _ rfl hrc
  rw [init_boot_loaded cap env fs _ h1 h2 h3 hrd hkey, le_take_self, le_value_le_bytes]
  have e : c % 256 ^ 2 = c := Nat.mod_eq_of_lt (by omega)
  rw [e]
  have e2 : (c + 1) % 65536 = c + 1 := Nat.mod_eq_of_lt (by omega)
  refine ⟨rfl, rfl, ?_, rfl⟩
  show (if (c + 1) % 65536 > cap then 1 else (c + 1) % 65536) = 1
  rw [e2, if_pos (by omega)]

/-- C12 at capacity 3 with the count 7 under id 0. -/
theorem C12_witness :
    ((3 : Nat) < 7 ∧ (7 : Nat) ≤ 65534 ∧
     (blank_flash.put 0 (le_bytes 2 7)).entry NVS_COUNT_ID = some (le_bytes 2 7) ∧
     platform_ok.read_fault = none ∧
     (kargo_flash_buffer_init 3 platform_ok
        (flash_buffer.boot (blank_flash.put 0 (le_bytes 2 7)))).2 = 0) ∧
    (kargo_flash_buffer_count (kargo_flash_buffer_init 3 platform_ok
        (flash_buffer.boot (blank_flash.put 0 (le_bytes 2 7)))).1 = 7 ∧
     (kargo_flash_buffer_init 3 platform_ok
        (flash_buffer.boot (blank_flash.put 0 (le_bytes 2 7)))).1.read_id = 1 ∧
     (kargo_flash_buffer_init 3 platform_ok
        (flash_buffer.boot (blank_flash.put 0 (le_bytes 2 7)))).1.write_id = 1 ∧
     (kargo_flash_buffer_init 3 platform_ok
        (flash_buffer.boot (blank_flash.put 0 (le_bytes 2 7)))).1.initialized = true) :=
  ⟨⟨by decide, by decide, by decide, rfl, by decide⟩,
   C12_init_keeps_oversized_count 3 7 platform_ok (blank_flash.put 0 (le_bytes 2 7))
    (by decide) (by decide) (by decide) rfl (by decide)⟩

/-- C12 fails at capacity 3 when id 0 holds the count 7: the initialisation returns 0 and
`kargo_flash_buffer_count` returns 7, not 0. -/
theorem C12_counterexample :
    (blank_flash.put 0 (le_bytes 2 7)).entry NVS_COUNT_ID = some (le_bytes 2 7) ∧
    (kargo_flash_buffer_init 3 platform_ok
      (flash_buffer.boot (blank_flash.put 0 (le_bytes 2 7)))).2 = 0 ∧
    kargo_flash_buffer_count (kargo_flash_buffer_init 3 platform_ok
      (flash_buffer.boot (blank_flash.put 0 (le_bytes 2 7)))).1 = 7 ∧
    kargo_flash_buffer_count (kargo_flash_buffer_init 3 platform_ok
      (flash_buffer.boot (blank_flash.put 0 (le_bytes 2 7)))).1 ≠ 0 := by
  decide

/-- C13, for capacities from 1 to 65534 and a store whose id 0 does not encode 65535: after
`kargo_flash_buffer_init` on the boot state, whatever the platform answers, and after every
further sequence of store, retrieve and clear calls, whatever the fate of their NVS
operations, the read cursor and the write cursor lie in `1 .. cap`; these are the ids that
the next retrieve reads and the next store writes. -/
theorem C13_cursor_range (cap : Nat) (env : init_env) (fs : nvs_fs) (calls : List fb_call)
    (h1 : 1 ≤ cap) (h2 : cap ≤ 65534)
    (hkey : ∀ b, fs.entry NVS_COUNT_ID = some b → le_value (b.take 2) ≠ 65535) :
    cursors_in_range cap
      (fb_run cap (kargo_flash_buffer_init cap env (flash_buffer.boot fs)).1 calls) :=
  fb_run_cursors cap h1 h2 calls _ (init_cursors cap env fs h1 hkey)

/-- C13 at capacity 3 on a store whose id 0 holds the count 2, followed by a store, a
retrieve whose count write fails, and a clear. -/
theorem C13_witness :
    ((1 : Nat) ≤ 3 ∧ (3 : Nat) ≤ 65534 ∧
     (∀ b, (blank_flash.put 0 (le_bytes 2 2)).entry NVS_COUNT_ID = some b →
        le_value (b.take 2) ≠ 65535)) ∧
    cursors_in_range 3
      (fb_run 3 (kargo_flash_buffer_init 3 platform_ok
          (flash_buffer.boot (blank_flash.put 0 (le_bytes 2 2)))).1
        [fb_call.store (mk_reading 1) none none, fb_call.retrieve (mk_reading 0) none (some 4),
         fb_call.clear none]) :=
  have hkey : ∀ b, (blank_flash.put 0 (le_bytes 2 2)).entry NVS_COUNT_ID = some b →
      le_value (b.take 2) ≠ 65535 := by
    intro b hb
    have e : (blank_flash.put 0 (le_bytes 2 2)).entry NVS_COUNT_ID = some (le_bytes 2 2) := rfl
    rw [e] at hb
    cases hb
    decide
  ⟨⟨by decide, by decide, hkey⟩,
   C13_cursor_range 3 platform_ok (blank_flash.put 0 (le_bytes 2 2)) _ (by decide) (by decide)
    hkey⟩

/-- C13 fails when id 0 holds 65535 (capacity 3): the initialisation computes the write
cursor `65535 + 1`, which is 0 on 16 bits and not above the capacity, and leaves it 0.  It
also fails at capacity 65535: with the count 65534 under id 0 the write cursor is 65535
after the initialisation and 0 after one store. -/
theorem C13_counterexample :
    ((kargo_flash_buffer_init 3 platform_ok
        (flash_buffer.boot (blank_flash.put 0 (le_bytes 2 65535)))).2 = 0 ∧
     (kargo_flash_buffer_init 3 platform_ok
        (flash_buffer.boot (blank_flash.put 0 (le_bytes 2 65535)))).1.write_id = 0 ∧
     ¬ cursors_in_range 3 (fb_run 3 (kargo_flash_buffer_init 3 platform_ok
        (flash_buffer.boot (blank_flash.put 0 (le_bytes 2 65535)))).1 [])) ∧
    ((kargo_flash_buffer_init 65535 platform_ok
        (flash_buffer.boot (blank_flash.put 0 (le_bytes 2 65534)))).1.write_id = 65535 ∧
     (fb_run 65535 (kargo_flash_buffer_init 65535 platform_ok
        (flash_buffer.boot (blank_flash.put 0 (le_bytes 2 65534)))).1
        [fb_call.store (mk_reading 1) none none]).write_id = 0 ∧
     ¬ cursors_in_range 65535 (fb_run 65535 (kargo_flash_buffer_init 65535 platform_ok
        (flash_buffer.boot (blank_flash.put 0 (le_bytes 2 65534)))).1
        [fb_call.store (mk_reading 1) none none])) := by
  refine ⟨⟨by decide, by decide, fun h => absurd h.2.2.1 (by decide)⟩,
    ⟨by decide, by decide, fun h => absurd h.2.2.1 (by decide)⟩⟩

/-- C14 fails on the code: `kargo_flash_buffer_store` and `kargo_flash_buffer_retrieve` call
`nvs_write` for id 0 without looking at its result, although the slot operation next to it
is checked and the header documents "negative errno on failure".  On `sample_buffer`
(capacity 3) a store whose slot write fails with `-EIO` returns that code, but a store and a
retrieve whose write of id 0 fails with `-EIO` return 0, and id 0 keeps the old count 2
while the count in memory is 3 after the store and 1 after the retrieve.  On a freshly
initialised blank partition the store of `mk_reading 9` whose count write fails returns 0
with the reading in slot 1 and the count 1 in memory, but id 0 has no entry: after a
restart the initialisation loads the count 0 and the retrieve answers `-ENODATA`, so the
reading reported as stored is lost. -/
theorem C14_count_write_error_dropped :
    (sample_buffer.initialized = true ∧
     (kargo_flash_buffer_store 3 (some 4) none sample_buffer (mk_reading 9)).2 = Fault.rc 4 ∧
     Fault.rc 4 < 0 ∧
     (nvs_write (some 4) sample_buffer.nvs NVS_COUNT_ID (le_bytes 2 3)).2 < 0 ∧
     (kargo_flash_buffer_store 3 none (some 4) sample_buffer (mk_reading 9)).2 = 0 ∧
     (kargo_flash_buffer_store 3 none (some 4) sample_buffer (mk_reading 9)).1.buffered_count
       = 3 ∧
     (kargo_flash_buffer_store 3 none (some 4) sample_buffer (mk_reading 9)).1.nvs.entry
       NVS_COUNT_ID = some (le_bytes 2 2) ∧
     (kargo_flash_buffer_retrieve 3 none (some 4) sample_buffer (mk_reading 0)).2.2 = 0 ∧
     (kargo_flash_buffer_retrieve 3 none (some 4) sample_buffer
       (mk_reading 0)).1.buffered_count = 1 ∧
     (kargo_flash_buffer_retrieve 3 none (some 4) sample_buffer (mk_reading 0)).1.nvs.entry
       NVS_COUNT_ID = some (le_bytes 2 2)) ∧
    ((kargo_flash_buffer_store 3 none (some 4)
       (kargo_flash_buffer_init 3 platform_ok (flash_buffer.boot blank_flash)).1
       (mk_reading 9)).2 = 0 ∧
     (kargo_flash_buffer_store 3 none (some 4)
       (kargo_flash_buffer_init 3 platform_ok (flash_buffer.boot blank_flash)).1
       (mk_reading 9)).1.nvs.entry 1 = some (mk_reading 9).to_bytes ∧
     kargo_flash_buffer_count (kargo_flash_buffer_store 3 none (some 4)
       (kargo_flash_buffer_init 3 platform_ok (flash_buffer.boot blank_flash)).1
       (mk_reading 9)).1 = 1 ∧
     (kargo_flash_buffer_store 3 none (some 4)
       (kargo_flash_buffer_init 3 platform_ok (flash_buffer.boot blank_flash)).1
       (mk_reading 9)).1.nvs.entry NVS_COUNT_ID = none ∧
     (kargo_flash_buffer_init 3 platform_ok
       (kargo_flash_buffer_store 3 none (some 4)
         (kargo_flash_buffer_init 3 platform_ok (flash_buffer.boot blank_flash)).1
         (mk_reading 9)).1.reboot).2 = 0 ∧
     kargo_flash_buffer_count (kargo_flash_buffer_init 3 platform_ok
       (kargo_flash_buffer_store 3 none (some 4)
         (kargo_flash_buffer_init 3 platform_ok (flash_buffer.boot blank_flash)).1
         (mk_reading 9)).1.reboot).1 = 0 ∧
     (kargo_flash_buffer_retrieve 3 none none
       (kargo_flash_buffer_init 3 platform_ok
         (kargo_flash_buffer_store 3 none (some 4)
           (kargo_flash_buffer_init 3 platform_ok (flash_buffer.boot blank_flash)).1
           (mk_reading 9)).1.reboot).1 (mk_reading 0)).2.2 = -ENODATA) := by
  decide

/-- C15, for the states whose write cursor is above the count: let an initialised buffer
have its count persisted under id 0 (or no entry under id 0 and count 0) and its write
cursor, a 16-bit value, greater than its count.  If `kargo_flash_buffer_store` performs its
slot write and stops before its write of id 0, only the slot under the write cursor has
changed; an initialisation after the restart that goes through loads the old count with the
read cursor on slot 1; and in every state reached by further retrieves either the count is
0, so that the next retrieve reads no slot, or the read cursor, the slot the next retrieve
reads, is below the slot just written. -/
theorem C15_torn_store_unreachable (cap : Nat) (env : init_env) (s : flash_buffer)
    (r : kargo_sensor_reading) (hi : s.initialized = true)
    (hmeta : s.nvs.entry NVS_COUNT_ID = some (le_bytes 2 s.buffered_count) ∨
      (s.nvs.entry NVS_COUNT_ID = none ∧ s.buffered_count = 0))
    (hw1 : s.buffered_count < s.write_id) (hw2 : s.write_id < 65536)
    (hrd : env.read_fault = none)
    (hrc : (kargo_flash_buffer_init cap env (flash_buffer.boot (store_torn cap s r))).2 = 0) :
    (store_torn cap s r).entry s.write_id = some r.to_bytes ∧
    (∀ k, k ≠ s.write_id → (store_torn cap s r).entry k = s.nvs.entry k) ∧
    kargo_flash_buffer_count
      (kargo_flash_buffer_init cap env (flash_buffer.boot (store_torn cap s r))).1 =
      kargo_flash_buffer_count s ∧
    (kargo_flash_buffer_init cap env (flash_buffer.boot (store_torn cap s r))).1.read_id = 1 ∧
    ∀ bufs,
      (retrieve_seq cap
        (kargo_flash_buffer_init cap env (flash_buffer.boot (store_torn cap s r))).1
        bufs).1.buffered_count = 0 ∨
      (retrieve_seq cap
        (kargo_flash_buffer_init cap env (flash_buffer.boot (store_torn cap s r))).1
        bufs).1.read_id < s.write_id := by
  obtain ⟨h1, h2, h3⟩ := init_rc_zero cap env _ rfl hrc
  have hk : ∀ k, k ≠ s.write_id → (store_torn cap s r).entry k = s.nvs.entry k := by
    intro k hk
    rw [store_torn_eq cap s r hi, put_entry, if_neg hk]
  have h0 : (store_torn cap s r).entry NVS_COUNT_ID = s.nvs.entry NVS_COUNT_ID :=
    hk _ (by show 0 ≠ s.write_id; omega)
  have hstart :
      (kargo_flash_buffer_init cap env (flash_buffer.boot (store_torn cap s r))).1.read_id = 1 ∧
      (kargo_flash_buffer_init cap env
        (flash_buffer.boot (store_torn cap s r))).1.buffered_count = s.buffered_count := by
    rcases hmeta with hm | ⟨hm, hz⟩
    · rw [init_boot_loaded cap env _ _ h1 h2 h3 hrd (h0.trans hm), le_take_self,
        le_value_le_bytes, Nat.mod_eq_of_lt (by omega : s.buffered_count < 256 ^ 2)]
      exact ⟨rfl, rfl⟩
    · rw [init_boot_absent cap env _ h1 h2 h3 (h0.trans hm)]
      exact ⟨rfl, hz.symm⟩
  refine ⟨?_, hk, hstart.2, hstart.1, ?_⟩
  · rw [store_torn_eq cap s r hi, put_entry, if_pos rfl]
  · intro bufs
    have hb := retrieve_seq_below cap s.write_id bufs _
      (by rw [hstart.1, hstart.2]; omega)
    omega

/-- C15 on `drained_once` (capacity 3, count 1, write cursor on slot 3) with the torn store
of `mk_reading 3`. -/
theorem C15_witness :
    (drained_once.initialized = true ∧
     (drained_once.nvs.entry NVS_COUNT_ID = some (le_bytes 2 drained_once.buffered_count) ∨
      (drained_once.nvs.entry NVS_COUNT_ID = none ∧ drained_once.buffered_count = 0)) ∧
     drained_once.buffered_count < drained_once.write_id ∧ drained_once.write_id < 65536 ∧
     platform_ok.read_fault = none ∧
     (kargo_flash_buffer_init 3 platform_ok
        (flash_buffer.boot (store_torn 3 drained_once (mk_reading 3)))).2 = 0) ∧
    ((store_torn 3 drained_once (mk_reading 3)).entry drained_once.write_id =
        some (mk_reading 3).to_bytes ∧
     (∀ k, k ≠ drained_once.write_id →
        (store_torn 3 drained_once (mk_reading 3)).entry k = drained_once.nvs.entry k) ∧
     kargo_flash_buffer_count
       (kargo_flash_buffer_init 3 platform_ok
         (flash_buffer.boot (store_torn 3 drained_once (mk_reading 3)))).1 =
       kargo_flash_buffer_count drained_once ∧
     (kargo_flash_buffer_init 3 platform_ok
        (flash_buffer.boot (store_torn 3 drained_once (mk_reading 3)))).1.read_id = 1 ∧
     ∀ bufs,
       (retrieve_seq 3
         (kargo_flash_buffer_init 3 platform_ok
           (flash_buffer.boot (store_torn 3 drained_once (mk_reading 3)))).1
         bufs).1.buffered_count = 0 ∨
       (retrieve_seq 3
         (kargo_flash_buffer_init 3 platform_ok
           (flash_buffer.boot (store_torn 3 drained_once (mk_reading 3)))).1
         bufs).1.read_id < drained_once.write_id) :=
  ⟨⟨by decide, by decide, by decide, by decide, rfl, by decide⟩,
   C15_torn_store_unreachable 3 platform_ok drained_once (mk_reading 3)
    (by decide) (by decide) (by decide) (by decide) rfl (by decide)⟩

/-- C15 fails on `filled_buffer` (capacity 3, full after three successful stores on a blank
flash partition): the store of a fourth reading that stops after its slot write has
overwritten slot 1, the oldest reading; after the restart the initialisation loads the count
3 with the read cursor on slot 1, the slot just written, and the first retrieve returns the
reading just written. -/
theorem C15_counterexample :
    filled_buffer.initialized = true ∧
    filled_buffer.nvs.entry NVS_COUNT_ID = some (le_bytes 2 filled_buffer.buffered_count) ∧
    (store_torn 3 filled_buffer (mk_reading 4)).entry filled_buffer.write_id =
      some (mk_reading 4).to_bytes ∧
    (kargo_flash_buffer_init 3 platform_ok
      (flash_buffer.boot (store_torn 3 filled_buffer (mk_reading 4)))).2 = 0 ∧
    (kargo_flash_buffer_init 3 platform_ok
      (flash_buffer.boot (store_torn 3 filled_buffer (mk_reading 4)))).1.buffered_count = 3 ∧
    (kargo_flash_buffer_init 3 platform_ok
      (flash_buffer.boot (store_torn 3 filled_buffer (mk_reading 4)))).1.read_id =
      filled_buffer.write_id ∧
    (kargo_flash_buffer_retrieve 3 none none
      (kargo_flash_buffer_init 3 platform_ok
        (flash_buffer.boot (store_torn 3 filled_buffer (mk_reading 4)))).1
      (mk_reading 0)).2 = (mk_reading 4, 0) := by
  decide

/-- C16: on a buffer whose count is a 16-bit value, after a store, a retrieve or a clear
that returns 0 and whose write of id 0 goes through, id 0 encodes the count that
`kargo_flash_buffer_count` returns, and `kargo_flash_buffer_init` after a restart on that
flash content (platform calls and the read of id 0 going through) yields the same count. -/
theorem C16_persisted_count_tracks (cap : Nat) (env : init_env) (s : flash_buffer)
    (r buf : kargo_sensor_reading) (f : Fault)
    (hty : s.buffered_count < 65536)
    (h1 : env.device_ready = true) (h2 : env.page_info_rc = 0) (h3 : env.mount_rc = 0)
    (h4 : env.read_fault = none) :
    ((kargo_flash_buffer_store cap f none s r).2 = 0 →
      count_tracked cap env (kargo_flash_buffer_store cap f none s r).1) ∧
    ((kargo_flash_buffer_retrieve cap f none s buf).2.2 = 0 →
      count_tracked cap env (kargo_flash_buffer_retrieve cap f none s buf).1) ∧
    ((kargo_flash_buffer_clear none s).2 = 0 →
      count_tracked cap env (kargo_flash_buffer_clear none s).1) := by
  refine ⟨?_, ?_, ?_⟩
  · intro h
    obtain ⟨hi, hf⟩ := store_rc_zero cap f none s r h
    subst hf
    obtain ⟨a, b⟩ := store_persists cap s r hi hty
    exact count_tracked_of_entry cap env _ h1 h2 h3 h4 a b
  · intro h
    obtain ⟨hi, hc, hf, b, hb⟩ := retrieve_rc_zero cap f none s buf h
    subst hf
    obtain ⟨a, b⟩ := retrieve_persists cap s b buf hi hc hb hty
    exact count_tracked_of_entry cap env _ h1 h2 h3 h4 a b
  · intro h
    obtain ⟨a, b⟩ := clear_persists s (clear_rc_zero none s h)
    exact count_tracked_of_entry cap env _ h1 h2 h3 h4 a b

/-- C16 on the sample buffer of capacity 3. -/
theorem C16_witness :
    (sample_buffer.buffered_count < 65536 ∧ platform_ok.device_ready = true ∧
     platform_ok.page_info_rc = 0 ∧ platform_ok.mount_rc = 0 ∧
     platform_ok.read_fault = none ∧
     (kargo_flash_buffer_store 3 none none sample_buffer (mk_reading 9)).2 = 0 ∧
     (kargo_flash_buffer_retrieve 3 none none sample_buffer (mk_reading 0)).2.2 = 0 ∧
     (kargo_flash_buffer_clear none sample_buffer).2 = 0) ∧
    (((kargo_flash_buffer_store 3 none none sample_buffer (mk_reading 9)).2 = 0 →
      count_tracked 3 platform_ok
        (kargo_flash_buffer_store 3 none none sample_buffer (mk_reading 9)).1) ∧
     ((kargo_flash_buffer_retrieve 3 none none sample_buffer (mk_reading 0)).2.2 = 0 →
      count_tracked 3 platform_ok
        (kargo_flash_buffer_retrieve 3 none none sample_buffer (mk_reading 0)).1) ∧
     ((kargo_flash_buffer_clear none sample_buffer).2 = 0 →
      count_tracked 3 platform_ok (kargo_flash_buffer_clear none sample_buffer).1)) :=
  ⟨⟨by decide, rfl, rfl, rfl, rfl, by decide, by decide, by decide⟩,
   C16_persisted_count_tracks 3 platform_ok sample_buffer (mk_reading 9) (mk_reading 0) none
    (by decide) rfl rfl rfl rfl⟩

/-- C17 fails on the code: one iteration of the MQTT thread on a connected manager whose
buffer (`sample_buffer`, capacity 3) holds two readings, in which `mqtt_live` fails.  The
error path clears `connected` and falls through, so control reaches the drain block with
the flag false and a non-empty buffer; the block pops the oldest reading and
`mqtt_manager_publish`, finding the flag false, stores it again at the tail: the read cursor
moves from 2 to 3, the write cursor from 1 to 2, and slot 1, empty before, holds the popped
reading. -/
theorem C17_drain_after_disconnect :
    (mqtt_thread_fn_head live_error_env (mqtt_manager.online sample_buffer)).2 = true ∧
    (mqtt_thread_fn_head live_error_env (mqtt_manager.online sample_buffer)).1.connected
      = false ∧
    kargo_flash_buffer_count
      (mqtt_thread_fn_head live_error_env (mqtt_manager.online sample_buffer)).1.fb = 2 ∧
    (sample_buffer.read_id = 2 ∧
     (mqtt_thread_fn_iter 3 live_error_env (mqtt_manager.online sample_buffer)).fb.read_id
      = 3) ∧
    (sample_buffer.write_id = 1 ∧
     (mqtt_thread_fn_iter 3 live_error_env (mqtt_manager.online sample_buffer)).fb.write_id
      = 2) ∧
    (sample_buffer.nvs.entry 1 = none ∧
     (mqtt_thread_fn_iter 3 live_error_env (mqtt_manager.online sample_buffer)).fb.nvs.entry 1
      = some (mk_reading 5).to_bytes) ∧
    (mqtt_thread_fn_iter 3 live_error_env (mqtt_manager.online sample_buffer)).published
      = [] := by
  decide

/-- C18, for capacities up to 65534: on an initialised, connected manager whose buffer
holds `x :: q` (so between 1 and `cap` readings), when the NVS operations go through and
`mqtt_publish` fails, one pass through the drain block calls `mqtt_publish` once, with the
payload of `x`, and leaves the buffer holding `q` followed by a reading with the nine data
fields of `x`; the count is what it was. -/
theorem C18_failed_drain_requeues (cap : Nat) (env : drain_env) (m : mqtt_manager)
    (x : kargo_sensor_reading) (q : List kargo_sensor_reading)
    (hcap : cap ≤ 65534) (hm : m.initialized = true) (hc : m.connected = true)
    (hq : holds cap m.fb (x :: q))
    (hf1 : env.f_slot = none) (hf2 : env.f_count = none)
    (hf3 : env.pub.f_slot = none) (hf4 : env.pub.f_count = none)
    (hrc : env.pub.publish_rc ≠ 0) :
    holds cap (mqtt_thread_fn_drain cap env m).fb
      (q ++ [x.data.to_reading env.pub.reserved]) ∧
    (x.data.to_reading env.pub.reserved).data = x.data ∧
    kargo_flash_buffer_count (mqtt_thread_fn_drain cap env m).fb = (x :: q).length ∧
    (mqtt_thread_fn_drain cap env m).published =
      m.published ++ [(x.data, env.pub.publish_rc)] := by
  rw [drain_requeues cap env m x q hcap hm hc hq hf1 hf2 hrc, hf3, hf4]
  obtain ⟨-, hq1⟩ := holds_retrieve cap m.fb x q env.buffered hcap hq
  obtain ⟨-, hq2⟩ := holds_store cap _ q (x.data.to_reading env.pub.reserved) hcap hq1
  have hlen : ¬ q.length ≥ cap := by
    have := hq.bound
    simp only [List.length_cons] at this
    omega
  have hpush : push_oldest cap q (x.data.to_reading env.pub.reserved) =
      q ++ [x.data.to_reading env.pub.reserved] := by
    unfold push_oldest
    rw [if_neg hlen]
  rw [hpush] at hq2
  refine ⟨hq2, data_to_reading _ _, ?_, rfl⟩
  rw [count_eq]
  show (kargo_flash_buffer_store cap none none _ _).1.buffered_count = _
  rw [hq2.count]
  simp

/-- C18 on the sample buffer of capacity 3, holding `mk_reading 5` and `mk_reading 6`, with
`mqtt_publish` failing with `-EIO`. -/
theorem C18_witness :
    ((3 : Nat) ≤ 65534 ∧ (mqtt_manager.online sample_buffer).initialized = true ∧
     (mqtt_manager.online sample_buffer).connected = true ∧
     holds 3 (mqtt_manager.online sample_buffer).fb (mk_reading 5 :: [mk_reading 6]) ∧
     (drain_env.clean (-5)).f_slot = none ∧ (drain_env.clean (-5)).f_count = none ∧
     (drain_env.clean (-5)).pub.f_slot = none ∧ (drain_env.clean (-5)).pub.f_count = none ∧
     (drain_env.clean (-5)).pub.publish_rc ≠ 0) ∧
    (holds 3 (mqtt_thread_fn_drain 3 (drain_env.clean (-5))
        (mqtt_manager.online sample_buffer)).fb
      ([mk_reading 6] ++ [(mk_reading 5).data.to_reading (drain_env.clean (-5)).pub.reserved]) ∧
     ((mk_reading 5).data.to_reading (drain_env.clean (-5)).pub.reserved).data =
        (mk_reading 5).data ∧
     kargo_flash_buffer_count (mqtt_thread_fn_drain 3 (drain_env.clean (-5))
        (mqtt_manager.online sample_buffer)).fb = (mk_reading 5 :: [mk_reading 6]).length ∧
     (mqtt_thread_fn_drain 3 (drain_env.clean (-5))
        (mqtt_manager.online sample_buffer)).published =
      (mqtt_manager.online sample_buffer).published ++
        [((mk_reading 5).data, (drain_env.clean (-5)).pub.publish_rc)]) :=
  have hq : holds 3 (mqtt_manager.online sample_buffer).fb (mk_reading 5 :: [mk_reading 6]) :=
    { init := rfl
      rd_lo := by decide
      rd_hi := by decide
      count := rfl
      bound := by decide
      wr := by decide
      slots := by
        intro i r h
        match i, h with
        | 0, h => cases h; decide
        | 1, h => cases h; decide }
  ⟨⟨by decide, rfl, rfl, hq, rfl, rfl, rfl, rfl, by decide⟩,
   C18_failed_drain_requeues 3 (drain_env.clean (-5)) (mqtt_manager.online sample_buffer)
    (mk_reading 5) [mk_reading 6] (by decide) rfl rfl hq rfl rfl rfl rfl (by decide)⟩

/-- C18 fails at capacity 65535: `edge_buffer` holds one reading in slot 65535; the drain
pass pops it and the increment of the read cursor wraps to 0, which is not above the
capacity, so the read cursor stays 0.  The buffer no longer holds the popped reading: the
next retrieve reads id 0, the count, and returns another reading. -/
theorem C18_counterexample :
    holds 65535 edge_buffer [mk_reading 5] ∧
    (mqtt_thread_fn_drain 65535 (drain_env.clean (-5))
      (mqtt_manager.online edge_buffer)).fb.read_id = 0 ∧
    ¬ holds 65535 (mqtt_thread_fn_drain 65535 (drain_env.clean (-5))
        (mqtt_manager.online edge_buffer)).fb
      ([] ++ [(mk_reading 5).data.to_reading (drain_env.clean (-5)).pub.reserved]) ∧
    (kargo_flash_buffer_retrieve 65535 none none
      (mqtt_thread_fn_drain 65535 (drain_env.clean (-5))
        (mqtt_manager.online edge_buffer)).fb (mk_reading 0)).2.2 = 0 ∧
    (kargo_flash_buffer_retrieve 65535 none none
      (mqtt_thread_fn_drain 65535 (drain_env.clean (-5))
        (mqtt_manager.online edge_buffer)).fb (mk_reading 0)).2.1 ≠ mk_reading 5 := by
  refine ⟨?_, by decide, fun h => absurd h.rd_lo (by decide), by decide, by decide⟩
  exact
    { init := rfl
      rd_lo := by decide
      rd_hi := by decide
      count := rfl
      bound := by decide
      wr := by decide
      slots := by
        intro i r h
        match i, h with
        | 0, h => cases h; decide }

/-- C19 fails on the code: when the flash device is not ready, `mqtt_manager_init` on the
boot state returns `-ENODEV` and leaves the manager uninitialised; `mqtt_manager_publish`
then returns `-EINVAL` at its first test and stores nothing: the count is still 0 and slot
1 is still empty.  On an initialised, disconnected manager whose slot write fails with
`-EIO` the call returns that negative value and the slot under the write cursor is not
written either. -/
theorem C19_negative_return_not_buffered :
    ((mqtt_manager_init 3 platform_no_flash (mqtt_manager.boot blank_flash)).2 = -ENODEV ∧
     (mqtt_manager_init 3 platform_no_flash (mqtt_manager.boot blank_flash)).1.initialized
       = false ∧
     (mqtt_manager_publish 3 (publish_env.clean 0)
       (mqtt_manager_init 3 platform_no_flash (mqtt_manager.boot blank_flash)).1
       (mk_data 7)).2 = -EINVAL ∧
     kargo_flash_buffer_count (mqtt_manager_publish 3 (publish_env.clean 0)
       (mqtt_manager_init 3 platform_no_flash (mqtt_manager.boot blank_flash)).1
       (mk_data 7)).1.fb = 0 ∧
     (mqtt_manager_publish 3 (publish_env.clean 0)
       (mqtt_manager_init 3 platform_no_flash (mqtt_manager.boot blank_flash)).1
       (mk_data 7)).1.fb.nvs.entry 1 = none) ∧
    ((mqtt_manager_publish 3 (publish_env.mk 0 0 (some 4) none)
       (mqtt_manager.offline sample_buffer) (mk_data 7)).2 = Fault.rc 4 ∧
     Fault.rc 4 < 0 ∧
     (mqtt_manager_publish 3 (publish_env.mk 0 0 (some 4) none)
       (mqtt_manager.offline sample_buffer) (mk_data 7)).1.fb.nvs.entry
         sample_buffer.write_id = none) := by
  decide

/-- C21, for capacities from 1 to 65534: after every finite sequence of store and retrieve
calls (all NVS operations going through) from an empty initialised buffer with both cursors
on slot 1, the buffer holds the abstract queue obtained by the same pushes and pops on the
drop-oldest list: the count is its length, the write cursor is the read cursor advanced by
that many slots with wraparound, and the slots walked from the read cursor hold its
elements in order; the next store returns 0; and the next retrieve answers what the pop of
the abstract queue answers, its head with 0, or `-ENODATA` exactly when it is empty. -/
theorem C21_refines_drop_oldest (cap : Nat) (s0 : flash_buffer) (calls : List queue_call)
    (h1 : 1 ≤ cap) (h2 : cap ≤ 65534) (h0 : is_fresh s0) :
    holds cap (fb_run cap s0 (calls.map queue_call.to_fb)) (queue_run cap [] calls) ∧
    (∀ r, (kargo_flash_buffer_store cap none none
        (fb_run cap s0 (calls.map queue_call.to_fb)) r).2 = 0) ∧
    (∀ buf, (kargo_flash_buffer_retrieve cap none none
        (fb_run cap s0 (calls.map queue_call.to_fb)) buf).2 =
      pop_reply (queue_run cap [] calls) buf) ∧
    (∀ buf, (kargo_flash_buffer_retrieve cap none none
        (fb_run cap s0 (calls.map queue_call.to_fb)) buf).2.2 = -ENODATA ↔
      queue_run cap [] calls = []) := by
  have h := holds_queue_run cap h2 calls s0 [] (holds_fresh cap s0 h1 h0)
  refine ⟨h, fun r => (holds_store cap _ _ r h2 h).1,
    fun buf => (holds_pop_reply cap h2 _ _ buf h).1, ?_⟩
  intro buf
  rw [(holds_pop_reply cap h2 _ _ buf h).1]
  cases queue_run cap [] calls with
  | nil => exact ⟨fun _ => rfl, fun _ => rfl⟩
  | cons x q =>
    constructor
    · intro hx
      have hx' : (0 : Int) = -ENODATA := hx
      exact absurd hx' (by decide)
    · intro hx
      exact absurd hx (by simp)

/-- C21 at capacity 3 on a blank flash partition with five pushes and two pops. -/
theorem C21_witness :
    ((1 : Nat) ≤ 3 ∧ (3 : Nat) ≤ 65534 ∧
     is_fresh (kargo_flash_buffer_init 3 platform_ok (flash_buffer.boot blank_flash)).1) ∧
    (holds 3
      (fb_run 3 (kargo_flash_buffer_init 3 platform_ok (flash_buffer.boot blank_flash)).1
        ([queue_call.push (mk_reading 1), queue_call.push (mk_reading 2),
          queue_call.pop (mk_reading 0), queue_call.push (mk_reading 3),
          queue_call.push (mk_reading 4), queue_call.push (mk_reading 5),
          queue_call.pop (mk_reading 0)].map queue_call.to_fb))
      (queue_run 3 []
        [queue_call.push (mk_reading 1), queue_call.push (mk_reading 2),
          queue_call.pop (mk_reading 0), queue_call.push (mk_reading 3),
          queue_call.push (mk_reading 4), queue_call.push (mk_reading 5),
          queue_call.pop (mk_reading 0)]) ∧
     queue_run 3 []
        [queue_call.push (mk_reading 1), queue_call.push (mk_reading 2),
          queue_call.pop (mk_reading 0), queue_call.push (mk_reading 3),
          queue_call.push (mk_reading 4), queue_call.push (mk_reading 5),
          queue_call.pop (mk_reading 0)] = [mk_reading 4, mk_reading 5]) :=
  ⟨⟨by decide, by decide, ⟨rfl, rfl, rfl, rfl⟩⟩,
   (C21_refines_drop_oldest 3
      (kargo_flash_buffer_init 3 platform_ok (flash_buffer.boot blank_flash)).1
      [queue_call.push (mk_reading 1), queue_call.push (mk_reading 2),
        queue_call.pop (mk_reading 0), queue_call.push (mk_reading 3),
        queue_call.push (mk_reading 4), queue_call.push (mk_reading 5),
        queue_call.pop (mk_reading 0)] (by decide) (by decide) ⟨rfl, rfl, rfl, rfl⟩).1,
   by decide⟩

/-- C21 fails at capacity 65535: after 65535 pushes from the empty buffer the write cursor,
incremented from 65535, is 0 on 16 bits and not above the capacity, so it stays 0; it is
not the read cursor advanced by the length of the abstract queue, which is a slot id. -/
theorem C21_counterexample :
    ¬ holds 65535
      (fb_run 65535 (kargo_flash_buffer_init 65535 platform_ok (flash_buffer.boot blank_flash)).1
        (((List.replicate 65535 (mk_reading 0)).map queue_call.push).map queue_call.to_fb))
      (queue_run 65535 [] ((List.replicate 65535 (mk_reading 0)).map queue_call.push)) := by
  intro h
  have hpos := holds_write_pos _ _ _ h
  have h0 := (init_no_metadata 65535 platform_ok blank_flash rfl (by decide)).1
  rw [fb_run_pushes, write_zero_65535 _ (mk_reading 0) h0] at hpos
  exact absurd hpos (by decide)

/-- C22 fails on the code: `kargo_flash_buffer_store` increments the count, or on a full
buffer advances the read cursor, before its slot write, and returns on a failed write
without undoing it.  On `sample_buffer` (capacity 3, count 2) a store whose slot write fails
with `-EIO` returns that code, writes no slot, leaves the write cursor on slot 1, and leaves
the count 3; on `filled_buffer` (full) it leaves the read cursor on slot 2 instead of 1.
On a freshly initialised blank partition a failed store followed by a successful store of
`mk_reading 9` leaves the count 2: the first retrieve returns `mk_reading 9` and the second
fails with `-ENOENT` on a slot that was never written, the count staying 1. -/
theorem C22_failed_store_not_atomic :
    ((kargo_flash_buffer_store 3 (some 4) none sample_buffer (mk_reading 7)).2 = Fault.rc 4 ∧
     Fault.rc 4 < 0 ∧
     (kargo_flash_buffer_store 3 (some 4) none sample_buffer (mk_reading 7)).1.nvs.entry
        sample_buffer.write_id = sample_buffer.nvs.entry sample_buffer.write_id ∧
     (kargo_flash_buffer_store 3 (some 4) none sample_buffer (mk_reading 7)).1.write_id =
        sample_buffer.write_id ∧
     sample_buffer.buffered_count = 2 ∧
     (kargo_flash_buffer_store 3 (some 4) none sample_buffer (mk_reading 7)).1.buffered_count
        = 3) ∧
    ((kargo_flash_buffer_store 3 (some 4) none filled_buffer (mk_reading 7)).2 = Fault.rc 4 ∧
     filled_buffer.read_id = 1 ∧
     (kargo_flash_buffer_store 3 (some 4) none filled_buffer (mk_reading 7)).1.read_id = 2) ∧
    (kargo_flash_buffer_count
       (fb_run 3 (kargo_flash_buffer_init 3 platform_ok (flash_buffer.boot blank_flash)).1
         [fb_call.store (mk_reading 7) (some 4) none,
          fb_call.store (mk_reading 9) none none]) = 2 ∧
     (kargo_flash_buffer_retrieve 3 none none
       (fb_run 3 (kargo_flash_buffer_init 3 platform_ok (flash_buffer.boot blank_flash)).1
         [fb_call.store (mk_reading 7) (some 4) none,
          fb_call.store (mk_reading 9) none none]) (mk_reading 0)).2 = (mk_reading 9, 0) ∧
     (kargo_flash_buffer_retrieve 3 none none
       (fb_run 3 (kargo_flash_buffer_init 3 platform_ok (flash_buffer.boot blank_flash)).1
         [fb_call.store (mk_reading 7) (some 4) none,
          fb_call.store (mk_reading 9) none none,
          fb_call.retrieve (mk_reading 0) none none]) (mk_reading 0)).2.2 = -ENOENT ∧
     kargo_flash_buffer_count
       (fb_run 3 (kargo_flash_buffer_init 3 platform_ok (flash_buffer.boot blank_flash)).1
         [fb_call.store (mk_reading 7) (some 4) none,
          fb_call.store (mk_reading 9) none none,
          fb_call.retrieve (mk_reading 0) none none,
          fb_call.retrieve (mk_reading 0) none none]) = 1) := by
  decide

/-- C23: whenever `kargo_flash_buffer_retrieve` returns a non-zero result, the module is not
initialised, or the buffer is empty, or the slot read failed; the statics and the NVS
content are what they were before the call; and so every following retrieve behaves as it
would have without the failed one. -/
theorem C23_failed_retrieve_atomic (cap : Nat) (f g : Fault) (s : flash_buffer)
    (buf : kargo_sensor_reading)
    (h : (kargo_flash_buffer_retrieve cap f g s buf).2.2 ≠ 0) :
    (kargo_flash_buffer_retrieve cap f g s buf).1 = s ∧
    (s.initialized = false ∨ s.buffered_count = 0 ∨
      (nvs_read f s.nvs s.read_id buf.to_bytes READING_SIZE).2 < 0) ∧
    ∀ (f1 g1 : Fault) (buf1 : kargo_sensor_reading),
      kargo_flash_buffer_retrieve cap f1 g1 (kargo_flash_buffer_retrieve cap f g s buf).1 buf1 =
        kargo_flash_buffer_retrieve cap f1 g1 s buf1 := by
  have key : (kargo_flash_buffer_retrieve cap f g s buf).1 = s ∧
      (s.initialized = false ∨ s.buffered_count = 0 ∨
        (nvs_read f s.nvs s.read_id buf.to_bytes READING_SIZE).2 < 0) := by
    unfold kargo_flash_buffer_retrieve at h ⊢
    by_cases hi : s.initialized = true
    · rw [if_neg (by simp [hi])] at h ⊢
      by_cases hc : s.buffered_count = 0
      · rw [if_pos hc]
        exact ⟨rfl, Or.inr (Or.inl hc)⟩
      · rw [if_neg hc] at h ⊢
        by_cases hr : (nvs_read f s.nvs s.read_id buf.to_bytes READING_SIZE).2 < 0
        · simp only [hr, if_true]
          exact ⟨trivial, Or.inr (Or.inr trivial)⟩
        · simp only [hr, if_false] at h
          exact absurd rfl h
    · rw [if_pos (by simpa using hi)]
      exact ⟨rfl, Or.inl (by simpa using hi)⟩
  refine ⟨key.1, key.2, ?_⟩
  intro f1 g1 buf1
  rw [key.1]

/-- C23 on the sample buffer of capacity 3 with a slot read that fails with `-EIO`. -/
theorem C23_witness :
    (kargo_flash_buffer_retrieve 3 (some 4) none sample_buffer (mk_reading 0)).2.2 ≠ 0 ∧
    ((kargo_flash_buffer_retrieve 3 (some 4) none sample_buffer (mk_reading 0)).1 =
        sample_buffer ∧
     (sample_buffer.initialized = false ∨ sample_buffer.buffered_count = 0 ∨
       (nvs_read (some 4) sample_buffer.nvs sample_buffer.read_id (mk_reading 0).to_bytes
          READING_SIZE).2 < 0) ∧
     ∀ (f1 g1 : Fault) (buf1 : kargo_sensor_reading),
       kargo_flash_buffer_retrieve 3 f1 g1
         (kargo_flash_buffer_retrieve 3 (some 4) none sample_buffer (mk_reading 0)).1 buf1 =
         kargo_flash_buffer_retrieve 3 f1 g1 sample_buffer buf1) :=
  ⟨by decide,
   C23_failed_retrieve_atomic 3 (some 4) none sample_buffer (mk_reading 0) (by decide)⟩

/-- C24 fails on the code: with the count 100, the sample's capacity, persisted under id 0,
`init_storage` of the sample leaves the write cursor `100 + 1 = 101`, above the capacity,
where `kargo_flash_buffer_init` at capacity 100 wraps it to 1; count and read cursor agree.
The next `buffer_reading` of the sample then writes under id 101, the next
`kargo_flash_buffer_store` of the module under id 1. -/
theorem C24_sample_init_skips_wrap :
    (full_count_flash.entry NVS_COUNT_ID = some (le_bytes 2 100) ∧
     100 ≤ MAX_BUFFERED_READINGS) ∧
    ((init_storage platform_ok (sample_storage.boot full_count_flash)).2 = 0 ∧
     (init_storage platform_ok (sample_storage.boot full_count_flash)).1.buffered_count = 100 ∧
     (init_storage platform_ok (sample_storage.boot full_count_flash)).1.nvs_read_id = 1 ∧
     (init_storage platform_ok (sample_storage.boot full_count_flash)).1.nvs_write_id = 101) ∧
    ((kargo_flash_buffer_init MAX_BUFFERED_READINGS platform_ok
        (flash_buffer.boot full_count_flash)).2 = 0 ∧
     (kargo_flash_buffer_init MAX_BUFFERED_READINGS platform_ok
        (flash_buffer.boot full_count_flash)).1.buffered_count = 100 ∧
     (kargo_flash_buffer_init MAX_BUFFERED_READINGS platform_ok
        (flash_buffer.boot full_count_flash)).1.read_id = 1 ∧
     (kargo_flash_buffer_init MAX_BUFFERED_READINGS platform_ok
        (flash_buffer.boot full_count_flash)).1.write_id = 1) ∧
    ¬ (init_storage platform_ok (sample_storage.boot full_count_flash)).1.nvs_write_id
        ≤ MAX_BUFFERED_READINGS ∧
    ((buffer_reading none none
        (init_storage platform_ok (sample_storage.boot full_count_flash)).1
        (le_bytes 56 9)).1.nvs.entry 101 = some (le_bytes 56 9) ∧
     (buffer_reading none none
        (init_storage platform_ok (sample_storage.boot full_count_flash)).1
        (le_bytes 56 9)).1.nvs.entry 1 = none ∧
     (kargo_flash_buffer_store MAX_BUFFERED_READINGS none none
        (kargo_flash_buffer_init MAX_BUFFERED_READINGS platform_ok
          (flash_buffer.boot full_count_flash)).1 (mk_reading 9)).1.nvs.entry 1 =
        some (mk_reading 9).to_bytes ∧
     (kargo_flash_buffer_store MAX_BUFFERED_READINGS none none
        (kargo_flash_buffer_init MAX_BUFFERED_READINGS platform_ok
          (flash_buffer.boot full_count_flash)).1 (mk_reading 9)).1.nvs.entry 101 = none) := by
  decide

/-- C25 fails on the code: the product `125 * hum_raw` stays below `2 ^ 31`, but the result
`125 * hum_raw / 65535 - 6` is stored in the `uint16_t` field `humidity`.  For the raw word
0 the documented formula gives -6 and `sht4x_channel_get` reports 65530 in `val1`; for 3145
it gives -1 and `val1` is 65535.  From 3146 on the result is not negative and `val1` is the
formula's value: 0 for 3146 and 119 for 65535. -/
theorem C25_humidity_wraps_below_zero :
    (125 * 65535 < 2 ^ 31) ∧
    ((sht4x_sample_fetch (fetch_env.humidity 0) (sht4x_data.mk 0 0)).2 = 0 ∧
     rh_formula 0 = -6 ∧
     (sht4x_channel_get (sht4x_sample_fetch (fetch_env.humidity 0) (sht4x_data.mk 0 0)).1
        sensor_channel.SENSOR_CHAN_HUMIDITY (sensor_value.mk 0 0)) =
       (sensor_value.mk 65530 0, 0)) ∧
    (rh_formula 3145 = -1 ∧
     (sht4x_channel_get (sht4x_sample_fetch (fetch_env.humidity 3145) (sht4x_data.mk 0 0)).1
        sensor_channel.SENSOR_CHAN_HUMIDITY (sensor_value.mk 0 0)) =
       (sensor_value.mk 65535 0, 0)) ∧
    (rh_formula 3146 = 0 ∧
     (sht4x_channel_get (sht4x_sample_fetch (fetch_env.humidity 3146) (sht4x_data.mk 0 0)).1
        sensor_channel.SENSOR_CHAN_HUMIDITY (sensor_value.mk 0 0)) =
       (sensor_value.mk 0 0, 0)) ∧
    (rh_formula 65535 = 119 ∧
     (sht4x_channel_get (sht4x_sample_fetch (fetch_env.humidity 65535) (sht4x_data.mk 0 0)).1
        sensor_channel.SENSOR_CHAN_HUMIDITY (sensor_value.mk 0 0)) =
       (sensor_value.mk 119 0, 0)) := by
  decide

/-- C26 fails on the code for the sample's handler: `write_diagnostic` rejects a request
only when `offset + len` is above 256, so a request of 6 bytes at offset 250 passes, the
copy fills the cells 250 to 255, and the terminator is written to cell 256, the first cell
after the array; so does the empty request at offset 256.  The application's `write_diag`,
whose bound is 255, rejects both requests with the ATT error and writes nothing. -/
theorem C26_sample_terminator_out_of_bounds :
    ((250 : Nat) < 65536 ∧ (6 : Nat) < 65536 ∧ ¬ (250 + 6 > 256)) ∧
    ((write_diagnostic (fun _ => 1) [114, 101, 98, 111, 111, 116] 6 250).2 = 6 ∧
     (write_diagnostic (fun _ => 1) [114, 101, 98, 111, 111, 116] 6 250).1 255 = 116 ∧
     (write_diagnostic (fun _ => 1) [114, 101, 98, 111, 111, 116] 6 250).1 (250 + 6) = 0 ∧
     ¬ (250 + 6 < 256)) ∧
    ((write_diagnostic (fun _ => 1) [] 0 256).2 = 0 ∧
     (write_diagnostic (fun _ => 1) [] 0 256).1 (256 + 0) = 0 ∧
     ¬ (256 + 0 < 256)) ∧
    ((write_diag (fun _ => 1) [114, 101, 98, 111, 111, 116] 6 250).2 =
        -BT_ATT_ERR_INVALID_OFFSET ∧
     (write_diag (fun _ => 1) [114, 101, 98, 111, 111, 116] 6 250).1 (250 + 6) = 1 ∧
     (write_diag (fun _ => 1) [] 0 256).2 = -BT_ATT_ERR_INVALID_OFFSET) := by
  decide

end Kargo
